import Mathlib

/-!
# Input-method mediation core of weston (compositor/text-backend.c)

A shallow embedding of the text-input / input-method state machine.

* C objects live in heaps indexed by their address (`Ptr`); a nullable C
  pointer is an `Option Ptr`, `NULL` being `none`.
* `uint32_t` values are naturals (arithmetic is reduced modulo `2^32` where the
  code computes), `int32_t` values are integers.
* Every call that leaves the module (a protocol event sent on a resource, a
  signal emitted on the compositor) is appended to `State.trace`, with the
  arguments of the call, in program order.
* There is one compositor and one manager of each kind per compositor
  (`text_backend_init` creates each exactly once), so `text_input->ec`,
  `text_input->manager` and `input_method->manager` are not stored per object.
* The process supervisor has its own record, `text_backend`, with the calls it
  made; the clock and the result of starting the helper are arguments.

Two further namespaces follow the definitions of the mediation core:
`KeyboardClient` for the on-screen keyboard (clients/keyboard.c) and
`VncBackend` for the key injection of the VNC backend
(libweston/backend-vnc/vnc.c). All definitions come first, the theorems after
them, namespace by namespace.
-/

namespace TextBackend

/-- Address of a C object (a session, a seat, a keyboard, a surface, a resource). -/
abbrev Ptr := Nat

/-- Conversion of an `int32_t` argument to the `uint32_t` field it is stored in. -/
def to_uint32 (i : Int) : Nat := (i % 4294967296).toNat

/-- Result of an `int32_t` addition, wrapped to the 32-bit two-complement range. -/
def add_int32 (a b : Int) : Int := (a + b + 2147483648) % 4294967296 - 2147483648

/-- Rectangle `pixman_box32_t`. -/
@[ext] structure pixman_box32_t where
  x1 : Int
  y1 : Int
  x2 : Int
  y2 : Int
deriving DecidableEq

/-- Anonymous member `surrounding` of `struct text_input_state`. -/
@[ext] structure surrounding_t where
  text : Option String
  cursor : Nat
  anchor : Nat
deriving DecidableEq

/-- Anonymous member `content_type` of `struct text_input_state`. -/
@[ext] structure content_type_t where
  hint : Nat
  purpose : Nat
deriving DecidableEq

/-- C `struct text_input_state`. -/
@[ext] structure text_input_state where
  surrounding : surrounding_t
  text_change_cause : Nat
  content_type : content_type_t
  cursor_rectangle : pixman_box32_t
deriving DecidableEq

/-- C `struct text_input` (without `ec`, `manager` and the list link). -/
@[ext] structure text_input where
  resource : Option Ptr
  seat : Option Ptr
  input_method : Option Ptr
  surface : Option Ptr
  input_panel_visible : Bool
  current_serial : Nat
  pending_enabled : Bool
  current_enabled : Bool
  pending : text_input_state
  current : text_input_state
deriving DecidableEq

/-- C `struct text_input_manager`: the current session and the registry. -/
@[ext] structure text_input_manager where
  current_text_input : Option Ptr
  text_inputs : List Ptr
deriving DecidableEq

/-- Anonymous member `preedit` of `struct input_method_state`. -/
@[ext] structure preedit_t where
  text : Option String
  cursor_begin : Int
  cursor_end : Int
deriving DecidableEq

/-- Anonymous member `delete` of `struct input_method_state`. -/
@[ext] structure delete_t where
  before_length : Nat
  after_length : Nat
deriving DecidableEq

/-- C `struct input_method_state`. -/
@[ext] structure input_method_state where
  preedit : preedit_t
  commit_text : Option String
  delete : delete_t
deriving DecidableEq

/-- C `struct input_method` (without `ec`, `manager`, the listener and the list link). -/
@[ext] structure input_method where
  resource : Option Ptr
  seat : Option Ptr
  input : Option Ptr
  focus_listener_initialized : Bool
  keyboard : Option Ptr
  pending_focused_surface : Option Ptr
  pending : input_method_state
  current : input_method_state
deriving DecidableEq

/-- C `struct input_method_manager`: the registry of input method sessions. -/
@[ext] structure input_method_manager where
  input_methods : List Ptr
deriving DecidableEq

/-- Modelled from the spec: `struct weston_seat` is declared in the libweston
headers; the module uses its `input_method` member and its keyboard
(`weston_seat_get_keyboard`, `NULL` when the seat has none). -/
@[ext] structure weston_seat where
  input_method : Option Ptr
  keyboard : Option Ptr
deriving DecidableEq

/-- Which grab `keyboard->grab` points to. -/
inductive keyboard_grab where
  | default_grab
  | input_method_grab
  | other_grab (g : Ptr)
deriving DecidableEq

/-- Modelled from the spec: `struct weston_keyboard` is declared in the libweston
headers; the module uses `focus`, `grab`, `input_method_resource` and the
back pointer `input_method_grab.keyboard`. -/
@[ext] structure weston_keyboard where
  focus : Option Ptr
  grab : keyboard_grab
  input_method_resource : Option Ptr
  input_method_grab_keyboard : Option Ptr
deriving DecidableEq

/-- One call leaving the module: a protocol event (first argument: the resource
it is sent on) or a signal of the compositor. A surface argument stands for
`surface->resource`. -/
inductive Event where
  | zwp_input_method_v2_send_activate (resource : Option Ptr)
  | zwp_input_method_v2_send_deactivate (resource : Option Ptr)
  | zwp_input_method_v2_send_surrounding_text (resource : Option Ptr)
      (text : String) (cursor : Nat) (anchor : Nat)
  | zwp_input_method_v2_send_text_change_cause (resource : Option Ptr) (cause : Nat)
  | zwp_input_method_v2_send_content_type (resource : Option Ptr) (hint : Nat) (purpose : Nat)
  | zwp_input_method_v2_send_done (resource : Option Ptr)
  | zwp_text_input_v3_send_enter (resource : Option Ptr) (surface : Ptr)
  | zwp_text_input_v3_send_leave (resource : Option Ptr) (surface : Ptr)
  | zwp_text_input_v3_send_preedit_string (resource : Option Ptr)
      (text : String) (cursor_begin : Int) (cursor_end : Int)
  | zwp_text_input_v3_send_commit_string (resource : Option Ptr) (text : String)
  | zwp_text_input_v3_send_delete_surrounding_text (resource : Option Ptr)
      (before_length : Nat) (after_length : Nat)
  | zwp_text_input_v3_send_done (resource : Option Ptr) (serial : Nat)
  | show_input_panel_signal (surface : Option Ptr)
  | hide_input_panel_signal
  | update_input_panel_signal (cursor_rectangle : pixman_box32_t)
  | wl_keyboard_send_key (resource : Option Ptr) (serial : Nat) (msecs : Nat)
      (key : Nat) (state_w : Nat)
  | wl_keyboard_send_modifiers (resource : Option Ptr) (serial : Nat)
      (mods_depressed : Nat) (mods_latched : Nat) (mods_locked : Nat) (group : Nat)
  | weston_keyboard_send_keymap (keyboard : Ptr) (resource : Option Ptr)
deriving DecidableEq

/-- The memory of the module together with the trace of the calls it made. -/
@[ext] structure State where
  ti : Ptr → text_input
  im : Ptr → input_method
  seat : Ptr → weston_seat
  kbd : Ptr → weston_keyboard
  text_input_manager : text_input_manager
  input_method_manager : input_method_manager
  trace : List Event

/-- Store `v` in the text input object at address `t`. -/
def State.set_ti (s : State) (t : Ptr) (v : text_input) : State :=
  { s with ti := Function.update s.ti t v }

/-- Store `v` in the input method object at address `m`. -/
def State.set_im (s : State) (m : Ptr) (v : input_method) : State :=
  { s with im := Function.update s.im m v }

/-- Record a call leaving the module. -/
def State.emit (s : State) (e : Event) : State :=
  { s with trace := s.trace ++ [e] }

/-- The zero-initialised `struct text_input_state` (`defaults = {0}`). -/
def text_input_state_zero : text_input_state :=
  { surrounding := { text := none, cursor := 0, anchor := 0 },
    text_change_cause := 0,
    content_type := { hint := 0, purpose := 0 },
    cursor_rectangle := { x1 := 0, y1 := 0, x2 := 0, y2 := 0 } }

/-- The zero-initialised `struct input_method_state` (`default_state = {0}`). -/
def input_method_state_zero : input_method_state :=
  { preedit := { text := none, cursor_begin := 0, cursor_end := 0 },
    commit_text := none,
    delete := { before_length := 0, after_length := 0 } }

/-- A `struct text_input` as `zalloc` returns it. -/
def text_input_zero : text_input :=
  { resource := none, seat := none, input_method := none, surface := none,
    input_panel_visible := false, current_serial := 0,
    pending_enabled := false, current_enabled := false,
    pending := text_input_state_zero, current := text_input_state_zero }

/-- A `struct input_method` as `zalloc` returns it. -/
def input_method_zero : input_method :=
  { resource := none, seat := none, input := none,
    focus_listener_initialized := false, keyboard := none,
    pending_focused_surface := none,
    pending := input_method_state_zero, current := input_method_state_zero }

/-- C `deactivate_text_input`. -/
def deactivate_text_input (s : State) (t : Ptr) : State :=
  let s1 :=
    if (s.ti t).input_method.isSome ∧ (s.ti t).input_panel_visible = true ∧
        s.text_input_manager.current_text_input = some t then
      (s.emit Event.hide_input_panel_signal).set_ti t
        { s.ti t with input_panel_visible := false }
    else s
  let s2 :=
    if s1.text_input_manager.current_text_input = some t then
      { s1 with text_input_manager :=
          { s1.text_input_manager with current_text_input := none } }
    else s1
  let s3 :=
    match (s2.ti t).input_method with
    | some m => s2.set_im m { s2.im m with input := none }
    | none => s2
  let s4 := s3.set_ti t { s3.ti t with input_method := none }
  let s5 :=
    match (s4.ti t).surface with
    | some surface =>
      s4.emit (Event.zwp_text_input_v3_send_leave (s4.ti t).resource surface)
    | none => s4
  s5.set_ti t { s5.ti t with surface := none }

/-- C `text_input_show_input_panel`. -/
def text_input_show_input_panel (s : State) (t : Ptr) : State :=
  let s1 := s.set_ti t { s.ti t with input_panel_visible := true }
  if (s1.ti t).input_method.isSome ∧
      s1.text_input_manager.current_text_input = some t then
    (s1.emit (Event.show_input_panel_signal (s1.ti t).surface)).emit
      (Event.update_input_panel_signal (s1.ti t).current.cursor_rectangle)
  else s1

/-- C `activate_text_input`. The surface passed to `enter` is
`text_input->surface`, which was just set to the non-null
`pending_focused_surface`. -/
def activate_text_input (s : State) (t : Ptr) : State :=
  match (s.ti t).seat with
  | none => s
  | some weston_seat =>
    match (s.seat weston_seat).input_method with
    | none => s
    | some m =>
      if (s.im m).input = some t then s
      else
        match (s.im m).pending_focused_surface with
        | none => s
        | some surface =>
          let s1 := s.set_im m { s.im m with input := some t }
          let s2 := s1.set_ti t { s1.ti t with input_method := some m }
          let s3 := s2.set_ti t { s2.ti t with surface := some surface }
          let s4 := s3.emit (Event.zwp_input_method_v2_send_activate (s3.im m).resource)
          let s5 : State :=
            { s4 with text_input_manager :=
                { s4.text_input_manager with current_text_input := some t } }
          let s6 := text_input_show_input_panel s5 t
          s6.emit (Event.zwp_text_input_v3_send_enter (s6.ti t).resource surface)

/-- C `text_input_set_surrounding_text`. -/
def text_input_set_surrounding_text (s : State) (t : Ptr)
    (text : String) (cursor : Int) (anchor : Int) : State :=
  s.set_ti t { s.ti t with
    pending := { (s.ti t).pending with
      surrounding :=
        { text := some text, cursor := to_uint32 cursor, anchor := to_uint32 anchor } } }

/-- C `text_input_enable`. -/
def text_input_enable (s : State) (t : Ptr) : State :=
  s.set_ti t { s.ti t with pending := text_input_state_zero, pending_enabled := true }

/-- C `text_input_disable`. -/
def text_input_disable (s : State) (t : Ptr) : State :=
  s.set_ti t { s.ti t with pending_enabled := false }

/-- C `text_input_set_cursor_rectangle`. -/
def text_input_set_cursor_rectangle (s : State) (t : Ptr)
    (x : Int) (y : Int) (width : Int) (height : Int) : State :=
  s.set_ti t { s.ti t with
    pending := { (s.ti t).pending with
      cursor_rectangle :=
        { x1 := x, y1 := y, x2 := add_int32 x width, y2 := add_int32 y height } } }

/-- C `text_input_set_content_type`. -/
def text_input_set_content_type (s : State) (t : Ptr) (hint : Nat) (purpose : Nat) : State :=
  s.set_ti t { s.ti t with
    pending := { (s.ti t).pending with
      content_type := { hint := hint, purpose := purpose } } }

/-- C `text_input_set_text_change_cause`. -/
def text_input_set_text_change_cause (s : State) (t : Ptr) (cause : Nat) : State :=
  s.set_ti t { s.ti t with
    pending := { (s.ti t).pending with text_change_cause := cause } }

/-- The tail of C `text_input_commit`: the block guarded by `if (input_method)`,
where `input_method` is the pointer read before the activation step. -/
def text_input_commit_forward (s : State) (t : Ptr) (input_method : Option Ptr) : State :=
  match input_method with
  | none => s
  | some m =>
    let s1 :=
      match (s.ti t).current.surrounding.text with
      | some text =>
        s.emit (Event.zwp_input_method_v2_send_surrounding_text (s.im m).resource text
          (s.ti t).current.surrounding.cursor (s.ti t).current.surrounding.anchor)
      | none => s
    let s2 := s1.emit (Event.zwp_input_method_v2_send_text_change_cause (s1.im m).resource
      (s1.ti t).current.text_change_cause)
    let s3 := s2.emit (Event.zwp_input_method_v2_send_content_type (s2.im m).resource
      (s2.ti t).current.content_type.hint (s2.ti t).current.content_type.purpose)
    let s4 := s3.emit (Event.update_input_panel_signal (s3.ti t).current.cursor_rectangle)
    s4.emit (Event.zwp_input_method_v2_send_done (s4.im m).resource)

/-- C `text_input_commit`. -/
def text_input_commit (s : State) (t : Ptr) : State :=
  let s1 := s.set_ti t { s.ti t with
    current_serial := ((s.ti t).current_serial + 1) % 4294967296 }
  let s2 := s1.set_ti t { s1.ti t with current := (s1.ti t).pending }
  let old_enabled := (s2.ti t).current_enabled
  let s3 := s2.set_ti t { s2.ti t with current_enabled := (s2.ti t).pending_enabled }
  let input_method := (s3.ti t).input_method
  let s4 :=
    if old_enabled = false ∧ (s3.ti t).current_enabled = true then
      activate_text_input s3 t
    else if old_enabled = true ∧ (s3.ti t).current_enabled = false then
      deactivate_text_input s3 t
    else s3
  text_input_commit_forward s4 t input_method

/-- The three stores at the head of C `text_input_commit`
(`current_serial++`, `current = pending`, `current_enabled = pending_enabled`),
as one update of the object. -/
def text_input_commit_store (s : State) (t : Ptr) : State :=
  s.set_ti t { s.ti t with
    current_serial := ((s.ti t).current_serial + 1) % 4294967296,
    current := (s.ti t).pending,
    current_enabled := (s.ti t).pending_enabled }

/-- C `text_input_manager_get_text_input`; `p` is the address `zalloc` returns,
`id` the resource created for the new object, `weston_seat` the user data of the
seat resource. -/
def text_input_manager_get_text_input (s : State) (p : Ptr) (id : Ptr)
    (weston_seat : Option Ptr) : State :=
  let s1 := s.set_ti p { text_input_zero with resource := some id }
  let s2 := s1.set_ti p { s1.ti p with seat := weston_seat }
  let s3 := s2.set_ti p { s2.ti p with current_serial := 0 }
  { s3 with text_input_manager :=
      { s3.text_input_manager with text_inputs := p :: s3.text_input_manager.text_inputs } }

/-- C `input_method_commit_string`. -/
def input_method_commit_string (s : State) (m : Ptr) (text : String) : State :=
  s.set_im m { s.im m with
    pending := { (s.im m).pending with commit_text := some text } }

/-- C `input_method_set_preedit_string`. -/
def input_method_set_preedit_string (s : State) (m : Ptr)
    (text : String) (cursor_begin : Int) (cursor_end : Int) : State :=
  s.set_im m { s.im m with
    pending := { (s.im m).pending with
      preedit := { text := some text, cursor_begin := cursor_begin, cursor_end := cursor_end } } }

/-- C `input_method_delete_surrounding_text`. -/
def input_method_delete_surrounding_text (s : State) (m : Ptr)
    (before_length : Nat) (after_length : Nat) : State :=
  s.set_im m { s.im m with
    pending := { (s.im m).pending with
      delete := { before_length := before_length, after_length := after_length } } }

/-- C `input_method_commit`. The argument `serial` is not read by the body;
`input_method->input` is the session `t` found non-null on entry (nothing in the
body writes it). -/
def input_method_commit (s : State) (m : Ptr) (_serial : Nat) : State :=
  match (s.im m).input with
  | none => s
  | some t =>
    let s1 := s.set_im m { s.im m with current := (s.im m).pending }
    let s2 := s1.set_im m { s1.im m with pending := input_method_state_zero }
    let s3 :=
      match (s2.im m).current.preedit.text with
      | some text =>
        s2.emit (Event.zwp_text_input_v3_send_preedit_string (s2.ti t).resource text
          (s2.im m).current.preedit.cursor_begin (s2.im m).current.preedit.cursor_end)
      | none => s2
    let s4 :=
      match (s3.im m).current.commit_text with
      | some text =>
        s3.emit (Event.zwp_text_input_v3_send_commit_string (s3.ti t).resource text)
      | none => s3
    let s5 :=
      if (s4.im m).current.delete.before_length ≠ 0 ∨
          (s4.im m).current.delete.after_length ≠ 0 then
        s4.emit (Event.zwp_text_input_v3_send_delete_surrounding_text (s4.ti t).resource
          (s4.im m).current.delete.before_length (s4.im m).current.delete.after_length)
      else s4
    s5.emit (Event.zwp_text_input_v3_send_done (s5.ti t).resource (s5.ti t).current_serial)

/-- C `handle_keyboard_focus`; `m` is the input method owning the listener,
`keyboard` the keyboard passed as signal data. -/
def handle_keyboard_focus (s : State) (m : Ptr) (keyboard : Ptr) : State :=
  let surface := (s.kbd keyboard).focus
  match (s.im m).input with
  | none => s.set_im m { s.im m with pending_focused_surface := surface }
  | some t =>
    let s1 :=
      if surface = none ∨ (s.ti t).surface ≠ surface then deactivate_text_input s t
      else s
    s1.set_im m { s1.im m with pending_focused_surface := surface }

/-! ## Requests as data

The protocol requests, as values, so that sequences of requests can be run and
quantified over. Each constructor dispatches to the C handler of the same name. -/

/-- The staging requests of the text input role. -/
inductive text_input_staging where
  | set_surrounding_text (text : String) (cursor : Int) (anchor : Int)
  | set_text_change_cause (cause : Nat)
  | set_content_type (hint : Nat) (purpose : Nat)
  | set_cursor_rectangle (x : Int) (y : Int) (width : Int) (height : Int)
  | enable
  | disable
deriving DecidableEq

/-- Whether a staging request is one of the four `set_*` requests. -/
def text_input_staging.is_set : text_input_staging → Bool
  | .enable => false
  | .disable => false
  | _ => true

/-- Dispatch of a text input staging request to its handler. -/
def text_input_stage (s : State) (t : Ptr) : text_input_staging → State
  | .set_surrounding_text text cursor anchor =>
    text_input_set_surrounding_text s t text cursor anchor
  | .set_text_change_cause cause => text_input_set_text_change_cause s t cause
  | .set_content_type hint purpose => text_input_set_content_type s t hint purpose
  | .set_cursor_rectangle x y width height =>
    text_input_set_cursor_rectangle s t x y width height
  | .enable => text_input_enable s t
  | .disable => text_input_disable s t

/-- A sequence of staging requests of one text input session, in order. -/
def text_input_stage_all (s : State) (t : Ptr) (rs : List text_input_staging) : State :=
  rs.foldl (fun acc r => text_input_stage acc t r) s

/-- The staging requests of the input method role. -/
inductive input_method_staging where
  | set_preedit_string (text : String) (cursor_begin : Int) (cursor_end : Int)
  | commit_string (text : String)
  | delete_surrounding_text (before_length : Nat) (after_length : Nat)
deriving DecidableEq

/-- Dispatch of an input method staging request to its handler. -/
def input_method_stage (s : State) (m : Ptr) : input_method_staging → State
  | .set_preedit_string text cursor_begin cursor_end =>
    input_method_set_preedit_string s m text cursor_begin cursor_end
  | .commit_string text => input_method_commit_string s m text
  | .delete_surrounding_text before_length after_length =>
    input_method_delete_surrounding_text s m before_length after_length

/-- The requests and notifications that act on existing sessions. -/
inductive Request where
  | text_input_stage (t : Ptr) (r : text_input_staging)
  | text_input_commit (t : Ptr)
  | input_method_stage (m : Ptr) (r : input_method_staging)
  | input_method_commit (m : Ptr) (serial : Nat)
  | keyboard_focus (m : Ptr) (keyboard : Ptr)
deriving DecidableEq

/-- Dispatch of a request to its handler. -/
def step (s : State) : Request → State
  | .text_input_stage t r => text_input_stage s t r
  | .text_input_commit t => text_input_commit s t
  | .input_method_stage m r => input_method_stage s m r
  | .input_method_commit m serial => input_method_commit s m serial
  | .keyboard_focus m keyboard => handle_keyboard_focus s m keyboard

/-! ## Vocabulary of the properties -/

/-- The last `set_surrounding_text` request of a sequence, if there is one. -/
def last_surrounding_text (rs : List text_input_staging) : Option (String × Int × Int) :=
  rs.reverse.findSome? fun r =>
    match r with
    | .set_surrounding_text text cursor anchor => some (text, cursor, anchor)
    | _ => none

/-- The last `set_text_change_cause` request of a sequence, if there is one. -/
def last_text_change_cause (rs : List text_input_staging) : Option Nat :=
  rs.reverse.findSome? fun r =>
    match r with
    | .set_text_change_cause cause => some cause
    | _ => none

/-- The last `set_content_type` request of a sequence, if there is one. -/
def last_content_type (rs : List text_input_staging) : Option (Nat × Nat) :=
  rs.reverse.findSome? fun r =>
    match r with
    | .set_content_type hint purpose => some (hint, purpose)
    | _ => none

/-- The last `set_cursor_rectangle` request of a sequence, if there is one. -/
def last_cursor_rectangle (rs : List text_input_staging) : Option (Int × Int × Int × Int) :=
  rs.reverse.findSome? fun r =>
    match r with
    | .set_cursor_rectangle x y width height => some (x, y, width, height)
    | _ => none

/-- The record obtained from `p` by the rule "each member holds the arguments of
the last request that sets it, and is the one of `p` if no request sets it";
a cursor or anchor argument is stored converted to `uint32_t`, a rectangle
is stored as its corners. -/
def last_values (p : text_input_state) (rs : List text_input_staging) : text_input_state :=
  { surrounding :=
      match last_surrounding_text rs with
      | some (text, cursor, anchor) =>
        { text := some text, cursor := to_uint32 cursor, anchor := to_uint32 anchor }
      | none => p.surrounding,
    text_change_cause :=
      match last_text_change_cause rs with
      | some cause => cause
      | none => p.text_change_cause,
    content_type :=
      match last_content_type rs with
      | some (hint, purpose) => { hint := hint, purpose := purpose }
      | none => p.content_type,
    cursor_rectangle :=
      match last_cursor_rectangle rs with
      | some (x, y, width, height) =>
        { x1 := x, y1 := y, x2 := add_int32 x width, y2 := add_int32 y height }
      | none => p.cursor_rectangle }

/-- Events of the input method protocol (what the input method client receives). -/
def Event.to_input_method : Event → Bool
  | .zwp_input_method_v2_send_activate _ => true
  | .zwp_input_method_v2_send_deactivate _ => true
  | .zwp_input_method_v2_send_surrounding_text _ _ _ _ => true
  | .zwp_input_method_v2_send_text_change_cause _ _ => true
  | .zwp_input_method_v2_send_content_type _ _ _ => true
  | .zwp_input_method_v2_send_done _ => true
  | _ => false

/-- Events of the text input protocol (what the application receives). -/
def Event.to_text_input : Event → Bool
  | .zwp_text_input_v3_send_enter _ _ => true
  | .zwp_text_input_v3_send_leave _ _ => true
  | .zwp_text_input_v3_send_preedit_string _ _ _ _ => true
  | .zwp_text_input_v3_send_commit_string _ _ => true
  | .zwp_text_input_v3_send_delete_surrounding_text _ _ _ => true
  | .zwp_text_input_v3_send_done _ _ => true
  | _ => false

/-- Events and signals that only Activation and Deactivation produce. -/
def Event.of_activation : Event → Bool
  | .zwp_input_method_v2_send_activate _ => true
  | .zwp_input_method_v2_send_deactivate _ => true
  | .zwp_text_input_v3_send_enter _ _ => true
  | .zwp_text_input_v3_send_leave _ _ => true
  | .show_input_panel_signal _ => true
  | .hide_input_panel_signal => true
  | _ => false

/-- The client sequence `enable, commit, disable, commit`, repeated `n` times. -/
def enable_disable_rounds (s : State) (t : Ptr) : Nat → State
  | 0 => s
  | n + 1 =>
    text_input_commit
      (text_input_disable
        (text_input_commit (text_input_enable (enable_disable_rounds s t n) t) t) t) t

/-- The events `enter(S), leave(S)` on resource `r`, repeated `n` times. -/
def enter_leave_rounds (r : Option Ptr) (surface : Ptr) : Nat → List Event
  | 0 => []
  | n + 1 =>
    enter_leave_rounds r surface n ++
      [Event.zwp_text_input_v3_send_enter r surface,
       Event.zwp_text_input_v3_send_leave r surface]

/-! ## Concrete states -/

/-- Seat `0` has keyboard `0`, focused on surface `7`, and the input method
session `1` (resource `20`), which has recorded that focus. The text input
session `3` (resource `10`) belongs to seat `0` and is disabled and unattached.
Keyboard `1` has no focus. -/
def scenario_idle : State :=
  { ti := fun p =>
      if p = 3 then { text_input_zero with resource := some 10, seat := some 0 }
      else text_input_zero,
    im := fun p =>
      if p = 1 then
        { input_method_zero with
          resource := some 20, seat := some 0, pending_focused_surface := some 7 }
      else input_method_zero,
    seat := fun p =>
      if p = 0 then { input_method := some 1, keyboard := some 0 }
      else { input_method := none, keyboard := none },
    kbd := fun k =>
      { focus := if k = 0 then some 7 else none,
        grab := keyboard_grab.default_grab,
        input_method_resource := none,
        input_method_grab_keyboard := none },
    text_input_manager := { current_text_input := none, text_inputs := [3] },
    input_method_manager := { input_methods := [1] },
    trace := [] }

/-- The state after session `3` of `scenario_idle` did `enable` and `commit`. -/
def scenario_active : State :=
  text_input_commit (text_input_enable scenario_idle 3) 3

/-- The state after the input method of `scenario_active` staged a preedit
string, a commit string and a deletion of zero length. -/
def scenario_staged : State :=
  input_method_delete_surrounding_text
    (input_method_commit_string
      (input_method_set_preedit_string scenario_active 1 "héllo" 0 5) 1 "done") 1 0 0

/-- Three `set_*` requests, two of them setting the surrounding text. -/
def scenario_requests : List text_input_staging :=
  [text_input_staging.set_surrounding_text "a" 1 1,
   text_input_staging.set_content_type 1 2,
   text_input_staging.set_surrounding_text "ab" 2 2]

/-! ## Keyboard grab and life cycle of input method sessions -/

/-- Store `v` in the keyboard object at address `k`. -/
def State.set_kbd (s : State) (k : Ptr) (v : weston_keyboard) : State :=
  { s with kbd := Function.update s.kbd k v }

/-- Store `v` in the seat object at address `p`. -/
def State.set_seat (s : State) (p : Ptr) (v : weston_seat) : State :=
  { s with seat := Function.update s.seat p v }

/-- Modelled from the spec: libweston `weston_seat_get_keyboard` is not part of
this module; it returns the keyboard of the seat, `NULL` for a `NULL` seat or
a seat without keyboard. -/
def weston_seat_get_keyboard (s : State) (seat : Option Ptr) : Option Ptr :=
  match seat with
  | some p => (s.seat p).keyboard
  | none => none

/-- Modelled from the spec: libweston `weston_keyboard_start_grab` is not part of
this module; it installs `grab` on the keyboard (`keyboard->grab = grab`) and
records the keyboard in the grab (`grab->keyboard = keyboard`). The module only
passes `&keyboard->input_method_grab`, whose back pointer is the member
`input_method_grab_keyboard`. -/
def weston_keyboard_start_grab (s : State) (keyboard : Ptr) (grab : keyboard_grab) : State :=
  let s1 := s.set_kbd keyboard { s.kbd keyboard with grab := grab }
  if grab = keyboard_grab.input_method_grab then
    s1.set_kbd keyboard { s1.kbd keyboard with input_method_grab_keyboard := some keyboard }
  else s1

/-- Modelled from the spec: libweston `weston_keyboard_end_grab` is not part of
this module; it restores the default grab (`keyboard->grab = &keyboard->default_grab`),
the default routing of section 4.4. -/
def weston_keyboard_end_grab (s : State) (keyboard : Ptr) : State :=
  s.set_kbd keyboard { s.kbd keyboard with grab := keyboard_grab.default_grab }

/-- C `input_method_end_keyboard_grab`. The test `keyboard->grab == grab` compares
with the input-method grab of the seat's keyboard `k0`, so it holds when the
keyboard reached through `grab->keyboard` is `k0` itself and has the
input-method grab installed. -/
def input_method_end_keyboard_grab (s : State) (m : Ptr) : State :=
  match weston_seat_get_keyboard s (s.im m).seat with
  | none => s
  | some k0 =>
    match (s.kbd k0).input_method_grab_keyboard with
    | none => s
    | some keyboard =>
      let s1 :=
        if (s.kbd keyboard).grab = keyboard_grab.input_method_grab ∧ keyboard = k0 then
          weston_keyboard_end_grab s keyboard
        else s
      s1.set_kbd keyboard { s1.kbd keyboard with input_method_resource := none }

/-- C `unbind_keyboard`, the destroy handler of the keyboard resource handed out
by `grab_keyboard`; `m` is the user data of that resource. -/
def unbind_keyboard (s : State) (m : Ptr) : State :=
  let s1 := input_method_end_keyboard_grab s m
  s1.set_im m { s1.im m with keyboard := none }

/-- C `input_method_context_grab_key`; `keyboard` is `grab->keyboard`, `serial` the
value `wl_display_next_serial` returns and `msecs` is `timespec_to_msec(time)`. -/
def input_method_context_grab_key (s : State) (keyboard : Ptr)
    (serial : Nat) (msecs : Nat) (key : Nat) (state_w : Nat) : State :=
  match (s.kbd keyboard).input_method_resource with
  | none => s
  | some r => s.emit (Event.wl_keyboard_send_key (some r) serial msecs key state_w)

/-- C `input_method_context_grab_modifier`; `keyboard` is `grab->keyboard`. -/
def input_method_context_grab_modifier (s : State) (keyboard : Ptr) (serial : Nat)
    (mods_depressed : Nat) (mods_latched : Nat) (mods_locked : Nat) (group : Nat) : State :=
  match (s.kbd keyboard).input_method_resource with
  | none => s
  | some r =>
    s.emit (Event.wl_keyboard_send_modifiers (some r) serial mods_depressed mods_latched
      mods_locked group)

/-- C `input_method_context_grab_cancel`; `keyboard` is `grab->keyboard`. -/
def input_method_context_grab_cancel (s : State) (keyboard : Ptr) : State :=
  weston_keyboard_end_grab s keyboard

/-- C `input_method_grab_keyboard`; `id` is the keyboard resource `cr` created for
the client. The C code dereferences the keyboard of the seat without a check;
for a seat without keyboard the model returns the state unchanged. -/
def input_method_grab_keyboard (s : State) (m : Ptr) (id : Ptr) : State :=
  match weston_seat_get_keyboard s (s.im m).seat with
  | none => s
  | some keyboard =>
    let s1 := s.set_im m { s.im m with keyboard := some id }
    let s2 := s1.emit (Event.weston_keyboard_send_keymap keyboard (some id))
    let s3 :=
      if (s2.kbd keyboard).grab ≠ keyboard_grab.default_grab then
        weston_keyboard_end_grab s2 keyboard
      else s2
    let s4 := weston_keyboard_start_grab s3 keyboard keyboard_grab.input_method_grab
    s4.set_kbd keyboard { s4.kbd keyboard with input_method_resource := some id }

/-- Modelled from the spec: delivery of a physical key event by the seat layer,
which is not part of this module: the event goes to the callback of the
installed grab. Only the input-method grab forwards to an input-method keyboard
channel (section 4.4); the default grab and foreign grabs add nothing to the
trace of this module. -/
def notify_key (s : State) (keyboard : Ptr)
    (serial : Nat) (msecs : Nat) (key : Nat) (state_w : Nat) : State :=
  match (s.kbd keyboard).grab with
  | keyboard_grab.input_method_grab =>
    match (s.kbd keyboard).input_method_grab_keyboard with
    | some k => input_method_context_grab_key s k serial msecs key state_w
    | none => s
  | _ => s

/-- Modelled from the spec: delivery of a modifier change by the seat layer to the
callback of the installed grab, as `notify_key`. -/
def notify_modifiers (s : State) (keyboard : Ptr) (serial : Nat)
    (mods_depressed : Nat) (mods_latched : Nat) (mods_locked : Nat) (group : Nat) : State :=
  match (s.kbd keyboard).grab with
  | keyboard_grab.input_method_grab =>
    match (s.kbd keyboard).input_method_grab_keyboard with
    | some k =>
      input_method_context_grab_modifier s k serial mods_depressed mods_latched
        mods_locked group
    | none => s
  | _ => s

/-- C `deactivate_input_method`. -/
def deactivate_input_method (s : State) (m : Ptr) : State :=
  let s1 :=
    match (s.im m).resource with
    | some r =>
      (input_method_end_keyboard_grab s m).emit
        (Event.zwp_input_method_v2_send_deactivate (some r))
    | none => s
  match (s1.im m).input with
  | some t =>
    let s2 := s1.set_ti t { s1.ti t with input_method := none }
    s2.set_im m { s2.im m with input := none }
  | none => s1

/-- C `destroy_input_method`. Destroying the keyboard resource runs its destroy
handler `unbind_keyboard`; `free` leaves the memory cell as it is and the
object leaves the registry. -/
def destroy_input_method (s : State) (m : Ptr) : State :=
  let s1 :=
    match (s.im m).keyboard with
    | some _ => unbind_keyboard s m
    | none => s
  let s2 :=
    match (s1.im m).input with
    | some _ => deactivate_input_method s1 m
    | none => s1
  { s2 with input_method_manager :=
      { s2.input_method_manager with
        input_methods := s2.input_method_manager.input_methods.erase m } }

/-- C `input_method_init_seat`. Its two writes into the keyboard (the focus
listener added to `keyboard->focus_signal` and the callback table stored in
`keyboard->input_method_grab.interface`) have no member in `weston_keyboard`:
a focus notification is the call `handle_keyboard_focus s m keyboard`, the
callbacks are `input_method_context_grab_*`. -/
def input_method_init_seat (s : State) (seat : Ptr) : State :=
  match (s.seat seat).input_method with
  | none => s
  | some m =>
    if (s.im m).focus_listener_initialized = true then s
    else s.set_im m { s.im m with focus_listener_initialized := true }

/-- C `input_method_manager_get_input_method`; `p` is the address `zalloc` returns,
`id` the resource created for the new object, `weston_seat` the user data of the
seat resource (dereferenced without a check). -/
def input_method_manager_get_input_method (s : State) (p : Ptr) (id : Ptr)
    (weston_seat : Ptr) : State :=
  let s1 := s.set_im p { input_method_zero with resource := some id }
  let s2 := s1.set_im p { s1.im p with
    seat := some weston_seat, input := none, focus_listener_initialized := false,
    pending_focused_surface := none }
  let s3 := s2.set_seat weston_seat { s2.seat weston_seat with input_method := some p }
  let s4 := input_method_init_seat s3 weston_seat
  { s4 with input_method_manager :=
      { s4.input_method_manager with
        input_methods := p :: s4.input_method_manager.input_methods } }

/-- The sessions of the input-method registry that refer to `seat`. -/
def input_methods_of_seat (s : State) (seat : Ptr) : List Ptr :=
  s.input_method_manager.input_methods.filter fun m => decide ((s.im m).seat = some seat)

/-! ## Process supervisor -/

/-- C `struct timespec`. -/
@[ext] structure timespec where
  tv_sec : Int
  tv_nsec : Int
deriving DecidableEq

/-- The instant of a `struct timespec`, in nanoseconds. -/
def timespec_to_nsec (a : timespec) : Int := a.tv_sec * 1000000000 + a.tv_nsec

/-- Modelled from the spec: `timespec_sub_to_msec` of shared/timespec-util.h is not
under src/; it is the difference `a - b` in nanoseconds divided by `1000000`
with the truncating division of C. -/
def timespec_sub_to_msec (a b : timespec) : Int :=
  ((a.tv_sec - b.tv_sec) * 1000000000 + (a.tv_nsec - b.tv_nsec)).tdiv 1000000

/-- A call of the supervisor that leaves the module. -/
inductive backend_call where
  | weston_client_start (path : String)
  | log_not_able_to_start (path : String)
  | log_giving_up
  | log_respawning
deriving DecidableEq

/-- Anonymous member `input_method` of `struct text_backend`. -/
@[ext] structure text_backend_input_method where
  path : Option String
  client : Option Ptr
  deathcount : Nat
  deathstamp : timespec
deriving DecidableEq

/-- C `struct text_backend`: the member `input_method`, whether `client_listener`
is linked to the destroy signal of the client, and the calls made so far. -/
@[ext] structure text_backend where
  input_method : text_backend_input_method
  client_listener : Bool
  calls : List backend_call
deriving DecidableEq

/-- C `launch_input_method`; `started` is what `weston_client_start` returns. -/
def launch_input_method (tb : text_backend) (started : Option Ptr) : text_backend :=
  match tb.input_method.path with
  | none => tb
  | some path =>
    if path = "" then tb
    else
      let tb1 : text_backend :=
        { tb with
          input_method := { tb.input_method with client := started },
          calls := tb.calls ++ [backend_call.weston_client_start path] }
      match tb1.input_method.client with
      | none => { tb1 with calls := tb1.calls ++ [backend_call.log_not_able_to_start path] }
      | some _ => { tb1 with client_listener := true }

/-- C `respawn_input_method_process`; `time` is what `weston_compositor_get_time`
returns, `started` what `weston_client_start` returns if it is called. -/
def respawn_input_method_process (tb : text_backend) (time : timespec)
    (started : Option Ptr) : text_backend :=
  let tdiff := timespec_sub_to_msec time tb.input_method.deathstamp
  let tb1 : text_backend :=
    if tdiff > 10000 then
      { tb with input_method := { tb.input_method with deathstamp := time, deathcount := 0 } }
    else tb
  let tb2 : text_backend :=
    { tb1 with input_method :=
        { tb1.input_method with
          deathcount := (tb1.input_method.deathcount + 1) % 4294967296 } }
  if tb2.input_method.deathcount > 5 then
    { tb2 with calls := tb2.calls ++ [backend_call.log_giving_up] }
  else
    launch_input_method { tb2 with calls := tb2.calls ++ [backend_call.log_respawning] } started

/-- C `input_method_client_notifier`, run when the helper process exits. -/
def input_method_client_notifier (tb : text_backend) (time : timespec)
    (started : Option Ptr) : text_backend :=
  respawn_input_method_process
    { tb with input_method := { tb.input_method with client := none } } time started

/-- The supervisor part of C `text_backend_init`: `zalloc`, the configured helper
path (`text_backend_configuration`), then `launch_input_method`. -/
def text_backend_init (path : Option String) (started : Option Ptr) : text_backend :=
  launch_input_method
    { input_method :=
        { path := path, client := none, deathcount := 0,
          deathstamp := { tv_sec := 0, tv_nsec := 0 } },
      client_listener := false,
      calls := [] }
    started

/-- Number of helper launches requested so far. -/
def launches (tb : text_backend) : Nat :=
  tb.calls.countP fun c =>
    match c with
    | backend_call.weston_client_start _ => true
    | _ => false

/-- Whether the exit of the helper at `time` triggers a relaunch. -/
def exit_relaunches (tb : text_backend) (time : timespec) (started : Option Ptr) : Bool :=
  decide (launches (input_method_client_notifier tb time started) = launches tb + 1)

/-- The relaunch decisions for a history of helper exits, each launch giving the
client `c`. -/
def respawn_decisions (tb : text_backend) (c : Ptr) : List timespec → List Bool
  | [] => []
  | time :: rest =>
    exit_relaunches tb time (some c) ::
      respawn_decisions (input_method_client_notifier tb time (some c)) c rest

/-- The number of exits of a history that fall within the ten seconds ending at
`time` (the sliding window of section 4.5). -/
def exits_within_window (history : List timespec) (time : timespec) : Nat :=
  history.countP fun u =>
    decide (timespec_to_nsec u ≤ timespec_to_nsec time ∧
      timespec_to_nsec time - timespec_to_nsec u ≤ 10000000000)

/-- The `update_input_panel` signals of the compositor. -/
def Event.is_update_input_panel : Event → Bool
  | .update_input_panel_signal _ => true
  | _ => false

/-! ## Further concrete states -/

/-- Zero-initialised memory: no session, empty registries, empty trace. -/
def state_zero : State :=
  { ti := fun _ => text_input_zero,
    im := fun _ => input_method_zero,
    seat := fun _ => { input_method := none, keyboard := none },
    kbd := fun _ =>
      { focus := none, grab := keyboard_grab.default_grab,
        input_method_resource := none, input_method_grab_keyboard := none },
    text_input_manager := { current_text_input := none, text_inputs := [] },
    input_method_manager := { input_methods := [] },
    trace := [] }

/-- The state after `get_input_method` was requested twice for seat `0`, creating
the sessions `1` (resource `20`) and `2` (resource `21`). -/
def scenario_two_input_methods : State :=
  input_method_manager_get_input_method
    (input_method_manager_get_input_method state_zero 1 20 0) 2 21 0

/-- The state after a second text input session `4` (resource `11`) was created
on seat `0` of `scenario_active` and did `enable` and `commit` while session `3`
is still active. -/
def scenario_two_sessions : State :=
  text_input_commit
    (text_input_enable (text_input_manager_get_text_input scenario_active 4 11 (some 0)) 4) 4

/-- The state after session `3` of `scenario_two_sessions` did `disable` and
`commit`. -/
def scenario_first_disabled : State :=
  text_input_commit (text_input_disable scenario_two_sessions 3) 3

/-- The state after the input method session `1` of `scenario_active`, which
serves session `3`, was destroyed. -/
def scenario_input_method_destroyed : State :=
  destroy_input_method scenario_active 1

/-- The state after a text input session `5` (resource `12`) was created on seat
`9` of `scenario_idle`, a seat without input method, and staged a cursor
rectangle. -/
def scenario_no_input_method : State :=
  text_input_set_cursor_rectangle
    (text_input_manager_get_text_input scenario_idle 5 12 (some 9)) 5 1 2 3 4

/-- The state after session `3` of `scenario_idle` did `enable`, staged a
surrounding text and a content type, and committed. -/
def scenario_activating_commit : State :=
  text_input_commit
    (text_input_set_content_type
      (text_input_set_surrounding_text (text_input_enable scenario_idle 3) 3 "abc" 1 1) 3 4 5) 3

/-- The state after session `3` of `scenario_active` did `disable` and `commit`. -/
def scenario_deactivating_commit : State :=
  text_input_commit (text_input_disable scenario_active 3) 3

/-- The instant `ms` milliseconds after the origin of the clock. -/
def timespec_of_msec (ms : Int) : timespec :=
  { tv_sec := ms / 1000, tv_nsec := (ms % 1000) * 1000000 }

/-- A freshly started supervisor with a helper path. -/
def scenario_supervisor : text_backend :=
  text_backend_init (some "/usr/libexec/weston-keyboard") (some 1)

/-- Seven helper exits: one at 100 s, four between 109.0 s and 109.3 s, then
two at 110.5 s and 110.6 s. -/
def scenario_exits : List timespec :=
  [timespec_of_msec 100000, timespec_of_msec 109000, timespec_of_msec 109100,
   timespec_of_msec 109200, timespec_of_msec 109300, timespec_of_msec 110500,
   timespec_of_msec 110600]

/-- Six helper exits within eight seconds, starting at 100 s. -/
def scenario_six_exits : List timespec :=
  [timespec_of_msec 100000, timespec_of_msec 101000, timespec_of_msec 102000,
   timespec_of_msec 103000, timespec_of_msec 104000, timespec_of_msec 108000]

/-! ## Destruction of text input sessions and focus notifications -/

/-- C `destroy_text_input`: Deactivation, then the object leaves the registry;
`free` leaves the memory cell as it is. -/
def destroy_text_input (s : State) (t : Ptr) : State :=
  let s1 := deactivate_text_input s t
  { s1 with text_input_manager :=
      { s1.text_input_manager with
        text_inputs := s1.text_input_manager.text_inputs.erase t } }

/-- Modelled from the spec: the seat layer, which is not part of this module,
stores the new focus in the keyboard and emits its focus signal, which runs
`handle_keyboard_focus` of the listening input method `m` (section 4.3, focus
change handling). -/
def keyboard_focus_changed (s : State) (m : Ptr) (keyboard : Ptr) (focus : Option Ptr) : State :=
  handle_keyboard_focus (s.set_kbd keyboard { s.kbd keyboard with focus := focus }) m keyboard

/-- The client sequence `enable, commit`, repeated `n` times. -/
def enable_commit_rounds (s : State) (t : Ptr) : Nat → State
  | 0 => s
  | n + 1 => text_input_commit (text_input_enable (enable_commit_rounds s t n) t) t

/-- The `activate` and `deactivate` events of the input method protocol. -/
def Event.is_activate_or_deactivate : Event → Bool
  | .zwp_input_method_v2_send_activate _ => true
  | .zwp_input_method_v2_send_deactivate _ => true
  | _ => false

/-- Every entry point of the module that acts on the memory of the mediation
core: the requests on existing sessions, creation and destruction of sessions,
the keyboard grab, and what the seat layer delivers. -/
inductive Action where
  | request (r : Request)
  | get_text_input (p : Ptr) (id : Ptr) (weston_seat : Option Ptr)
  | get_input_method (p : Ptr) (id : Ptr) (weston_seat : Ptr)
  | destroy_text_input (t : Ptr)
  | destroy_input_method (m : Ptr)
  | grab_keyboard (m : Ptr) (id : Ptr)
  | release_keyboard (m : Ptr)
  | focus_changed (m : Ptr) (keyboard : Ptr) (focus : Option Ptr)
  | key (keyboard : Ptr) (serial : Nat) (msecs : Nat) (key : Nat) (state_w : Nat)
  | modifiers (keyboard : Ptr) (serial : Nat) (mods_depressed : Nat) (mods_latched : Nat)
      (mods_locked : Nat) (group : Nat)
  | grab_cancel (keyboard : Ptr)
deriving DecidableEq

/-- Dispatch of an action to its handler. -/
def act (s : State) : Action → State
  | .request r => step s r
  | .get_text_input p id weston_seat => text_input_manager_get_text_input s p id weston_seat
  | .get_input_method p id weston_seat => input_method_manager_get_input_method s p id weston_seat
  | .destroy_text_input t => destroy_text_input s t
  | .destroy_input_method m => destroy_input_method s m
  | .grab_keyboard m id => input_method_grab_keyboard s m id
  | .release_keyboard m => unbind_keyboard s m
  | .focus_changed m keyboard focus => keyboard_focus_changed s m keyboard focus
  | .key keyboard serial msecs key state_w => notify_key s keyboard serial msecs key state_w
  | .modifiers keyboard serial d l lo g => notify_modifiers s keyboard serial d l lo g
  | .grab_cancel keyboard => input_method_context_grab_cancel s keyboard

/-- When an action can occur: a request comes from a client holding a session of
the registry, a new object gets an address that no session of the registry
has, and a text input commit comes from a registered session. -/
def Action.allowed (s : State) : Action → Prop
  | .request (.text_input_commit t) => t ∈ s.text_input_manager.text_inputs
  | .get_text_input p _ _ => p ∉ s.text_input_manager.text_inputs
  | .get_input_method p _ _ => p ∉ s.input_method_manager.input_methods
  | .destroy_text_input t => t ∈ s.text_input_manager.text_inputs
  | _ => True

/-- The states the module can be in: it starts with zero-initialised sessions
memory, empty registries and an empty trace (seats and keyboards are those of
the compositor), and every allowed action leads to a further state. -/
inductive Reachable : State → Prop where
  | start (s : State) (hti : ∀ t, s.ti t = text_input_zero)
      (him : ∀ m, s.im m = input_method_zero)
      (htim : s.text_input_manager = { current_text_input := none, text_inputs := [] })
      (himm : s.input_method_manager = { input_methods := [] })
      (htrace : s.trace = []) : Reachable s
  | next (s : State) (a : Action) (hs : Reachable s) (ha : a.allowed s) : Reachable (act s a)

/-- The references between sessions agree in one direction, and a session that
is referred to is enabled and registered: a text input session attached to an
input method is enabled, and a text input session served by an input method
refers to that input method and is in the registry. -/
def consistent (s : State) : Prop :=
  (∀ t, (s.ti t).input_method ≠ none → (s.ti t).current_enabled = true) ∧
  (∀ m t, (s.im m).input = some t →
    (s.ti t).input_method = some m ∧ t ∈ s.text_input_manager.text_inputs)

/-! ## States for the later life-cycle properties -/

/-- The state after session `3` of `scenario_idle` did `enable` and staged the
cursor rectangle `(1, 2)-(4, 6)`. -/
def scenario_enabling : State :=
  text_input_set_cursor_rectangle (text_input_enable scenario_idle 3) 3 1 2 3 4

/-- The state after session `3` of `scenario_active` staged the cursor rectangle
`(1, 2)-(4, 6)` and did `disable`. -/
def scenario_disabling : State :=
  text_input_disable (text_input_set_cursor_rectangle scenario_active 3 1 2 3 4) 3

/-- Six helper exits within eight seconds, the first while the clock reads
3.0 s, the other five between 10.5 s and 10.9 s. -/
def scenario_early_exits : List timespec :=
  [timespec_of_msec 3000, timespec_of_msec 10500, timespec_of_msec 10600,
   timespec_of_msec 10700, timespec_of_msec 10800, timespec_of_msec 10900]

/-- The state after keyboard `0` of `scenario_idle` lost its focus. -/
def scenario_unfocused : State :=
  keyboard_focus_changed scenario_idle 1 0 none

/-- The state after the input method session `1` of `scenario_idle` requested
the keyboard grab with the new channel `30`. -/
def scenario_grabbed : State :=
  input_method_grab_keyboard scenario_idle 1 30

/-- The state after session `3` of `scenario_active` lost the keyboard focus,
the focus came back to surface `7`, and the session did `disable`, `commit`,
`enable`, `commit`. -/
def scenario_refocused : State :=
  text_input_commit (text_input_enable (text_input_commit (text_input_disable
    (keyboard_focus_changed (keyboard_focus_changed scenario_active 1 0 none) 1 0 (some 7))
    3) 3) 3) 3

/-- The state after session `3` of `scenario_active` was destroyed and a new
session `4` (resource `11`) on seat `0` did `enable` and `commit`. -/
def scenario_recreated : State :=
  text_input_commit (text_input_enable
    (text_input_manager_get_text_input (destroy_text_input scenario_active 3) 4 11 (some 0))
    4) 4

end TextBackend

namespace KeyboardClient

/-! # The on-screen keyboard client (`clients/keyboard.c`)

A C string is the buffer its pointer refers to, a list of bytes; its value
ends before the first NUL byte. `NULL` is `none`. -/

/-- C `strlen`: the number of bytes before the first NUL of the buffer. -/
def strlen (b : List Nat) : Nat := (b.takeWhile (fun c => c != 0)).length

/-- The value of the C string in the buffer `b`: the bytes before the first
NUL. -/
def c_string (b : List Nat) : List Nat := b.takeWhile (fun c => c != 0)

/-- C `strdup`: a new buffer holding the bytes before the first NUL and the
terminating NUL. -/
def strdup (b : List Nat) : List Nat := b.takeWhile (fun c => c != 0) ++ [0]

/-- C `memmove(b + dst, b + src, n)` inside one buffer: the `n` bytes found at
offset `src` are stored at offset `dst`, the other bytes keep their value. -/
def memmove (b : List Nat) (dst src n : Nat) : List Nat :=
  b.take dst ++ (b.drop src).take n ++ b.drop (dst + ((b.drop src).take n).length)

/-- C `struct text_input_state` of the client. -/
structure text_input_state where
  content_hint : Nat
  content_purpose : Nat
  change_cause : Nat
  surrounding_text : Option (List Nat)
  surrounding_cursor : Nat
  active : Bool
deriving DecidableEq

/-- C `enum keyboard_state`. -/
inductive keyboard_state where
  | KEYBOARD_STATE_DEFAULT
  | KEYBOARD_STATE_UPPERCASE
  | KEYBOARD_STATE_SYMBOLS
deriving DecidableEq

/-- C `struct keyboard`; `window` says whether `keyboard->window` (and with it
`keyboard->widget`) is set. -/
structure keyboard where
  window : Bool
  state : keyboard_state
deriving DecidableEq

/-- The requests the client sends on its input method object. -/
inductive Request where
  | zwp_input_method_v2_delete_surrounding_text (before_length after_length : Nat)
  | zwp_input_method_v2_commit (serial : Nat)
  | zwp_input_method_v2_destroy
deriving DecidableEq

/-- C `struct virtual_keyboard`: the members the handlers below read or write.
`input_method` says whether the pointer is set, `keyboard` is the object the
pointer refers to, `requests` records what was sent, oldest first. -/
structure virtual_keyboard where
  input_method : Bool
  serial : Nat
  preedit_string : Option (List Nat)
  pending : text_input_state
  current : text_input_state
  keyboard : keyboard
  requests : List Request
deriving DecidableEq

/-- C `struct text_input_state defaults = {0}`. -/
def defaults : text_input_state :=
  { content_hint := 0, content_purpose := 0, change_cause := 0,
    surrounding_text := none, surrounding_cursor := 0, active := false }

/-- C `prev_utf8_char(s, s + p)`, as an offset into `s`: the scan starts at
`p - 1` and returns the first offset whose byte is not a continuation byte. -/
def prev_utf8_char (s : List Nat) : Nat → Option Nat
  | 0 => none
  | p + 1 => if (s.getD p 0) &&& 0xc0 ≠ 0x80 then some p else prev_utf8_char s p

/-- C `delete_before_cursor`. -/
def delete_before_cursor (k : virtual_keyboard) : virtual_keyboard :=
  match k.current.surrounding_text with
  | none => k
  | some surrounding_text =>
    let surrounding_cursor := k.current.surrounding_cursor
    match prev_utf8_char surrounding_text surrounding_cursor with
    | none => k
    | some start =>
      let end_offset := surrounding_cursor
      let k1 := { k with requests := k.requests ++
        [Request.zwp_input_method_v2_delete_surrounding_text (surrounding_cursor - start) 0,
         Request.zwp_input_method_v2_commit k.serial] }
      let k2 := { k1 with current := { k1.current with surrounding_cursor := start } }
      let text := surrounding_text.set surrounding_cursor 0
      let k3 := { k2 with current := { k2.current with surrounding_text := some text } }
      if text.getD end_offset 0 ≠ 0 then
        { k3 with current := { k3.current with
            surrounding_text :=
              some (memmove text k3.current.surrounding_cursor end_offset
                (strlen (text.drop end_offset))) } }
      else k3

/-- C `keyboard_set_visibility` with `keyboard_window_create` and
`keyboard_window_destroy`: the window exists afterwards exactly if `visible`. -/
def keyboard_set_visibility (k : virtual_keyboard) (visible : Bool) : virtual_keyboard :=
  if visible then
    if k.keyboard.window then k else { k with keyboard := { k.keyboard with window := true } }
  else
    if !k.keyboard.window then k else { k with keyboard := { k.keyboard with window := false } }

/-- C `input_method_activate`. -/
def input_method_activate (k : virtual_keyboard) : virtual_keyboard :=
  let k1 := { k with pending := { k.pending with surrounding_text := none } }
  let k2 := { k1 with pending := defaults }
  let k3 := { k2 with preedit_string := some (strdup []) }
  { k3 with pending := { k3.pending with active := true } }

/-- C `input_method_deactivate`. -/
def input_method_deactivate (k : virtual_keyboard) : virtual_keyboard :=
  { k with pending := { k.pending with active := false } }

/-- C `handle_surrounding_text`; `anchor` is not used. -/
def handle_surrounding_text (k : virtual_keyboard) (text : List Nat) (cursor anchor : Nat) :
    virtual_keyboard :=
  let _ := anchor
  let k1 := { k with pending := { k.pending with surrounding_text := some (strdup text) } }
  { k1 with pending := { k1.pending with surrounding_cursor := cursor } }

/-- C `handle_text_change_cause`. -/
def handle_text_change_cause (k : virtual_keyboard) (cause : Nat) : virtual_keyboard :=
  { k with pending := { k.pending with change_cause := cause } }

/-- C `handle_content_type`. -/
def handle_content_type (k : virtual_keyboard) (hint purpose : Nat) : virtual_keyboard :=
  let k1 := { k with pending := { k.pending with content_hint := hint } }
  { k1 with pending := { k1.pending with content_purpose := purpose } }

/-- C `handle_commit_state`, the handler of the `done` event. The serial is a
`uint32_t`. -/
def handle_commit_state (k : virtual_keyboard) : virtual_keyboard :=
  let k1 := { k with serial := (k.serial + 1) % 4294967296 }
  let k2 := { k1 with pending := { k1.pending with surrounding_text := none } }
  let k3 := { k2 with current := k2.pending }
  let k4 := { k3 with pending := defaults }
  let k5 := { k4 with pending := { k4.pending with active := k4.current.active } }
  keyboard_set_visibility k5 k5.current.active

/-- C `handle_unavailable`. -/
def handle_unavailable (k : virtual_keyboard) : virtual_keyboard :=
  let k1 := { k with current := { k.current with active := false } }
  let k2 := { k1 with requests := k1.requests ++ [Request.zwp_input_method_v2_destroy] }
  let k3 := { k2 with input_method := false }
  keyboard_set_visibility k3 false

/-- The events of the input method protocol, in the order of
`input_method_listener`. -/
inductive Event where
  | activate
  | deactivate
  | surrounding_text (text : List Nat) (cursor anchor : Nat)
  | text_change_cause (cause : Nat)
  | content_type (hint purpose : Nat)
  | done
  | unavailable
deriving DecidableEq

/-- Dispatch through `input_method_listener`. -/
def dispatch (k : virtual_keyboard) : Event → virtual_keyboard
  | .activate => input_method_activate k
  | .deactivate => input_method_deactivate k
  | .surrounding_text text cursor anchor => handle_surrounding_text k text cursor anchor
  | .text_change_cause cause => handle_text_change_cause k cause
  | .content_type hint purpose => handle_content_type k hint purpose
  | .done => handle_commit_state k
  | .unavailable => handle_unavailable k

/-! ## Layouts, drawing and hit-testing -/

/-- C `enum key_type`. -/
inductive key_type where
  | keytype_default
  | keytype_backspace
  | keytype_enter
  | keytype_space
  | keytype_switch
  | keytype_symbols
  | keytype_tab
  | keytype_arrow_up
  | keytype_arrow_left
  | keytype_arrow_right
  | keytype_arrow_down
deriving DecidableEq

/-- C `struct key`. -/
structure key where
  key_type : key_type
  label : String
  uppercase : String
  symbol : String
  width : Nat
deriving DecidableEq

/-- C `struct layout`. -/
structure layout where
  keys : List key
  count : Nat
  columns : Nat
  rows : Nat
  language : String
deriving DecidableEq

/-- C table `normal_keys`, entry by entry in the order of the source. -/
def normal_keys : List key :=
  [⟨key_type.keytype_default, "q", "Q", "1", 1⟩,
   ⟨key_type.keytype_default, "w", "W", "2", 1⟩,
   ⟨key_type.keytype_default, "e", "E", "3", 1⟩,
   ⟨key_type.keytype_default, "r", "R", "4", 1⟩,
   ⟨key_type.keytype_default, "t", "T", "5", 1⟩,
   ⟨key_type.keytype_default, "y", "Y", "6", 1⟩,
   ⟨key_type.keytype_default, "u", "U", "7", 1⟩,
   ⟨key_type.keytype_default, "i", "I", "8", 1⟩,
   ⟨key_type.keytype_default, "o", "O", "9", 1⟩,
   ⟨key_type.keytype_default, "p", "P", "0", 1⟩,
   ⟨key_type.keytype_backspace, "<--", "<--", "<--", 2⟩,
   ⟨key_type.keytype_tab, "->|", "->|", "->|", 1⟩,
   ⟨key_type.keytype_default, "a", "A", "-", 1⟩,
   ⟨key_type.keytype_default, "s", "S", "@", 1⟩,
   ⟨key_type.keytype_default, "d", "D", "*", 1⟩,
   ⟨key_type.keytype_default, "f", "F", "^", 1⟩,
   ⟨key_type.keytype_default, "g", "G", ":", 1⟩,
   ⟨key_type.keytype_default, "h", "H", ";", 1⟩,
   ⟨key_type.keytype_default, "j", "J", "(", 1⟩,
   ⟨key_type.keytype_default, "k", "K", ")", 1⟩,
   ⟨key_type.keytype_default, "l", "L", "~", 1⟩,
   ⟨key_type.keytype_enter, "Enter", "Enter", "Enter", 2⟩,
   ⟨key_type.keytype_switch, "ABC", "abc", "ABC", 2⟩,
   ⟨key_type.keytype_default, "z", "Z", "/", 1⟩,
   ⟨key_type.keytype_default, "x", "X", "\x27", 1⟩,
   ⟨key_type.keytype_default, "c", "C", "\x22", 1⟩,
   ⟨key_type.keytype_default, "v", "V", "+", 1⟩,
   ⟨key_type.keytype_default, "b", "B", "=", 1⟩,
   ⟨key_type.keytype_default, "n", "N", "?", 1⟩,
   ⟨key_type.keytype_default, "m", "M", "!", 1⟩,
   ⟨key_type.keytype_default, ",", ",", "\x5c", 1⟩,
   ⟨key_type.keytype_default, ".", ".", "|", 1⟩,
   ⟨key_type.keytype_switch, "ABC", "abc", "ABC", 1⟩,
   ⟨key_type.keytype_symbols, "?123", "?123", "abc", 1⟩,
   ⟨key_type.keytype_space, "", "", "", 5⟩,
   ⟨key_type.keytype_arrow_up, "/\x5c", "/\x5c", "/\x5c", 1⟩,
   ⟨key_type.keytype_arrow_left, "<", "<", "<", 1⟩,
   ⟨key_type.keytype_arrow_right, ">", ">", ">", 1⟩,
   ⟨key_type.keytype_arrow_down, "\x5c/", "\x5c/", "\x5c/", 1⟩]

/-- C table `numeric_keys`, entry by entry in the order of the source. -/
def numeric_keys : List key :=
  [⟨key_type.keytype_default, "1", "1", "1", 1⟩,
   ⟨key_type.keytype_default, "2", "2", "2", 1⟩,
   ⟨key_type.keytype_default, "3", "3", "3", 1⟩,
   ⟨key_type.keytype_default, "4", "4", "4", 1⟩,
   ⟨key_type.keytype_default, "5", "5", "5", 1⟩,
   ⟨key_type.keytype_default, "6", "6", "6", 1⟩,
   ⟨key_type.keytype_default, "7", "7", "7", 1⟩,
   ⟨key_type.keytype_default, "8", "8", "8", 1⟩,
   ⟨key_type.keytype_default, "9", "9", "9", 1⟩,
   ⟨key_type.keytype_default, "0", "0", "0", 1⟩,
   ⟨key_type.keytype_backspace, "<--", "<--", "<--", 2⟩,
   ⟨key_type.keytype_space, "", "", "", 4⟩,
   ⟨key_type.keytype_enter, "Enter", "Enter", "Enter", 2⟩,
   ⟨key_type.keytype_arrow_up, "/\x5c", "/\x5c", "/\x5c", 1⟩,
   ⟨key_type.keytype_arrow_left, "<", "<", "<", 1⟩,
   ⟨key_type.keytype_arrow_right, ">", ">", ">", 1⟩,
   ⟨key_type.keytype_arrow_down, "\x5c/", "\x5c/", "\x5c/", 1⟩]

/-- C table `arabic_keys`, entry by entry in the order of the source. -/
def arabic_keys : List key :=
  [⟨key_type.keytype_default, "ض", "ﹶ", "۱", 1⟩,
   ⟨key_type.keytype_default, "ص", "ﹰ", "۲", 1⟩,
   ⟨key_type.keytype_default, "ث", "ﹸ", "۳", 1⟩,
   ⟨key_type.keytype_default, "ق", "ﹲ", "۴", 1⟩,
   ⟨key_type.keytype_default, "ف", "ﻹ", "۵", 1⟩,
   ⟨key_type.keytype_default, "غ", "ﺇ", "۶", 1⟩,
   ⟨key_type.keytype_default, "ع", "\x60", "۷", 1⟩,
   ⟨key_type.keytype_default, "ه", "٪", "۸", 1⟩,
   ⟨key_type.keytype_default, "خ", ">", "۹", 1⟩,
   ⟨key_type.keytype_default, "ح", "<", "۰", 1⟩,
   ⟨key_type.keytype_backspace, "-->", "-->", "-->", 2⟩,
   ⟨key_type.keytype_tab, "->|", "->|", "->|", 1⟩,
   ⟨key_type.keytype_default, "ش", "ﹺ", "ﹼ", 1⟩,
   ⟨key_type.keytype_default, "س", "ﹴ", "!", 1⟩,
   ⟨key_type.keytype_default, "ي", "[", "@", 1⟩,
   ⟨key_type.keytype_default, "ب", "]", "#", 1⟩,
   ⟨key_type.keytype_default, "ل", "ﻷ", "$", 1⟩,
   ⟨key_type.keytype_default, "ا", "أ", "%", 1⟩,
   ⟨key_type.keytype_default, "ت", "-", "^", 1⟩,
   ⟨key_type.keytype_default, "ن", "x", "&", 1⟩,
   ⟨key_type.keytype_default, "م", "/", "*", 1⟩,
   ⟨key_type.keytype_default, "ك", ":", "_", 1⟩,
   ⟨key_type.keytype_default, "د", "\x22", "+", 1⟩,
   ⟨key_type.keytype_enter, "Enter", "Enter", "Enter", 2⟩,
   ⟨key_type.keytype_switch, "Shift", "Base", "Shift", 2⟩,
   ⟨key_type.keytype_default, "ئ", "~", ")", 1⟩,
   ⟨key_type.keytype_default, "ء", "°", "(", 1⟩,
   ⟨key_type.keytype_default, "ؤ", "\x7b", "\x22", 1⟩,
   ⟨key_type.keytype_default, "ر", "\x7d", "\x27", 1⟩,
   ⟨key_type.keytype_default, "ى", "ﺁ", "؟", 1⟩,
   ⟨key_type.keytype_default, "ة", "\x27", "!", 1⟩,
   ⟨key_type.keytype_default, "و", ",", ";", 1⟩,
   ⟨key_type.keytype_default, "ﺯ", ".", "\x5c", 1⟩,
   ⟨key_type.keytype_default, "ظ", "؟", "=", 1⟩,
   ⟨key_type.keytype_switch, "Shift", "Base", "Shift", 2⟩,
   ⟨key_type.keytype_symbols, "؟٣٢١", "؟٣٢١", "Base", 1⟩,
   ⟨key_type.keytype_default, "ﻻ", "ﻵ", "|", 1⟩,
   ⟨key_type.keytype_default, ",", "،", "،", 1⟩,
   ⟨key_type.keytype_space, "", "", "", 6⟩,
   ⟨key_type.keytype_default, ".", "ذ", "]", 1⟩,
   ⟨key_type.keytype_default, "ط", "ﺝ", "[", 1⟩]

/-- C `normal_layout`. -/
def normal_layout : layout :=
  { keys := normal_keys, count := normal_keys.length, columns := 12, rows := 4,
    language := "en" }

/-- C `numeric_layout`. -/
def numeric_layout : layout :=
  { keys := numeric_keys, count := numeric_keys.length, columns := 12, rows := 2,
    language := "en" }

/-- C `arabic_layout`. -/
def arabic_layout : layout :=
  { keys := arabic_keys, count := arabic_keys.length, columns := 13, rows := 4,
    language := "ar" }

/-- C `static const double key_width = 60`. A `double` is a rational number
here: every value computed below from `int` coordinates is far inside the range
in which `double` arithmetic does not change the integer part. -/
def key_width : ℚ := 60

/-- C `static const double key_height = 50`. -/
def key_height : ℚ := 50

/-- Conversion of a `double` (or `float`) to `int`: the fraction is dropped. -/
def to_int (q : ℚ) : Int := if 0 ≤ q then Rat.floor q else -Rat.floor (-q)

/-- Conversion to `unsigned int`. -/
def to_uint32 (i : Int) : Nat := (i % 4294967296).toNat

/-- Conversion of an `unsigned int` result back to `int`. -/
def to_int32 (i : Int) : Int := (i + 2147483648) % 4294967296 - 2147483648

/-- One call `draw_key(keyboard, &layout->keys[i], cr, row, col)`. -/
structure draw_key_call where
  i : Nat
  key : key
  row : Nat
  col : Nat
deriving DecidableEq

/-- The loop of `redraw_handler` from key `i` on, at the position `row`, `col`:
the calls of `draw_key` it makes, in order. -/
def redraw_loop (columns : Nat) : List key → Nat → Nat → Nat → List draw_key_call
  | [], _, _, _ => []
  | k :: ks, i, row, col =>
    { i := i, key := k, row := row, col := col } ::
      (if col + k.width ≥ columns then redraw_loop columns ks (i + 1) (row + 1) 0
       else redraw_loop columns ks (i + 1) row (col + k.width))

/-- C `redraw_handler` for the layout that `get_current_layout` returned: the
calls of `draw_key`. -/
def redraw_handler (l : layout) : List draw_key_call :=
  redraw_loop l.columns (l.keys.take l.count) 0 0 0

/-- The rectangle `draw_key` paints the frame of and clips to:
`cairo_rectangle(cr, col * key_width, row * key_height, key->width * key_width,
key_height)`, as a test on a position of the widget. -/
def draw_key (c : draw_key_call) (x y : ℚ) : Bool :=
  decide (c.col * key_width ≤ x ∧ x < c.col * key_width + c.key.width * key_width ∧
    c.row * key_height ≤ y ∧ y < c.row * key_height + key_height)

/-- The keys, by index, whose rectangle `redraw_handler` draws over the
position `x`, `y`. -/
def drawn_at (l : layout) (x y : ℚ) : List Nat :=
  ((redraw_handler l).filter (fun c => draw_key c x y)).map (fun c => c.i)

/-- The loop shared by `button_handler` and `touch_handler` from key `i` on:
the index of the key handed to `keyboard_handle_key`, if any. -/
def select_loop : List key → Nat → Int → Option Nat
  | [], _, _ => none
  | k :: ks, i, col =>
    if to_int32 (col - k.width) < 0 then some i
    else select_loop ks (i + 1) (to_int32 (col - k.width))

/-- C `button_handler` for a press or release of the left button at the
position `x`, `y` relative to the widget, for the layout that
`get_current_layout` returned: the index of the key handed to
`keyboard_handle_key`, if any. -/
def button_handler (l : layout) (x y : Int) : Option Nat :=
  let row : Int := to_int ((y : ℚ) / key_height)
  let col : Int := to_int ((x : ℚ) / key_width + (to_uint32 (row * l.columns) : ℚ))
  select_loop (l.keys.take l.count) 0 col

/-- C `touch_handler` for the `float` position `x`, `y` relative to the
widget. -/
def touch_handler (l : layout) (x y : ℚ) : Option Nat :=
  let row : Int := to_int ((to_int y : ℚ) / key_height)
  let col : Int := to_int ((to_int x : ℚ) / key_width + (to_uint32 (row * l.columns) : ℚ))
  select_loop (l.keys.take l.count) 0 col

/-- The cells of row `r` that `redraw_handler` covers with keys. -/
def row_cells (l : layout) (r : Nat) : Nat :=
  (((redraw_handler l).filter (fun c => c.row = r)).map (fun c => c.key.width)).sum

/-- Hit-testing and drawing compared cell by cell. -/
def cells_agree (l : layout) : Prop :=
  ∀ cx < l.columns, ∀ cy < l.rows,
    (select_loop (l.keys.take l.count) 0 ((cx : Int) + (cy : Int) * l.columns)).toList =
      ((redraw_handler l).filter (fun c =>
        decide ((c.col : Int) ≤ (cx : Int) ∧ (cx : Int) < (c.col : Int) + c.key.width ∧
          (c.row : Int) = (cy : Int)))).map (fun c => c.i)

instance (l : layout) : Decidable (cells_agree l) := by
  unfold cells_agree
  infer_instance

/-! ## Concrete client states -/

/-- A client whose current state is active with the surrounding text `abcd`
and the cursor behind `b`. -/
def scenario_abcd : virtual_keyboard :=
  { input_method := true, serial := 5, preedit_string := some [0],
    pending := { defaults with active := true },
    current :=
      { defaults with
        surrounding_text := some [97, 98, 99, 100, 0], surrounding_cursor := 2,
        active := true },
    keyboard := { window := true, state := keyboard_state.KEYBOARD_STATE_DEFAULT },
    requests := [] }

/-- The client of `scenario_abcd` with the surrounding text `ab` and the
cursor at its end. -/
def scenario_ab : virtual_keyboard :=
  { scenario_abcd with
    current :=
      { scenario_abcd.current with
        surrounding_text := some [97, 98, 0], surrounding_cursor := 2 } }

/-- A freshly started client: zeroed memory, window shown by `main`. -/
def scenario_started : virtual_keyboard :=
  { input_method := true, serial := 0, preedit_string := none,
    pending := defaults, current := defaults,
    keyboard := { window := true, state := keyboard_state.KEYBOARD_STATE_DEFAULT },
    requests := [] }

/-- One round of events as the compositor sends it after an Activation with the
surrounding text `abc`, cursor 1: `activate`, `surrounding_text`,
`text_change_cause`, `content_type`, `done`. -/
def scenario_round : List Event :=
  [Event.activate, Event.surrounding_text [97, 98, 99, 0] 1 1, Event.text_change_cause 1,
   Event.content_type 4 5, Event.done]

end KeyboardClient

namespace VncBackend

/-! # Key injection of the VNC backend (`libweston/backend-vnc/vnc.c`) -/

/-- C `struct vnc_keysym_to_keycode`. -/
structure vnc_keysym_to_keycode where
  keysym : Nat
  code : Nat
  shift : Bool
deriving DecidableEq

/-! ## Keysyms

The `XKB_KEY_*` names used by `vnc.c`, with the values the header
`xkbcommon/xkbcommon-keysyms.h` of the xkbcommon library gives them (the X11
keysym encoding: a Latin-1 character is its code, the function keys are
`0xffXX`). `XKB_KEY_Delete` is not used by `vnc.c`; it is the keysym a VNC
viewer sends for the Delete key. -/

/-- Keysym `XKB_KEY_KP_Enter` of `xkbcommon-keysyms.h`. -/
def XKB_KEY_KP_Enter : Nat := 0xff8d

/-- Keysym `XKB_KEY_Return` of `xkbcommon-keysyms.h`. -/
def XKB_KEY_Return : Nat := 0xff0d

/-- Keysym `XKB_KEY_space` of `xkbcommon-keysyms.h`. -/
def XKB_KEY_space : Nat := 0x0020

/-- Keysym `XKB_KEY_BackSpace` of `xkbcommon-keysyms.h`. -/
def XKB_KEY_BackSpace : Nat := 0xff08

/-- Keysym `XKB_KEY_Tab` of `xkbcommon-keysyms.h`. -/
def XKB_KEY_Tab : Nat := 0xff09

/-- Keysym `XKB_KEY_Escape` of `xkbcommon-keysyms.h`. -/
def XKB_KEY_Escape : Nat := 0xff1b

/-- Keysym `XKB_KEY_Shift_L` of `xkbcommon-keysyms.h`. -/
def XKB_KEY_Shift_L : Nat := 0xffe1

/-- Keysym `XKB_KEY_Shift_R` of `xkbcommon-keysyms.h`. -/
def XKB_KEY_Shift_R : Nat := 0xffe2

/-- Keysym `XKB_KEY_Control_L` of `xkbcommon-keysyms.h`. -/
def XKB_KEY_Control_L : Nat := 0xffe3

/-- Keysym `XKB_KEY_Control_R` of `xkbcommon-keysyms.h`. -/
def XKB_KEY_Control_R : Nat := 0xffe4

/-- Keysym `XKB_KEY_Alt_L` of `xkbcommon-keysyms.h`. -/
def XKB_KEY_Alt_L : Nat := 0xffe9

/-- Keysym `XKB_KEY_Alt_R` of `xkbcommon-keysyms.h`. -/
def XKB_KEY_Alt_R : Nat := 0xffea

/-- Keysym `XKB_KEY_Meta_L` of `xkbcommon-keysyms.h`. -/
def XKB_KEY_Meta_L : Nat := 0xffe7

/-- Keysym `XKB_KEY_Meta_R` of `xkbcommon-keysyms.h`. -/
def XKB_KEY_Meta_R : Nat := 0xffe8

/-- Keysym `XKB_KEY_Super_L` of `xkbcommon-keysyms.h`. -/
def XKB_KEY_Super_L : Nat := 0xffeb

/-- Keysym `XKB_KEY_Print` of `xkbcommon-keysyms.h`. -/
def XKB_KEY_Print : Nat := 0xff61

/-- Keysym `XKB_KEY_Pause` of `xkbcommon-keysyms.h`. -/
def XKB_KEY_Pause : Nat := 0xff13

/-- Keysym `XKB_KEY_Caps_Lock` of `xkbcommon-keysyms.h`. -/
def XKB_KEY_Caps_Lock : Nat := 0xffe5

/-- Keysym `XKB_KEY_Scroll_Lock` of `xkbcommon-keysyms.h`. -/
def XKB_KEY_Scroll_Lock : Nat := 0xff14

/-- Keysym `XKB_KEY_A` of `xkbcommon-keysyms.h`. -/
def XKB_KEY_A : Nat := 0x0041

/-- Keysym `XKB_KEY_a` of `xkbcommon-keysyms.h`. -/
def XKB_KEY_a : Nat := 0x0061

/-- Keysym `XKB_KEY_B` of `xkbcommon-keysyms.h`. -/
def XKB_KEY_B : Nat := 0x0042

/-- Keysym `XKB_KEY_b` of `xkbcommon-keysyms.h`. -/
def XKB_KEY_b : Nat := 0x0062

/-- Keysym `XKB_KEY_C` of `xkbcommon-keysyms.h`. -/
def XKB_KEY_C : Nat := 0x0043

/-- Keysym `XKB_KEY_c` of `xkbcommon-keysyms.h`. -/
def XKB_KEY_c : Nat := 0x0063

/-- Keysym `XKB_KEY_D` of `xkbcommon-keysyms.h`. -/
def XKB_KEY_D : Nat := 0x0044

/-- Keysym `XKB_KEY_d` of `xkbcommon-keysyms.h`. -/
def XKB_KEY_d : Nat := 0x0064

/-- Keysym `XKB_KEY_E` of `xkbcommon-keysyms.h`. -/
def XKB_KEY_E : Nat := 0x0045

/-- Keysym `XKB_KEY_e` of `xkbcommon-keysyms.h`. -/
def XKB_KEY_e : Nat := 0x0065

/-- Keysym `XKB_KEY_F` of `xkbcommon-keysyms.h`. -/
def XKB_KEY_F : Nat := 0x0046

/-- Keysym `XKB_KEY_f` of `xkbcommon-keysyms.h`. -/
def XKB_KEY_f : Nat := 0x0066

/-- Keysym `XKB_KEY_G` of `xkbcommon-keysyms.h`. -/
def XKB_KEY_G : Nat := 0x0047

/-- Keysym `XKB_KEY_g` of `xkbcommon-keysyms.h`. -/
def XKB_KEY_g : Nat := 0x0067

/-- Keysym `XKB_KEY_H` of `xkbcommon-keysyms.h`. -/
def XKB_KEY_H : Nat := 0x0048

/-- Keysym `XKB_KEY_h` of `xkbcommon-keysyms.h`. -/
def XKB_KEY_h : Nat := 0x0068

/-- Keysym `XKB_KEY_I` of `xkbcommon-keysyms.h`. -/
def XKB_KEY_I : Nat := 0x0049

/-- Keysym `XKB_KEY_i` of `xkbcommon-keysyms.h`. -/
def XKB_KEY_i : Nat := 0x0069

/-- Keysym `XKB_KEY_J` of `xkbcommon-keysyms.h`. -/
def XKB_KEY_J : Nat := 0x004a

/-- Keysym `XKB_KEY_j` of `xkbcommon-keysyms.h`. -/
def XKB_KEY_j : Nat := 0x006a

/-- Keysym `XKB_KEY_K` of `xkbcommon-keysyms.h`. -/
def XKB_KEY_K : Nat := 0x004b

/-- Keysym `XKB_KEY_k` of `xkbcommon-keysyms.h`. -/
def XKB_KEY_k : Nat := 0x006b

/-- Keysym `XKB_KEY_L` of `xkbcommon-keysyms.h`. -/
def XKB_KEY_L : Nat := 0x004c

/-- Keysym `XKB_KEY_l` of `xkbcommon-keysyms.h`. -/
def XKB_KEY_l : Nat := 0x006c

/-- Keysym `XKB_KEY_M` of `xkbcommon-keysyms.h`. -/
def XKB_KEY_M : Nat := 0x004d

/-- Keysym `XKB_KEY_m` of `xkbcommon-keysyms.h`. -/
def XKB_KEY_m : Nat := 0x006d

/-- Keysym `XKB_KEY_N` of `xkbcommon-keysyms.h`. -/
def XKB_KEY_N : Nat := 0x004e

/-- Keysym `XKB_KEY_n` of `xkbcommon-keysyms.h`. -/
def XKB_KEY_n : Nat := 0x006e

/-- Keysym `XKB_KEY_O` of `xkbcommon-keysyms.h`. -/
def XKB_KEY_O : Nat := 0x004f

/-- Keysym `XKB_KEY_o` of `xkbcommon-keysyms.h`. -/
def XKB_KEY_o : Nat := 0x006f

/-- Keysym `XKB_KEY_P` of `xkbcommon-keysyms.h`. -/
def XKB_KEY_P : Nat := 0x0050

/-- Keysym `XKB_KEY_p` of `xkbcommon-keysyms.h`. -/
def XKB_KEY_p : Nat := 0x0070

/-- Keysym `XKB_KEY_Q` of `xkbcommon-keysyms.h`. -/
def XKB_KEY_Q : Nat := 0x0051

/-- Keysym `XKB_KEY_q` of `xkbcommon-keysyms.h`. -/
def XKB_KEY_q : Nat := 0x0071

/-- Keysym `XKB_KEY_R` of `xkbcommon-keysyms.h`. -/
def XKB_KEY_R : Nat := 0x0052

/-- Keysym `XKB_KEY_r` of `xkbcommon-keysyms.h`. -/
def XKB_KEY_r : Nat := 0x0072

/-- Keysym `XKB_KEY_S` of `xkbcommon-keysyms.h`. -/
def XKB_KEY_S : Nat := 0x0053

/-- Keysym `XKB_KEY_s` of `xkbcommon-keysyms.h`. -/
def XKB_KEY_s : Nat := 0x0073

/-- Keysym `XKB_KEY_T` of `xkbcommon-keysyms.h`. -/
def XKB_KEY_T : Nat := 0x0054

/-- Keysym `XKB_KEY_t` of `xkbcommon-keysyms.h`. -/
def XKB_KEY_t : Nat := 0x0074

/-- Keysym `XKB_KEY_U` of `xkbcommon-keysyms.h`. -/
def XKB_KEY_U : Nat := 0x0055

/-- Keysym `XKB_KEY_u` of `xkbcommon-keysyms.h`. -/
def XKB_KEY_u : Nat := 0x0075

/-- Keysym `XKB_KEY_V` of `xkbcommon-keysyms.h`. -/
def XKB_KEY_V : Nat := 0x0056

/-- Keysym `XKB_KEY_v` of `xkbcommon-keysyms.h`. -/
def XKB_KEY_v : Nat := 0x0076

/-- Keysym `XKB_KEY_W` of `xkbcommon-keysyms.h`. -/
def XKB_KEY_W : Nat := 0x0057

/-- Keysym `XKB_KEY_w` of `xkbcommon-keysyms.h`. -/
def XKB_KEY_w : Nat := 0x0077

/-- Keysym `XKB_KEY_X` of `xkbcommon-keysyms.h`. -/
def XKB_KEY_X : Nat := 0x0058

/-- Keysym `XKB_KEY_x` of `xkbcommon-keysyms.h`. -/
def XKB_KEY_x : Nat := 0x0078

/-- Keysym `XKB_KEY_Y` of `xkbcommon-keysyms.h`. -/
def XKB_KEY_Y : Nat := 0x0059

/-- Keysym `XKB_KEY_y` of `xkbcommon-keysyms.h`. -/
def XKB_KEY_y : Nat := 0x0079

/-- Keysym `XKB_KEY_Z` of `xkbcommon-keysyms.h`. -/
def XKB_KEY_Z : Nat := 0x005a

/-- Keysym `XKB_KEY_z` of `xkbcommon-keysyms.h`. -/
def XKB_KEY_z : Nat := 0x007a

/-- Keysym `XKB_KEY_grave` of `xkbcommon-keysyms.h`. -/
def XKB_KEY_grave : Nat := 0x0060

/-- Keysym `XKB_KEY_asciitilde` of `xkbcommon-keysyms.h`. -/
def XKB_KEY_asciitilde : Nat := 0x007e

/-- Keysym `XKB_KEY_1` of `xkbcommon-keysyms.h`. -/
def XKB_KEY_1 : Nat := 0x0031

/-- Keysym `XKB_KEY_exclam` of `xkbcommon-keysyms.h`. -/
def XKB_KEY_exclam : Nat := 0x0021

/-- Keysym `XKB_KEY_2` of `xkbcommon-keysyms.h`. -/
def XKB_KEY_2 : Nat := 0x0032

/-- Keysym `XKB_KEY_at` of `xkbcommon-keysyms.h`. -/
def XKB_KEY_at : Nat := 0x0040

/-- Keysym `XKB_KEY_3` of `xkbcommon-keysyms.h`. -/
def XKB_KEY_3 : Nat := 0x0033

/-- Keysym `XKB_KEY_numbersign` of `xkbcommon-keysyms.h`. -/
def XKB_KEY_numbersign : Nat := 0x0023

/-- Keysym `XKB_KEY_4` of `xkbcommon-keysyms.h`. -/
def XKB_KEY_4 : Nat := 0x0034

/-- Keysym `XKB_KEY_dollar` of `xkbcommon-keysyms.h`. -/
def XKB_KEY_dollar : Nat := 0x0024

/-- Keysym `XKB_KEY_5` of `xkbcommon-keysyms.h`. -/
def XKB_KEY_5 : Nat := 0x0035

/-- Keysym `XKB_KEY_percent` of `xkbcommon-keysyms.h`. -/
def XKB_KEY_percent : Nat := 0x0025

/-- Keysym `XKB_KEY_6` of `xkbcommon-keysyms.h`. -/
def XKB_KEY_6 : Nat := 0x0036

/-- Keysym `XKB_KEY_asciicircum` of `xkbcommon-keysyms.h`. -/
def XKB_KEY_asciicircum : Nat := 0x005e

/-- Keysym `XKB_KEY_7` of `xkbcommon-keysyms.h`. -/
def XKB_KEY_7 : Nat := 0x0037

/-- Keysym `XKB_KEY_ampersand` of `xkbcommon-keysyms.h`. -/
def XKB_KEY_ampersand : Nat := 0x0026

/-- Keysym `XKB_KEY_8` of `xkbcommon-keysyms.h`. -/
def XKB_KEY_8 : Nat := 0x0038

/-- Keysym `XKB_KEY_asterisk` of `xkbcommon-keysyms.h`. -/
def XKB_KEY_asterisk : Nat := 0x002a

/-- Keysym `XKB_KEY_9` of `xkbcommon-keysyms.h`. -/
def XKB_KEY_9 : Nat := 0x0039

/-- Keysym `XKB_KEY_parenleft` of `xkbcommon-keysyms.h`. -/
def XKB_KEY_parenleft : Nat := 0x0028

/-- Keysym `XKB_KEY_0` of `xkbcommon-keysyms.h`. -/
def XKB_KEY_0 : Nat := 0x0030

/-- Keysym `XKB_KEY_parenright` of `xkbcommon-keysyms.h`. -/
def XKB_KEY_parenright : Nat := 0x0029

/-- Keysym `XKB_KEY_minus` of `xkbcommon-keysyms.h`. -/
def XKB_KEY_minus : Nat := 0x002d

/-- Keysym `XKB_KEY_underscore` of `xkbcommon-keysyms.h`. -/
def XKB_KEY_underscore : Nat := 0x005f

/-- Keysym `XKB_KEY_equal` of `xkbcommon-keysyms.h`. -/
def XKB_KEY_equal : Nat := 0x003d

/-- Keysym `XKB_KEY_plus` of `xkbcommon-keysyms.h`. -/
def XKB_KEY_plus : Nat := 0x002b

/-- Keysym `XKB_KEY_bracketleft` of `xkbcommon-keysyms.h`. -/
def XKB_KEY_bracketleft : Nat := 0x005b

/-- Keysym `XKB_KEY_braceleft` of `xkbcommon-keysyms.h`. -/
def XKB_KEY_braceleft : Nat := 0x007b

/-- Keysym `XKB_KEY_bracketright` of `xkbcommon-keysyms.h`. -/
def XKB_KEY_bracketright : Nat := 0x005d

/-- Keysym `XKB_KEY_braceright` of `xkbcommon-keysyms.h`. -/
def XKB_KEY_braceright : Nat := 0x007d

/-- Keysym `XKB_KEY_semicolon` of `xkbcommon-keysyms.h`. -/
def XKB_KEY_semicolon : Nat := 0x003b

/-- Keysym `XKB_KEY_colon` of `xkbcommon-keysyms.h`. -/
def XKB_KEY_colon : Nat := 0x003a

/-- Keysym `XKB_KEY_apostrophe` of `xkbcommon-keysyms.h`. -/
def XKB_KEY_apostrophe : Nat := 0x0027

/-- Keysym `XKB_KEY_quotedbl` of `xkbcommon-keysyms.h`. -/
def XKB_KEY_quotedbl : Nat := 0x0022

/-- Keysym `XKB_KEY_backslash` of `xkbcommon-keysyms.h`. -/
def XKB_KEY_backslash : Nat := 0x005c

/-- Keysym `XKB_KEY_bar` of `xkbcommon-keysyms.h`. -/
def XKB_KEY_bar : Nat := 0x007c

/-- Keysym `XKB_KEY_comma` of `xkbcommon-keysyms.h`. -/
def XKB_KEY_comma : Nat := 0x002c

/-- Keysym `XKB_KEY_less` of `xkbcommon-keysyms.h`. -/
def XKB_KEY_less : Nat := 0x003c

/-- Keysym `XKB_KEY_period` of `xkbcommon-keysyms.h`. -/
def XKB_KEY_period : Nat := 0x002e

/-- Keysym `XKB_KEY_greater` of `xkbcommon-keysyms.h`. -/
def XKB_KEY_greater : Nat := 0x003e

/-- Keysym `XKB_KEY_slash` of `xkbcommon-keysyms.h`. -/
def XKB_KEY_slash : Nat := 0x002f

/-- Keysym `XKB_KEY_question` of `xkbcommon-keysyms.h`. -/
def XKB_KEY_question : Nat := 0x003f

/-- Keysym `XKB_KEY_F1` of `xkbcommon-keysyms.h`. -/
def XKB_KEY_F1 : Nat := 0xffbe

/-- Keysym `XKB_KEY_F2` of `xkbcommon-keysyms.h`. -/
def XKB_KEY_F2 : Nat := 0xffbf

/-- Keysym `XKB_KEY_F3` of `xkbcommon-keysyms.h`. -/
def XKB_KEY_F3 : Nat := 0xffc0

/-- Keysym `XKB_KEY_F4` of `xkbcommon-keysyms.h`. -/
def XKB_KEY_F4 : Nat := 0xffc1

/-- Keysym `XKB_KEY_F5` of `xkbcommon-keysyms.h`. -/
def XKB_KEY_F5 : Nat := 0xffc2

/-- Keysym `XKB_KEY_F6` of `xkbcommon-keysyms.h`. -/
def XKB_KEY_F6 : Nat := 0xffc3

/-- Keysym `XKB_KEY_F7` of `xkbcommon-keysyms.h`. -/
def XKB_KEY_F7 : Nat := 0xffc4

/-- Keysym `XKB_KEY_F8` of `xkbcommon-keysyms.h`. -/
def XKB_KEY_F8 : Nat := 0xffc5

/-- Keysym `XKB_KEY_F9` of `xkbcommon-keysyms.h`. -/
def XKB_KEY_F9 : Nat := 0xffc6

/-- Keysym `XKB_KEY_F10` of `xkbcommon-keysyms.h`. -/
def XKB_KEY_F10 : Nat := 0xffc7

/-- Keysym `XKB_KEY_F11` of `xkbcommon-keysyms.h`. -/
def XKB_KEY_F11 : Nat := 0xffc8

/-- Keysym `XKB_KEY_F12` of `xkbcommon-keysyms.h`. -/
def XKB_KEY_F12 : Nat := 0xffc9

/-- Keysym `XKB_KEY_Home` of `xkbcommon-keysyms.h`. -/
def XKB_KEY_Home : Nat := 0xff50

/-- Keysym `XKB_KEY_Up` of `xkbcommon-keysyms.h`. -/
def XKB_KEY_Up : Nat := 0xff52

/-- Keysym `XKB_KEY_Prior` of `xkbcommon-keysyms.h`. -/
def XKB_KEY_Prior : Nat := 0xff55

/-- Keysym `XKB_KEY_Left` of `xkbcommon-keysyms.h`. -/
def XKB_KEY_Left : Nat := 0xff51

/-- Keysym `XKB_KEY_Right` of `xkbcommon-keysyms.h`. -/
def XKB_KEY_Right : Nat := 0xff53

/-- Keysym `XKB_KEY_End` of `xkbcommon-keysyms.h`. -/
def XKB_KEY_End : Nat := 0xff57

/-- Keysym `XKB_KEY_Down` of `xkbcommon-keysyms.h`. -/
def XKB_KEY_Down : Nat := 0xff54

/-- Keysym `XKB_KEY_Next` of `xkbcommon-keysyms.h`. -/
def XKB_KEY_Next : Nat := 0xff56

/-- Keysym `XKB_KEY_Delete` of `xkbcommon-keysyms.h`. -/
def XKB_KEY_Delete : Nat := 0xffff

/-- C table `key_translation`, entry by entry in the order of the source; the
last entry is the terminator `{ }`, all zero. -/
def key_translation : List vnc_keysym_to_keycode :=
  [vnc_keysym_to_keycode.mk XKB_KEY_KP_Enter 0x60 false,
   vnc_keysym_to_keycode.mk XKB_KEY_Return 0x1c false,
   vnc_keysym_to_keycode.mk XKB_KEY_space 0x39 false,
   vnc_keysym_to_keycode.mk XKB_KEY_BackSpace 0xe false,
   vnc_keysym_to_keycode.mk XKB_KEY_Tab 0xf false,
   vnc_keysym_to_keycode.mk XKB_KEY_Escape 0x1 false,
   vnc_keysym_to_keycode.mk XKB_KEY_Shift_L 0x2a false,
   vnc_keysym_to_keycode.mk XKB_KEY_Shift_R 0x36 false,
   vnc_keysym_to_keycode.mk XKB_KEY_Control_L 0x1d false,
   vnc_keysym_to_keycode.mk XKB_KEY_Control_R 0x9d false,
   vnc_keysym_to_keycode.mk XKB_KEY_Alt_L 0x38 false,
   vnc_keysym_to_keycode.mk XKB_KEY_Alt_R 0x64 false,
   vnc_keysym_to_keycode.mk XKB_KEY_Meta_L 0x38 false,
   vnc_keysym_to_keycode.mk XKB_KEY_Meta_R 0x64 false,
   vnc_keysym_to_keycode.mk XKB_KEY_Super_L 0x7d false,
   vnc_keysym_to_keycode.mk XKB_KEY_Print 0x63 false,
   vnc_keysym_to_keycode.mk XKB_KEY_Pause 0x77 false,
   vnc_keysym_to_keycode.mk XKB_KEY_Caps_Lock 0x3a false,
   vnc_keysym_to_keycode.mk XKB_KEY_Scroll_Lock 0x46 false,
   vnc_keysym_to_keycode.mk XKB_KEY_A 0x1e true,
   vnc_keysym_to_keycode.mk XKB_KEY_a 0x1e false,
   vnc_keysym_to_keycode.mk XKB_KEY_B 0x30 true,
   vnc_keysym_to_keycode.mk XKB_KEY_b 0x30 false,
   vnc_keysym_to_keycode.mk XKB_KEY_C 0x2e true,
   vnc_keysym_to_keycode.mk XKB_KEY_c 0x2e false,
   vnc_keysym_to_keycode.mk XKB_KEY_D 0x20 true,
   vnc_keysym_to_keycode.mk XKB_KEY_d 0x20 false,
   vnc_keysym_to_keycode.mk XKB_KEY_E 0x12 true,
   vnc_keysym_to_keycode.mk XKB_KEY_e 0x12 false,
   vnc_keysym_to_keycode.mk XKB_KEY_F 0x21 true,
   vnc_keysym_to_keycode.mk XKB_KEY_f 0x21 false,
   vnc_keysym_to_keycode.mk XKB_KEY_G 0x22 true,
   vnc_keysym_to_keycode.mk XKB_KEY_g 0x22 false,
   vnc_keysym_to_keycode.mk XKB_KEY_H 0x23 true,
   vnc_keysym_to_keycode.mk XKB_KEY_h 0x23 false,
   vnc_keysym_to_keycode.mk XKB_KEY_I 0x17 true,
   vnc_keysym_to_keycode.mk XKB_KEY_i 0x17 false,
   vnc_keysym_to_keycode.mk XKB_KEY_J 0x24 true,
   vnc_keysym_to_keycode.mk XKB_KEY_j 0x24 false,
   vnc_keysym_to_keycode.mk XKB_KEY_K 0x25 true,
   vnc_keysym_to_keycode.mk XKB_KEY_k 0x25 false,
   vnc_keysym_to_keycode.mk XKB_KEY_L 0x26 true,
   vnc_keysym_to_keycode.mk XKB_KEY_l 0x26 false,
   vnc_keysym_to_keycode.mk XKB_KEY_M 0x32 true,
   vnc_keysym_to_keycode.mk XKB_KEY_m 0x32 false,
   vnc_keysym_to_keycode.mk XKB_KEY_N 0x31 true,
   vnc_keysym_to_keycode.mk XKB_KEY_n 0x31 false,
   vnc_keysym_to_keycode.mk XKB_KEY_O 0x18 true,
   vnc_keysym_to_keycode.mk XKB_KEY_o 0x18 false,
   vnc_keysym_to_keycode.mk XKB_KEY_P 0x19 true,
   vnc_keysym_to_keycode.mk XKB_KEY_p 0x19 false,
   vnc_keysym_to_keycode.mk XKB_KEY_Q 0x10 true,
   vnc_keysym_to_keycode.mk XKB_KEY_q 0x10 false,
   vnc_keysym_to_keycode.mk XKB_KEY_R 0x13 true,
   vnc_keysym_to_keycode.mk XKB_KEY_r 0x13 false,
   vnc_keysym_to_keycode.mk XKB_KEY_S 0x1f true,
   vnc_keysym_to_keycode.mk XKB_KEY_s 0x1f false,
   vnc_keysym_to_keycode.mk XKB_KEY_T 0x14 true,
   vnc_keysym_to_keycode.mk XKB_KEY_t 0x14 false,
   vnc_keysym_to_keycode.mk XKB_KEY_U 0x16 true,
   vnc_keysym_to_keycode.mk XKB_KEY_u 0x16 false,
   vnc_keysym_to_keycode.mk XKB_KEY_V 0x2f true,
   vnc_keysym_to_keycode.mk XKB_KEY_v 0x2f false,
   vnc_keysym_to_keycode.mk XKB_KEY_W 0x11 true,
   vnc_keysym_to_keycode.mk XKB_KEY_w 0x11 false,
   vnc_keysym_to_keycode.mk XKB_KEY_X 0x2d true,
   vnc_keysym_to_keycode.mk XKB_KEY_x 0x2d false,
   vnc_keysym_to_keycode.mk XKB_KEY_Y 0x15 true,
   vnc_keysym_to_keycode.mk XKB_KEY_y 0x15 false,
   vnc_keysym_to_keycode.mk XKB_KEY_Z 0x2c true,
   vnc_keysym_to_keycode.mk XKB_KEY_z 0x2c false,
   vnc_keysym_to_keycode.mk XKB_KEY_grave 0x29 false,
   vnc_keysym_to_keycode.mk XKB_KEY_asciitilde 0x29 true,
   vnc_keysym_to_keycode.mk XKB_KEY_1 0x02 false,
   vnc_keysym_to_keycode.mk XKB_KEY_exclam 0x02 true,
   vnc_keysym_to_keycode.mk XKB_KEY_2 0x03 false,
   vnc_keysym_to_keycode.mk XKB_KEY_at 0x03 true,
   vnc_keysym_to_keycode.mk XKB_KEY_3 0x04 false,
   vnc_keysym_to_keycode.mk XKB_KEY_numbersign 0x04 true,
   vnc_keysym_to_keycode.mk XKB_KEY_4 0x05 false,
   vnc_keysym_to_keycode.mk XKB_KEY_dollar 0x05 true,
   vnc_keysym_to_keycode.mk XKB_KEY_5 0x06 false,
   vnc_keysym_to_keycode.mk XKB_KEY_percent 0x06 true,
   vnc_keysym_to_keycode.mk XKB_KEY_6 0x07 false,
   vnc_keysym_to_keycode.mk XKB_KEY_asciicircum 0x07 true,
   vnc_keysym_to_keycode.mk XKB_KEY_7 0x08 false,
   vnc_keysym_to_keycode.mk XKB_KEY_ampersand 0x08 true,
   vnc_keysym_to_keycode.mk XKB_KEY_8 0x09 false,
   vnc_keysym_to_keycode.mk XKB_KEY_asterisk 0x09 true,
   vnc_keysym_to_keycode.mk XKB_KEY_9 0x0a false,
   vnc_keysym_to_keycode.mk XKB_KEY_parenleft 0x0a true,
   vnc_keysym_to_keycode.mk XKB_KEY_0 0x0b false,
   vnc_keysym_to_keycode.mk XKB_KEY_parenright 0x0b true,
   vnc_keysym_to_keycode.mk XKB_KEY_minus 0x0c false,
   vnc_keysym_to_keycode.mk XKB_KEY_underscore 0x0c true,
   vnc_keysym_to_keycode.mk XKB_KEY_equal 0x0d false,
   vnc_keysym_to_keycode.mk XKB_KEY_plus 0x0d true,
   vnc_keysym_to_keycode.mk XKB_KEY_bracketleft 0x1a false,
   vnc_keysym_to_keycode.mk XKB_KEY_braceleft 0x1a true,
   vnc_keysym_to_keycode.mk XKB_KEY_bracketright 0x1b false,
   vnc_keysym_to_keycode.mk XKB_KEY_braceright 0x1b true,
   vnc_keysym_to_keycode.mk XKB_KEY_semicolon 0x27 false,
   vnc_keysym_to_keycode.mk XKB_KEY_colon 0x27 true,
   vnc_keysym_to_keycode.mk XKB_KEY_apostrophe 0x28 false,
   vnc_keysym_to_keycode.mk XKB_KEY_quotedbl 0x28 true,
   vnc_keysym_to_keycode.mk XKB_KEY_backslash 0x2b false,
   vnc_keysym_to_keycode.mk XKB_KEY_bar 0x2b true,
   vnc_keysym_to_keycode.mk XKB_KEY_comma 0x33 false,
   vnc_keysym_to_keycode.mk XKB_KEY_less 0x33 true,
   vnc_keysym_to_keycode.mk XKB_KEY_period 0x34 false,
   vnc_keysym_to_keycode.mk XKB_KEY_greater 0x34 true,
   vnc_keysym_to_keycode.mk XKB_KEY_slash 0x35 false,
   vnc_keysym_to_keycode.mk XKB_KEY_question 0x35 true,
   vnc_keysym_to_keycode.mk XKB_KEY_F1 0x3b false,
   vnc_keysym_to_keycode.mk XKB_KEY_F2 0x3c false,
   vnc_keysym_to_keycode.mk XKB_KEY_F3 0x3d false,
   vnc_keysym_to_keycode.mk XKB_KEY_F4 0x3e false,
   vnc_keysym_to_keycode.mk XKB_KEY_F5 0x3f false,
   vnc_keysym_to_keycode.mk XKB_KEY_F6 0x40 false,
   vnc_keysym_to_keycode.mk XKB_KEY_F7 0x41 false,
   vnc_keysym_to_keycode.mk XKB_KEY_F8 0x42 false,
   vnc_keysym_to_keycode.mk XKB_KEY_F9 0x43 false,
   vnc_keysym_to_keycode.mk XKB_KEY_F10 0x44 false,
   vnc_keysym_to_keycode.mk XKB_KEY_F11 0x57 false,
   vnc_keysym_to_keycode.mk XKB_KEY_F12 0x58 false,
   vnc_keysym_to_keycode.mk XKB_KEY_Home 0x66 false,
   vnc_keysym_to_keycode.mk XKB_KEY_Up 0x67 false,
   vnc_keysym_to_keycode.mk XKB_KEY_Prior 0x68 false,
   vnc_keysym_to_keycode.mk XKB_KEY_Left 0x69 false,
   vnc_keysym_to_keycode.mk XKB_KEY_Right 0x6a false,
   vnc_keysym_to_keycode.mk XKB_KEY_End 0x6b false,
   vnc_keysym_to_keycode.mk XKB_KEY_Down 0x6c false,
   vnc_keysym_to_keycode.mk XKB_KEY_Next 0x6d false,
   vnc_keysym_to_keycode.mk 0 0 false]

/-- C `enum wl_keyboard_key_state`. -/
inductive wl_keyboard_key_state where
  | WL_KEYBOARD_KEY_STATE_RELEASED
  | WL_KEYBOARD_KEY_STATE_PRESSED
deriving DecidableEq

/-- C `enum weston_key_state_update`. -/
inductive weston_key_state_update where
  | STATE_UPDATE_AUTOMATIC
  | STATE_UPDATE_NONE
deriving DecidableEq

/-- One call `notify_key(peer->seat, &time, key, state, update_state)`, the
injection of a key event into the seat. -/
structure notify_key where
  key : Nat
  state : wl_keyboard_key_state
  update_state : weston_key_state_update
deriving DecidableEq

/-- The `for` loop of `vnc_handle_key_event` over the rest of the table: the
values of `key` and `needs_shift` after it, which keep their initial values
`0` and `false` when the loop reaches the terminator. -/
def find_key (keysym : Nat) : List vnc_keysym_to_keycode → Nat × Bool
  | [] => (0, false)
  | e :: es =>
    if e.keysym = 0 then (0, false)
    else if e.keysym = keysym then (e.code, e.shift)
    else find_key keysym es

/-- C `vnc_handle_key_event`: the calls of `notify_key` it makes, in order.
The message written by `weston_log` when `key` is `0` is not recorded. -/
def vnc_handle_key_event (keysym : Nat) (is_pressed : Bool) : List notify_key :=
  let state :=
    if is_pressed then wl_keyboard_key_state.WL_KEYBOARD_KEY_STATE_PRESSED
    else wl_keyboard_key_state.WL_KEYBOARD_KEY_STATE_RELEASED
  if keysym = XKB_KEY_Shift_L ∨ keysym = XKB_KEY_Shift_R then []
  else
    let found := find_key keysym key_translation
    let key := found.1
    let needs_shift := found.2
    (if needs_shift then
      [{ key := 0x2a, state := wl_keyboard_key_state.WL_KEYBOARD_KEY_STATE_PRESSED,
         update_state := weston_key_state_update.STATE_UPDATE_AUTOMATIC }]
     else []) ++
    [{ key := key, state := state,
       update_state := weston_key_state_update.STATE_UPDATE_NONE }] ++
    (if needs_shift then
      [{ key := 0x2a, state := wl_keyboard_key_state.WL_KEYBOARD_KEY_STATE_RELEASED,
         update_state := weston_key_state_update.STATE_UPDATE_AUTOMATIC }]
     else [])

end VncBackend

set_option maxRecDepth 100000

namespace TextBackend

/-! ## Memory lemmas -/

theorem option_cases {α : Type} (o : Option α) : o = none ∨ ∃ a, o = some a := by
  cases o <;> simp

@[simp] theorem set_ti_ti (s : State) (t : Ptr) (v : text_input) (t' : Ptr) :
    (s.set_ti t v).ti t' = if t' = t then v else s.ti t' := by
  simp [State.set_ti, Function.update_apply]

@[simp] theorem set_ti_im (s : State) (t : Ptr) (v : text_input) :
    (s.set_ti t v).im = s.im := rfl

@[simp] theorem set_ti_seat (s : State) (t : Ptr) (v : text_input) :
    (s.set_ti t v).seat = s.seat := rfl

@[simp] theorem set_ti_kbd (s : State) (t : Ptr) (v : text_input) :
    (s.set_ti t v).kbd = s.kbd := rfl

@[simp] theorem set_ti_tim (s : State) (t : Ptr) (v : text_input) :
    (s.set_ti t v).text_input_manager = s.text_input_manager := rfl

@[simp] theorem set_ti_imm (s : State) (t : Ptr) (v : text_input) :
    (s.set_ti t v).input_method_manager = s.input_method_manager := rfl

@[simp] theorem set_ti_trace (s : State) (t : Ptr) (v : text_input) :
    (s.set_ti t v).trace = s.trace := rfl

@[simp] theorem set_im_im (s : State) (m : Ptr) (v : input_method) (m' : Ptr) :
    (s.set_im m v).im m' = if m' = m then v else s.im m' := by
  simp [State.set_im, Function.update_apply]

@[simp] theorem set_im_ti (s : State) (m : Ptr) (v : input_method) :
    (s.set_im m v).ti = s.ti := rfl

@[simp] theorem set_im_seat (s : State) (m : Ptr) (v : input_method) :
    (s.set_im m v).seat = s.seat := rfl

@[simp] theorem set_im_kbd (s : State) (m : Ptr) (v : input_method) :
    (s.set_im m v).kbd = s.kbd := rfl

@[simp] theorem set_im_tim (s : State) (m : Ptr) (v : input_method) :
    (s.set_im m v).text_input_manager = s.text_input_manager := rfl

@[simp] theorem set_im_imm (s : State) (m : Ptr) (v : input_method) :
    (s.set_im m v).input_method_manager = s.input_method_manager := rfl

@[simp] theorem set_im_trace (s : State) (m : Ptr) (v : input_method) :
    (s.set_im m v).trace = s.trace := rfl

@[simp] theorem emit_ti (s : State) (e : Event) : (s.emit e).ti = s.ti := rfl

@[simp] theorem emit_im (s : State) (e : Event) : (s.emit e).im = s.im := rfl

@[simp] theorem emit_seat (s : State) (e : Event) : (s.emit e).seat = s.seat := rfl

@[simp] theorem emit_kbd (s : State) (e : Event) : (s.emit e).kbd = s.kbd := rfl

@[simp] theorem emit_tim (s : State) (e : Event) :
    (s.emit e).text_input_manager = s.text_input_manager := rfl

@[simp] theorem emit_imm (s : State) (e : Event) :
    (s.emit e).input_method_manager = s.input_method_manager := rfl

@[simp] theorem emit_trace (s : State) (e : Event) :
    (s.emit e).trace = s.trace ++ [e] := rfl

/-- Two states with the same memory cells and the same trace are equal. -/
theorem state_eq {a b : State} (h1 : ∀ t, a.ti t = b.ti t) (h2 : ∀ m, a.im m = b.im m)
    (h3 : a.seat = b.seat) (h4 : a.kbd = b.kbd)
    (h5 : a.text_input_manager = b.text_input_manager)
    (h6 : a.input_method_manager = b.input_method_manager)
    (h7 : a.trace = b.trace) : a = b :=
  State.ext (funext h1) (funext h2) h3 h4 h5 h6 h7

/-! ## Deactivation, field by field -/

theorem deactivate_text_input_ti (s : State) (t t' : Ptr) :
    (deactivate_text_input s t).ti t' =
      if t' = t then
        { s.ti t with
          input_panel_visible :=
            if (s.ti t).input_method.isSome ∧ (s.ti t).input_panel_visible = true ∧
                s.text_input_manager.current_text_input = some t then false
            else (s.ti t).input_panel_visible,
          input_method := none, surface := none }
      else s.ti t' := by
  unfold deactivate_text_input
  rcases option_cases (s.ti t).input_method with h1 | ⟨m, h1⟩ <;>
  rcases option_cases (s.ti t).surface with h2 | ⟨sf, h2⟩ <;>
  by_cases h3 : (s.ti t).input_panel_visible = true <;>
  by_cases h4 : s.text_input_manager.current_text_input = some t <;>
  by_cases h : t' = t <;>
  simp [h1, h2, h3, h4, h]

theorem deactivate_text_input_im (s : State) (t m' : Ptr) :
    (deactivate_text_input s t).im m' =
      if (s.ti t).input_method = some m' then { s.im m' with input := none } else s.im m' := by
  unfold deactivate_text_input
  rcases option_cases (s.ti t).input_method with h1 | ⟨m, h1⟩ <;>
  rcases option_cases (s.ti t).surface with h2 | ⟨sf, h2⟩ <;>
  by_cases h3 : (s.ti t).input_panel_visible = true <;>
  by_cases h4 : s.text_input_manager.current_text_input = some t <;>
  simp [h1, h2, h3, h4] <;>
  by_cases h : m' = m <;> simp [h, eq_comm]

theorem deactivate_text_input_tim (s : State) (t : Ptr) :
    (deactivate_text_input s t).text_input_manager =
      { s.text_input_manager with
        current_text_input :=
          if s.text_input_manager.current_text_input = some t then none
          else s.text_input_manager.current_text_input } := by
  unfold deactivate_text_input
  rcases option_cases (s.ti t).input_method with h1 | ⟨m, h1⟩ <;>
  rcases option_cases (s.ti t).surface with h2 | ⟨sf, h2⟩ <;>
  by_cases h3 : (s.ti t).input_panel_visible = true <;>
  by_cases h4 : s.text_input_manager.current_text_input = some t <;>
  simp [h1, h2, h3, h4]

theorem deactivate_text_input_trace (s : State) (t : Ptr) :
    (deactivate_text_input s t).trace =
      s.trace ++
        (if (s.ti t).input_method.isSome ∧ (s.ti t).input_panel_visible = true ∧
            s.text_input_manager.current_text_input = some t
          then [Event.hide_input_panel_signal] else []) ++
        (match (s.ti t).surface with
          | some surface => [Event.zwp_text_input_v3_send_leave (s.ti t).resource surface]
          | none => []) := by
  unfold deactivate_text_input
  rcases option_cases (s.ti t).input_method with h1 | ⟨m, h1⟩ <;>
  rcases option_cases (s.ti t).surface with h2 | ⟨sf, h2⟩ <;>
  by_cases h3 : (s.ti t).input_panel_visible = true <;>
  by_cases h4 : s.text_input_manager.current_text_input = some t <;>
  simp [h1, h2, h3, h4]

theorem deactivate_text_input_rest (s : State) (t : Ptr) :
    (deactivate_text_input s t).seat = s.seat ∧ (deactivate_text_input s t).kbd = s.kbd ∧
      (deactivate_text_input s t).input_method_manager = s.input_method_manager := by
  unfold deactivate_text_input
  rcases option_cases (s.ti t).input_method with h1 | ⟨m, h1⟩ <;>
  rcases option_cases (s.ti t).surface with h2 | ⟨sf, h2⟩ <;>
  by_cases h3 : (s.ti t).input_panel_visible = true <;>
  by_cases h4 : s.text_input_manager.current_text_input = some t <;>
  simp [h1, h2, h3, h4]

/-! ## Activation -/

theorem activate_text_input_ok (s : State) (t weston_seat m surface : Ptr)
    (h1 : (s.ti t).seat = some weston_seat)
    (h2 : (s.seat weston_seat).input_method = some m)
    (h3 : (s.im m).input ≠ some t)
    (h4 : (s.im m).pending_focused_surface = some surface) :
    activate_text_input s t =
      { s with
        ti := Function.update s.ti t
          { s.ti t with input_method := some m, surface := some surface,
                        input_panel_visible := true },
        im := Function.update s.im m { s.im m with input := some t },
        text_input_manager := { s.text_input_manager with current_text_input := some t },
        trace := s.trace ++
          [Event.zwp_input_method_v2_send_activate (s.im m).resource,
           Event.show_input_panel_signal (some surface),
           Event.update_input_panel_signal (s.ti t).current.cursor_rectangle,
           Event.zwp_text_input_v3_send_enter (s.ti t).resource surface] } := by
  unfold activate_text_input text_input_show_input_panel
  simp only [h1, h2, h3, h4]
  apply state_eq <;> intros <;> simp [Function.update_apply] <;> (split_ifs <;> simp_all)

theorem activate_text_input_cases (s : State) (t : Ptr) :
    activate_text_input s t = s ∨
      ∃ weston_seat m surface, (s.ti t).seat = some weston_seat ∧
        (s.seat weston_seat).input_method = some m ∧ (s.im m).input ≠ some t ∧
        (s.im m).pending_focused_surface = some surface := by
  rcases option_cases (s.ti t).seat with h1 | ⟨weston_seat, h1⟩
  · left; unfold activate_text_input; simp [h1]
  rcases option_cases (s.seat weston_seat).input_method with h2 | ⟨m, h2⟩
  · left; unfold activate_text_input; simp [h1, h2]
  by_cases h3 : (s.im m).input = some t
  · left; unfold activate_text_input; simp [h1, h2, h3]
  rcases option_cases (s.im m).pending_focused_surface with h4 | ⟨surface, h4⟩
  · left; unfold activate_text_input; simp [h1, h2, h3, h4]
  · exact Or.inr ⟨weston_seat, m, surface, h1, h2, h3, h4⟩

/-- Activation writes only the cross references and the panel flag of a session. -/
theorem activate_text_input_ti_frame (s : State) (t t' : Ptr) :
    ((activate_text_input s t).ti t').resource = (s.ti t').resource ∧
    ((activate_text_input s t).ti t').seat = (s.ti t').seat ∧
    ((activate_text_input s t).ti t').current_serial = (s.ti t').current_serial ∧
    ((activate_text_input s t).ti t').pending_enabled = (s.ti t').pending_enabled ∧
    ((activate_text_input s t).ti t').current_enabled = (s.ti t').current_enabled ∧
    ((activate_text_input s t).ti t').pending = (s.ti t').pending ∧
    ((activate_text_input s t).ti t').current = (s.ti t').current := by
  rcases activate_text_input_cases s t with h | ⟨weston_seat, m, surface, h1, h2, h3, h4⟩
  · simp [h]
  · rw [activate_text_input_ok s t weston_seat m surface h1 h2 h3 h4]
    by_cases h : t' = t <;> simp [Function.update_apply, h]

/-- Activation writes only the `input` member of an input method. -/
theorem activate_text_input_im_frame (s : State) (t m' : Ptr) :
    ((activate_text_input s t).im m').resource = (s.im m').resource ∧
    ((activate_text_input s t).im m').pending_focused_surface =
      (s.im m').pending_focused_surface ∧
    ((activate_text_input s t).im m').pending = (s.im m').pending ∧
    ((activate_text_input s t).im m').current = (s.im m').current := by
  rcases activate_text_input_cases s t with h | ⟨weston_seat, m, surface, h1, h2, h3, h4⟩
  · simp [h]
  · rw [activate_text_input_ok s t weston_seat m surface h1 h2 h3 h4]
    by_cases h : m' = m <;> simp [Function.update_apply, h]

/-! ## Commit of a text input session -/

theorem text_input_commit_forward_none (s : State) (t : Ptr) :
    text_input_commit_forward s t none = s := rfl

theorem text_input_commit_forward_trace (s : State) (t m : Ptr) :
    (text_input_commit_forward s t (some m)).trace =
      s.trace ++
        (match (s.ti t).current.surrounding.text with
          | some text =>
            [Event.zwp_input_method_v2_send_surrounding_text (s.im m).resource text
              (s.ti t).current.surrounding.cursor (s.ti t).current.surrounding.anchor]
          | none => []) ++
        [Event.zwp_input_method_v2_send_text_change_cause (s.im m).resource
           (s.ti t).current.text_change_cause,
         Event.zwp_input_method_v2_send_content_type (s.im m).resource
           (s.ti t).current.content_type.hint (s.ti t).current.content_type.purpose,
         Event.update_input_panel_signal (s.ti t).current.cursor_rectangle,
         Event.zwp_input_method_v2_send_done (s.im m).resource] := by
  unfold text_input_commit_forward
  rcases option_cases (s.ti t).current.surrounding.text with h | ⟨text, h⟩ <;> simp [h]

theorem text_input_commit_forward_frame (s : State) (t : Ptr) (im : Option Ptr) :
    (text_input_commit_forward s t im).ti = s.ti ∧
    (text_input_commit_forward s t im).im = s.im ∧
    (text_input_commit_forward s t im).seat = s.seat ∧
    (text_input_commit_forward s t im).kbd = s.kbd ∧
    (text_input_commit_forward s t im).text_input_manager = s.text_input_manager ∧
    (text_input_commit_forward s t im).input_method_manager = s.input_method_manager := by
  rcases option_cases im with h | ⟨m, h⟩
  · subst h; simp [text_input_commit_forward_none]
  · subst h
    unfold text_input_commit_forward
    rcases option_cases (s.ti t).current.surrounding.text with h | ⟨text, h⟩ <;> simp [h]

theorem text_input_commit_unfold (s : State) (t : Ptr) :
    text_input_commit s t =
      text_input_commit_forward
        (if (s.ti t).current_enabled = false ∧ (s.ti t).pending_enabled = true then
          activate_text_input (text_input_commit_store s t) t
        else if (s.ti t).current_enabled = true ∧ (s.ti t).pending_enabled = false then
          deactivate_text_input (text_input_commit_store s t) t
        else text_input_commit_store s t)
        t (s.ti t).input_method := by
  have h : ((s.set_ti t { s.ti t with
        current_serial := ((s.ti t).current_serial + 1) % 4294967296 }).set_ti t
        { s.ti t with current_serial := ((s.ti t).current_serial + 1) % 4294967296,
                      current := (s.ti t).pending }).set_ti t
        { s.ti t with current_serial := ((s.ti t).current_serial + 1) % 4294967296,
                      current := (s.ti t).pending,
                      current_enabled := (s.ti t).pending_enabled } =
      text_input_commit_store s t := by
    apply state_eq <;> intros <;> simp [text_input_commit_store] <;> (split_ifs <;> rfl)
  have h1 : ((text_input_commit_store s t).ti t).current_enabled = (s.ti t).pending_enabled := by
    simp [text_input_commit_store]
  have h2 : ((text_input_commit_store s t).ti t).input_method = (s.ti t).input_method := by
    simp [text_input_commit_store]
  unfold text_input_commit
  simp [h, h1, h2]

/-- Claim C2. For every state and session `t`, with no assumption on the
enabled flags or on attachment, `text_input_commit` yields
`current_serial' = (current_serial + 1) mod 2^32`, `current' = pending` (the
surrounding text included, absent when `pending` has none),
`current_enabled' = pending_enabled`, and leaves `pending` and `pending_enabled`
as they were. A session created by `get_text_input` has serial `0`, and `1` after
its first commit. -/
theorem text_input_commit_promotes_pending (s : State) (t : Ptr) :
    ((text_input_commit s t).ti t).current_serial =
        ((s.ti t).current_serial + 1) % 4294967296 ∧
    ((text_input_commit s t).ti t).current = (s.ti t).pending ∧
    ((text_input_commit s t).ti t).current_enabled = (s.ti t).pending_enabled ∧
    ((text_input_commit s t).ti t).pending = (s.ti t).pending ∧
    ((text_input_commit s t).ti t).pending_enabled = (s.ti t).pending_enabled ∧
    (∀ p id weston_seat,
      ((text_input_manager_get_text_input s p id weston_seat).ti p).current_serial = 0 ∧
      ((text_input_commit (text_input_manager_get_text_input s p id weston_seat) p).ti
        p).current_serial = 1) := by
  have key : ∀ (s : State) (t : Ptr),
      ((text_input_commit s t).ti t).current_serial =
          ((s.ti t).current_serial + 1) % 4294967296 ∧
      ((text_input_commit s t).ti t).current = (s.ti t).pending ∧
      ((text_input_commit s t).ti t).current_enabled = (s.ti t).pending_enabled ∧
      ((text_input_commit s t).ti t).pending = (s.ti t).pending ∧
      ((text_input_commit s t).ti t).pending_enabled = (s.ti t).pending_enabled := by
    intro s t
    rw [text_input_commit_unfold, (text_input_commit_forward_frame _ t _).1]
    split_ifs
    · have h := activate_text_input_ti_frame (text_input_commit_store s t) t t
      simp only [h]
      simp [text_input_commit_store]
    · simp [deactivate_text_input_ti, text_input_commit_store]
    · simp [text_input_commit_store]
  refine ⟨(key s t).1, (key s t).2.1, (key s t).2.2.1, (key s t).2.2.2.1, (key s t).2.2.2.2, ?_⟩
  intro p id weston_seat
  have h0 : ((text_input_manager_get_text_input s p id weston_seat).ti p).current_serial = 0 := by
    simp [text_input_manager_get_text_input]
  exact ⟨h0, by rw [(key _ p).1, h0]⟩

/-! ## Deactivation: postcondition and idempotence -/

theorem deactivate_text_input_after (s : State) (t : Ptr) :
    ((deactivate_text_input s t).ti t).input_method = none ∧
    (∀ m, (s.ti t).input_method = some m → ((deactivate_text_input s t).im m).input = none) ∧
    (deactivate_text_input s t).text_input_manager.current_text_input ≠ some t ∧
    ((deactivate_text_input s t).ti t).surface = none ∧
    (deactivate_text_input s t).trace =
      s.trace ++
        (if (s.ti t).input_method ≠ none ∧ (s.ti t).input_panel_visible = true ∧
            s.text_input_manager.current_text_input = some t
          then [Event.hide_input_panel_signal] else []) ++
        (match (s.ti t).surface with
          | some surface => [Event.zwp_text_input_v3_send_leave (s.ti t).resource surface]
          | none => []) := by
  refine ⟨?_, ?_, ?_, ?_, ?_⟩
  · simp [deactivate_text_input_ti]
  · intro m hm
    simp [deactivate_text_input_im, hm]
  · rw [deactivate_text_input_tim]
    by_cases h : s.text_input_manager.current_text_input = some t <;> simp [h]
  · simp [deactivate_text_input_ti]
  · rw [deactivate_text_input_trace]
    simp [Option.isSome_iff_ne_none]

/-- Claim C7 (postcondition of Deactivation). After `deactivate_text_input` on
`t`: `t` has no input method; the input method `t` referred to serves nobody;
the current session of the manager is not `t`; `t` has no bound surface. The trace
grows by the hide signal exactly when `t` had an input method, its panel flag was
set and it was the current session (the flag is cleared in exactly that case),
followed by `leave(S)` exactly when `t` was bound to a surface `S`; the hide
signal thus precedes the leave event. -/
theorem deactivate_text_input_postcondition (s : State) (t : Ptr) :
    ((deactivate_text_input s t).ti t).input_method = none ∧
    (∀ m, (s.ti t).input_method = some m → ((deactivate_text_input s t).im m).input = none) ∧
    (deactivate_text_input s t).text_input_manager.current_text_input ≠ some t ∧
    ((deactivate_text_input s t).ti t).surface = none ∧
    (deactivate_text_input s t).trace =
      s.trace ++
        (if (s.ti t).input_method ≠ none ∧ (s.ti t).input_panel_visible = true ∧
            s.text_input_manager.current_text_input = some t
          then [Event.hide_input_panel_signal] else []) ++
        (match (s.ti t).surface with
          | some surface => [Event.zwp_text_input_v3_send_leave (s.ti t).resource surface]
          | none => []) ∧
    ((deactivate_text_input s t).ti t).input_panel_visible =
      (if (s.ti t).input_method ≠ none ∧ (s.ti t).input_panel_visible = true ∧
          s.text_input_manager.current_text_input = some t
        then false else (s.ti t).input_panel_visible) := by
  refine ⟨?_, ?_, ?_, ?_, ?_, ?_⟩
  · simp [deactivate_text_input_ti]
  · intro m hm
    simp [deactivate_text_input_im, hm]
  · rw [deactivate_text_input_tim]
    by_cases h : s.text_input_manager.current_text_input = some t <;> simp [h]
  · simp [deactivate_text_input_ti]
  · rw [deactivate_text_input_trace]
    simp [Option.isSome_iff_ne_none]
  · simp [deactivate_text_input_ti, Option.isSome_iff_ne_none]

/-- Claim C8 (idempotent Deactivation, P3). Running `deactivate_text_input` on
`t` twice gives the same state as running it once; in particular the trace is
the same, so the second run emits no signal and no event. -/
theorem deactivate_text_input_idempotent (s : State) (t : Ptr) :
    deactivate_text_input (deactivate_text_input s t) t = deactivate_text_input s t ∧
    (deactivate_text_input (deactivate_text_input s t) t).trace =
      (deactivate_text_input s t).trace := by
  have h : deactivate_text_input (deactivate_text_input s t) t = deactivate_text_input s t := by
    apply state_eq
    · intro t'
      rw [deactivate_text_input_ti]
      by_cases h : t' = t
      · subst h
        simp [deactivate_text_input_ti]
      · simp [h]
    · intro m
      rw [deactivate_text_input_im]
      simp [deactivate_text_input_ti]
    · exact (deactivate_text_input_rest _ t).1
    · exact (deactivate_text_input_rest _ t).2.1
    · rw [deactivate_text_input_tim]
      have h := (deactivate_text_input_after s t).2.2.1
      simp [h]
    · exact (deactivate_text_input_rest _ t).2.2
    · rw [deactivate_text_input_trace]
      simp [deactivate_text_input_ti]
  exact ⟨h, by rw [h]⟩

/-! ## Commit of an input method session -/

/-- Claim C10. If the input method `m` serves no text input session,
`input_method_commit` returns the state it was given: `pending` keeps what was
staged, `current` is untouched, and the trace is the same, so nothing is sent. -/
theorem input_method_commit_without_text_input (s : State) (m : Ptr) (serial : Nat)
    (h : (s.im m).input = none) :
    input_method_commit s m serial = s := by
  unfold input_method_commit
  simp [h]

/-- Claim C9 (scenario C, generalised). If the input method `m` serves the text
input session `t`, `input_method_commit` sets `current` to the previous
`pending`, resets `pending` to the defaults, and appends to the trace, on the
resource of `t` and in this order: `preedit_string` iff a preedit text was
staged, `commit_string` iff a commit text was staged, `delete_surrounding_text`
iff one of the two lengths is not zero, and finally `done` with the serial of
`t`. The resulting state does not depend on the serial argument. -/
theorem input_method_commit_relays (s : State) (m t : Ptr) (serial : Nat)
    (h : (s.im m).input = some t) :
    ((input_method_commit s m serial).im m).current = (s.im m).pending ∧
    ((input_method_commit s m serial).im m).pending =
      { preedit := { text := none, cursor_begin := 0, cursor_end := 0 },
        commit_text := none,
        delete := { before_length := 0, after_length := 0 } } ∧
    (input_method_commit s m serial).trace =
      s.trace ++
        (match (s.im m).pending.preedit.text with
          | some text =>
            [Event.zwp_text_input_v3_send_preedit_string (s.ti t).resource text
              (s.im m).pending.preedit.cursor_begin (s.im m).pending.preedit.cursor_end]
          | none => []) ++
        (match (s.im m).pending.commit_text with
          | some text => [Event.zwp_text_input_v3_send_commit_string (s.ti t).resource text]
          | none => []) ++
        (if (s.im m).pending.delete.before_length ≠ 0 ∨
            (s.im m).pending.delete.after_length ≠ 0
          then [Event.zwp_text_input_v3_send_delete_surrounding_text (s.ti t).resource
            (s.im m).pending.delete.before_length (s.im m).pending.delete.after_length]
          else []) ++
        [Event.zwp_text_input_v3_send_done (s.ti t).resource (s.ti t).current_serial] ∧
    (∀ serial', input_method_commit s m serial' = input_method_commit s m serial) := by
  refine ⟨?_, ?_, ?_, fun _ => rfl⟩
  · unfold input_method_commit
    rcases option_cases (s.im m).pending.preedit.text with h1 | ⟨a, h1⟩ <;>
    rcases option_cases (s.im m).pending.commit_text with h2 | ⟨b, h2⟩ <;>
    by_cases h3 : (s.im m).pending.delete.before_length ≠ 0 ∨
      (s.im m).pending.delete.after_length ≠ 0 <;>
    simp [h, h1, h2, h3]
  · unfold input_method_commit
    rcases option_cases (s.im m).pending.preedit.text with h1 | ⟨a, h1⟩ <;>
    rcases option_cases (s.im m).pending.commit_text with h2 | ⟨b, h2⟩ <;>
    by_cases h3 : (s.im m).pending.delete.before_length ≠ 0 ∨
      (s.im m).pending.delete.after_length ≠ 0 <;>
    simp [h, h1, h2, h3, input_method_state_zero]
  · unfold input_method_commit
    rcases option_cases (s.im m).pending.preedit.text with h1 | ⟨a, h1⟩ <;>
    rcases option_cases (s.im m).pending.commit_text with h2 | ⟨b, h2⟩ <;>
    by_cases h3 : (s.im m).pending.delete.before_length ≠ 0 ∨
      (s.im m).pending.delete.after_length ≠ 0 <;>
    simp [h, h1, h2, h3]

/-! ## What the other requests leave alone -/

theorem input_method_commit_frame (s : State) (m : Ptr) (serial : Nat) :
    (input_method_commit s m serial).ti = s.ti ∧
    (input_method_commit s m serial).seat = s.seat ∧
    (input_method_commit s m serial).kbd = s.kbd ∧
    (input_method_commit s m serial).text_input_manager = s.text_input_manager ∧
    (input_method_commit s m serial).input_method_manager = s.input_method_manager ∧
    (∀ m', m' ≠ m → (input_method_commit s m serial).im m' = s.im m') := by
  rcases option_cases (s.im m).input with h | ⟨t, h⟩
  · have e : input_method_commit s m serial = s := by
      unfold input_method_commit
      simp [h]
    simp [e]
  · unfold input_method_commit
    rcases option_cases (s.im m).pending.preedit.text with h1 | ⟨a, h1⟩ <;>
    rcases option_cases (s.im m).pending.commit_text with h2 | ⟨b, h2⟩ <;>
    by_cases h3 : (s.im m).pending.delete.before_length ≠ 0 ∨
      (s.im m).pending.delete.after_length ≠ 0 <;>
    simp +contextual [h, h1, h2, h3]

theorem text_input_commit_ti_other (s : State) (t t' : Ptr) (h : t' ≠ t) :
    ((text_input_commit s t).ti t').current = (s.ti t').current := by
  rw [text_input_commit_unfold, (text_input_commit_forward_frame _ t _).1]
  split_ifs
  · rw [(activate_text_input_ti_frame _ t t').2.2.2.2.2.2]
    simp [text_input_commit_store, h]
  · simp [deactivate_text_input_ti, text_input_commit_store, h]
  · simp [text_input_commit_store, h]

theorem text_input_commit_im_current (s : State) (t m : Ptr) :
    ((text_input_commit s t).im m).current = (s.im m).current := by
  rw [text_input_commit_unfold, (text_input_commit_forward_frame _ t _).2.1]
  split_ifs
  · rw [(activate_text_input_im_frame _ t m).2.2.2]
    simp [text_input_commit_store]
  · rw [deactivate_text_input_im]
    split_ifs <;> simp [text_input_commit_store]
  · simp [text_input_commit_store]

theorem handle_keyboard_focus_current (s : State) (m keyboard : Ptr) :
    (∀ t, ((handle_keyboard_focus s m keyboard).ti t).current = (s.ti t).current) ∧
    (∀ m', ((handle_keyboard_focus s m keyboard).im m').current = (s.im m').current) := by
  unfold handle_keyboard_focus
  rcases option_cases (s.im m).input with h | ⟨t, h⟩
  · simp only [h]
    refine ⟨fun t => by simp, fun m' => ?_⟩
    by_cases hm : m' = m <;> simp [hm]
  · simp only [h]
    refine ⟨fun t' => ?_, fun m' => ?_⟩
    · simp only [set_im_ti]
      split_ifs
      · rw [deactivate_text_input_ti]; split_ifs <;> simp_all
      · rfl
    · by_cases hm : m' = m
      · subst hm
        simp only [set_im_im, if_true]
        split_ifs
        · rw [deactivate_text_input_im]; split_ifs <;> simp
        · rfl
      · simp only [set_im_im, hm, if_false]
        split_ifs
        · rw [deactivate_text_input_im]; split_ifs <;> simp
        · rfl

theorem text_input_stage_frame (s : State) (t : Ptr) (r : text_input_staging) :
    (text_input_stage s t r).im = s.im ∧
    (text_input_stage s t r).seat = s.seat ∧
    (text_input_stage s t r).kbd = s.kbd ∧
    (text_input_stage s t r).text_input_manager = s.text_input_manager ∧
    (text_input_stage s t r).input_method_manager = s.input_method_manager ∧
    (text_input_stage s t r).trace = s.trace ∧
    (∀ t', t' ≠ t → (text_input_stage s t r).ti t' = s.ti t') ∧
    (text_input_stage s t r).ti t =
      { s.ti t with
        pending := ((text_input_stage s t r).ti t).pending,
        pending_enabled := ((text_input_stage s t r).ti t).pending_enabled } ∧
    (r.is_set = true →
      ((text_input_stage s t r).ti t).pending_enabled = (s.ti t).pending_enabled) ∧
    (r = text_input_staging.disable →
      ((text_input_stage s t r).ti t).pending = (s.ti t).pending) := by
  cases r <;>
  simp +contextual [text_input_stage, text_input_set_surrounding_text,
    text_input_set_text_change_cause, text_input_set_content_type,
    text_input_set_cursor_rectangle, text_input_enable, text_input_disable,
    text_input_staging.is_set]

theorem input_method_stage_frame (s : State) (m : Ptr) (r : input_method_staging) :
    (input_method_stage s m r).ti = s.ti ∧
    (input_method_stage s m r).seat = s.seat ∧
    (input_method_stage s m r).kbd = s.kbd ∧
    (input_method_stage s m r).text_input_manager = s.text_input_manager ∧
    (input_method_stage s m r).input_method_manager = s.input_method_manager ∧
    (input_method_stage s m r).trace = s.trace ∧
    (∀ m', m' ≠ m → (input_method_stage s m r).im m' = s.im m') ∧
    (input_method_stage s m r).im m =
      { s.im m with pending := ((input_method_stage s m r).im m).pending } := by
  cases r <;>
  simp +contextual [input_method_stage, input_method_set_preedit_string,
    input_method_commit_string, input_method_delete_surrounding_text]

/-- Claim C3 (staging is invisible, I4). Every staging request of a text input
session `t` leaves the trace, the managers, the seats, the keyboards, every input
method and every other text input session untouched, and changes of `t` at most
`pending` and `pending_enabled` (the four `set_*` requests: not `pending_enabled`;
`disable`: not `pending`). Every staging request of an input method session `m`
leaves everything untouched except `pending` of `m`. Consequently, for every
request `r` on existing sessions, the `current` record of a text input session
`t` is unchanged unless `r` is the commit of `t`, and the `current` record of an
input method session `m` is unchanged unless `r` is a commit of `m`. -/
theorem staging_is_invisible (s : State) :
    (∀ (t : Ptr) (r : text_input_staging),
      (text_input_stage s t r).im = s.im ∧
      (text_input_stage s t r).seat = s.seat ∧
      (text_input_stage s t r).kbd = s.kbd ∧
      (text_input_stage s t r).text_input_manager = s.text_input_manager ∧
      (text_input_stage s t r).input_method_manager = s.input_method_manager ∧
      (text_input_stage s t r).trace = s.trace ∧
      (∀ t', t' ≠ t → (text_input_stage s t r).ti t' = s.ti t') ∧
      (text_input_stage s t r).ti t =
        { s.ti t with
          pending := ((text_input_stage s t r).ti t).pending,
          pending_enabled := ((text_input_stage s t r).ti t).pending_enabled } ∧
      (r.is_set = true →
        ((text_input_stage s t r).ti t).pending_enabled = (s.ti t).pending_enabled) ∧
      (r = text_input_staging.disable →
        ((text_input_stage s t r).ti t).pending = (s.ti t).pending)) ∧
    (∀ (m : Ptr) (r : input_method_staging),
      (input_method_stage s m r).ti = s.ti ∧
      (input_method_stage s m r).seat = s.seat ∧
      (input_method_stage s m r).kbd = s.kbd ∧
      (input_method_stage s m r).text_input_manager = s.text_input_manager ∧
      (input_method_stage s m r).input_method_manager = s.input_method_manager ∧
      (input_method_stage s m r).trace = s.trace ∧
      (∀ m', m' ≠ m → (input_method_stage s m r).im m' = s.im m') ∧
      (input_method_stage s m r).im m =
        { s.im m with pending := ((input_method_stage s m r).im m).pending }) ∧
    (∀ (r : Request) (t : Ptr), r ≠ Request.text_input_commit t →
      ((step s r).ti t).current = (s.ti t).current) ∧
    (∀ (r : Request) (m : Ptr), (∀ serial, r ≠ Request.input_method_commit m serial) →
      ((step s r).im m).current = (s.im m).current) := by
  refine ⟨text_input_stage_frame s, input_method_stage_frame s, ?_, ?_⟩
  · intro r t hr
    cases r with
    | text_input_stage t' r =>
      simp only [step]
      by_cases h : t = t'
      · subst h
        rw [(text_input_stage_frame s t r).2.2.2.2.2.2.2.1]
      · rw [(text_input_stage_frame s t' r).2.2.2.2.2.2.1 t h]
    | text_input_commit t' =>
      have h : t ≠ t' := fun h => hr (by rw [h])
      exact text_input_commit_ti_other s t' t h
    | input_method_stage m r =>
      simp only [step]
      rw [(input_method_stage_frame s m r).1]
    | input_method_commit m serial =>
      simp only [step]
      rw [(input_method_commit_frame s m serial).1]
    | keyboard_focus m keyboard =>
      exact (handle_keyboard_focus_current s m keyboard).1 t
  · intro r m hr
    cases r with
    | text_input_stage t r =>
      simp only [step]
      rw [(text_input_stage_frame s t r).1]
    | text_input_commit t => exact text_input_commit_im_current s t m
    | input_method_stage m' r =>
      simp only [step]
      by_cases h : m = m'
      · subst h
        rw [(input_method_stage_frame s m r).2.2.2.2.2.2.2]
      · rw [(input_method_stage_frame s m' r).2.2.2.2.2.2.1 m h]
    | input_method_commit m' serial =>
      have h : m ≠ m' := fun h => hr serial (by rw [h])
      simp only [step]
      rw [(input_method_commit_frame s m' serial).2.2.2.2.2 m h]
    | keyboard_focus m' keyboard =>
      exact (handle_keyboard_focus_current s m' keyboard).2 m

/-! ## Enable and commit -/

theorem enable_commit_unfold (s : State) (t weston_seat m surface : Ptr)
    (hdis : (s.ti t).current_enabled = false)
    (h1 : (s.ti t).seat = some weston_seat)
    (h2 : (s.seat weston_seat).input_method = some m)
    (h3 : (s.im m).input ≠ some t)
    (h4 : (s.im m).pending_focused_surface = some surface) :
    text_input_commit (text_input_enable s t) t =
      text_input_commit_forward
        { s with
          ti := Function.update s.ti t
            { s.ti t with
              input_method := some m, surface := some surface, input_panel_visible := true,
              current_serial := ((s.ti t).current_serial + 1) % 4294967296,
              pending := text_input_state_zero, current := text_input_state_zero,
              pending_enabled := true, current_enabled := true },
          im := Function.update s.im m { s.im m with input := some t },
          text_input_manager := { s.text_input_manager with current_text_input := some t },
          trace := s.trace ++
            [Event.zwp_input_method_v2_send_activate (s.im m).resource,
             Event.show_input_panel_signal (some surface),
             Event.update_input_panel_signal text_input_state_zero.cursor_rectangle,
             Event.zwp_text_input_v3_send_enter (s.ti t).resource surface] }
        t (s.ti t).input_method := by
  rw [text_input_commit_unfold]
  have e1 : ((text_input_enable s t).ti t).current_enabled = false := by
    simp [text_input_enable, hdis]
  have e2 : ((text_input_enable s t).ti t).pending_enabled = true := by
    simp [text_input_enable]
  have e3 : ((text_input_enable s t).ti t).input_method = (s.ti t).input_method := by
    simp [text_input_enable]
  rw [e3]
  simp only [e1, e2, and_self, if_true]
  rw [activate_text_input_ok _ t weston_seat m surface
    (by simp [text_input_commit_store, text_input_enable, h1])
    (by simp [text_input_commit_store, text_input_enable, h2])
    (by simpa [text_input_commit_store, text_input_enable] using h3)
    (by simp [text_input_commit_store, text_input_enable, h4])]
  congr 1
  apply state_eq <;> intros <;>
    simp [text_input_commit_store, text_input_enable, Function.update_apply] <;>
    (split_ifs <;> simp_all)

/-- Claim C5 (scenario A, effect of Activation). Let `t` be a disabled session
(hence attached to no input method, see `step_attached_enabled`) whose seat has
the input method `m`, not serving `t`, with recorded focused surface `surface`.
After `enable` and `commit`: `m` serves `t`, `t` refers to `m`, `t` is bound to
`surface`, `t` is the current session of the manager, its panel flag is set, and
the trace grew by exactly `activate` (on the resource of `m`),
`show_input_panel(surface)`, `update_input_panel` with the current cursor
rectangle of `t`, `enter(surface)` (on the resource of `t`), in this order. -/
theorem enable_commit_activates (s : State) (t weston_seat m surface : Ptr)
    (hdis : (s.ti t).current_enabled = false)
    (hun : (s.ti t).input_method = none)
    (h1 : (s.ti t).seat = some weston_seat)
    (h2 : (s.seat weston_seat).input_method = some m)
    (h3 : (s.im m).input ≠ some t)
    (h4 : (s.im m).pending_focused_surface = some surface) :
    ((text_input_commit (text_input_enable s t) t).im m).input = some t ∧
    ((text_input_commit (text_input_enable s t) t).ti t).input_method = some m ∧
    ((text_input_commit (text_input_enable s t) t).ti t).surface = some surface ∧
    (text_input_commit (text_input_enable s t) t).text_input_manager.current_text_input =
      some t ∧
    ((text_input_commit (text_input_enable s t) t).ti t).input_panel_visible = true ∧
    (text_input_commit (text_input_enable s t) t).trace =
      s.trace ++
        [Event.zwp_input_method_v2_send_activate (s.im m).resource,
         Event.show_input_panel_signal (some surface),
         Event.update_input_panel_signal
           ((text_input_commit (text_input_enable s t) t).ti t).current.cursor_rectangle,
         Event.zwp_text_input_v3_send_enter (s.ti t).resource surface] := by
  rw [enable_commit_unfold s t weston_seat m surface hdis h1 h2 h3 h4, hun,
    text_input_commit_forward_none]
  simp

/-! ## Focus changes -/

/-- Claim C6 (focus change, P4). After the focus handler of input method `m` ran
for a keyboard whose focus is `f`, `pending_focused_surface = f`. If `m` serves a
session `t` bound to `surface` and `f` is none or another surface, the handler
ran Deactivation on `t`: `t` has no input method and no bound surface, is not the
current session of the manager, `m` serves nobody if `t` referred to `m`, and the
trace grew by the hide signal (when `t` owned a visible panel) followed by
`leave(surface)`. If `m` serves a session bound to `f`, or serves none, the state
is the old one with only `pending_focused_surface` of `m` replaced, the trace
included. -/
theorem handle_keyboard_focus_effect (s : State) (m keyboard : Ptr) :
    ((handle_keyboard_focus s m keyboard).im m).pending_focused_surface =
      (s.kbd keyboard).focus ∧
    (∀ t surface, (s.im m).input = some t → (s.ti t).surface = some surface →
      (s.kbd keyboard).focus ≠ some surface →
      handle_keyboard_focus s m keyboard =
        (deactivate_text_input s t).set_im m
          { (deactivate_text_input s t).im m with
            pending_focused_surface := (s.kbd keyboard).focus } ∧
      ((handle_keyboard_focus s m keyboard).ti t).input_method = none ∧
      ((handle_keyboard_focus s m keyboard).ti t).surface = none ∧
      (handle_keyboard_focus s m keyboard).text_input_manager.current_text_input ≠ some t ∧
      ((s.ti t).input_method = some m → ((handle_keyboard_focus s m keyboard).im m).input = none) ∧
      (handle_keyboard_focus s m keyboard).trace =
        s.trace ++
          (if (s.ti t).input_method ≠ none ∧ (s.ti t).input_panel_visible = true ∧
              s.text_input_manager.current_text_input = some t
            then [Event.hide_input_panel_signal] else []) ++
          [Event.zwp_text_input_v3_send_leave (s.ti t).resource surface]) ∧
    (∀ t surface, (s.im m).input = some t → (s.ti t).surface = some surface →
      (s.kbd keyboard).focus = some surface →
      handle_keyboard_focus s m keyboard =
        s.set_im m { s.im m with pending_focused_surface := some surface }) ∧
    ((s.im m).input = none →
      handle_keyboard_focus s m keyboard =
        s.set_im m { s.im m with pending_focused_surface := (s.kbd keyboard).focus }) := by
  refine ⟨?_, ?_, ?_, ?_⟩
  · unfold handle_keyboard_focus
    rcases option_cases (s.im m).input with h | ⟨t, h⟩ <;> simp [h]
  · intro t surface h hs hf
    have e : handle_keyboard_focus s m keyboard =
        (deactivate_text_input s t).set_im m
          { (deactivate_text_input s t).im m with
            pending_focused_surface := (s.kbd keyboard).focus } := by
      unfold handle_keyboard_focus
      have hf' : ¬ (some surface = (s.kbd keyboard).focus) := fun h => hf h.symm
      simp [h, hs, hf']
    have p := deactivate_text_input_after s t
    refine ⟨e, ?_, ?_, ?_, ?_, ?_⟩
    · rw [e]; simpa using p.1
    · rw [e]; simpa using p.2.2.2.1
    · rw [e]; simpa using p.2.2.1
    · intro hm
      rw [e]
      simpa using p.2.1 m hm
    · rw [e]
      simp only [set_im_trace]
      rw [p.2.2.2.2, hs]
  · intro t surface h hs hf
    unfold handle_keyboard_focus
    simp [h, hs, hf]
  · intro h
    unfold handle_keyboard_focus
    simp [h]

/-! ## Rounds of enable, commit, disable, commit -/

theorem text_input_commit_forward_to_text_input (s : State) (t : Ptr) (im : Option Ptr) :
    (text_input_commit_forward s t im).trace.filter Event.to_text_input =
      s.trace.filter Event.to_text_input := by
  rcases option_cases im with h | ⟨m, h⟩
  · subst h; rfl
  · subst h
    rw [text_input_commit_forward_trace]
    rcases option_cases (s.ti t).current.surrounding.text with h | ⟨text, h⟩ <;>
      simp [h, Event.to_text_input]

theorem enable_commit_facts (s : State) (t weston_seat m surface : Ptr)
    (hdis : (s.ti t).current_enabled = false)
    (h1 : (s.ti t).seat = some weston_seat)
    (h2 : (s.seat weston_seat).input_method = some m)
    (h3 : (s.im m).input ≠ some t)
    (h4 : (s.im m).pending_focused_surface = some surface) :
    ((text_input_commit (text_input_enable s t) t).ti t).current_enabled = true ∧
    ((text_input_commit (text_input_enable s t) t).ti t).input_method = some m ∧
    ((text_input_commit (text_input_enable s t) t).ti t).surface = some surface ∧
    ((text_input_commit (text_input_enable s t) t).ti t).seat = some weston_seat ∧
    ((text_input_commit (text_input_enable s t) t).ti t).resource = (s.ti t).resource ∧
    (text_input_commit (text_input_enable s t) t).seat = s.seat ∧
    ((text_input_commit (text_input_enable s t) t).im m).pending_focused_surface =
      some surface ∧
    (text_input_commit (text_input_enable s t) t).trace.filter Event.to_text_input =
      s.trace.filter Event.to_text_input ++
        [Event.zwp_text_input_v3_send_enter (s.ti t).resource surface] := by
  rw [enable_commit_unfold s t weston_seat m surface hdis h1 h2 h3 h4,
    text_input_commit_forward_to_text_input]
  have f := text_input_commit_forward_frame
  simp only [f]
  simp [h1, h4, Event.to_text_input]

theorem disable_commit_facts (s : State) (t m surface : Ptr)
    (hen : (s.ti t).current_enabled = true)
    (hm : (s.ti t).input_method = some m)
    (hs : (s.ti t).surface = some surface) :
    ((text_input_commit (text_input_disable s t) t).ti t).current_enabled = false ∧
    ((text_input_commit (text_input_disable s t) t).ti t).seat = (s.ti t).seat ∧
    ((text_input_commit (text_input_disable s t) t).ti t).resource = (s.ti t).resource ∧
    (text_input_commit (text_input_disable s t) t).seat = s.seat ∧
    ((text_input_commit (text_input_disable s t) t).im m).input = none ∧
    ((text_input_commit (text_input_disable s t) t).im m).pending_focused_surface =
      (s.im m).pending_focused_surface ∧
    (text_input_commit (text_input_disable s t) t).trace.filter Event.to_text_input =
      s.trace.filter Event.to_text_input ++
        [Event.zwp_text_input_v3_send_leave (s.ti t).resource surface] := by
  rw [text_input_commit_unfold, text_input_commit_forward_to_text_input]
  have f := text_input_commit_forward_frame
  simp only [f]
  have e1 : ((text_input_disable s t).ti t).current_enabled = true := by
    simp [text_input_disable, hen]
  have e2 : ((text_input_disable s t).ti t).pending_enabled = false := by
    simp [text_input_disable]
  simp only [e1, e2]
  simp only [and_self, if_true, Bool.true_eq_false, Bool.false_eq_true, and_false, if_false]
  refine ⟨?_, ?_, ?_, ?_, ?_, ?_, ?_⟩
  · simp [deactivate_text_input_ti, text_input_commit_store, text_input_disable]
  · simp [deactivate_text_input_ti, text_input_commit_store, text_input_disable]
  · simp [deactivate_text_input_ti, text_input_commit_store, text_input_disable]
  · rw [(deactivate_text_input_rest _ t).1]; rfl
  · simp [deactivate_text_input_im, text_input_commit_store, text_input_disable, hm]
  · simp [deactivate_text_input_im, text_input_commit_store, text_input_disable, hm]
  · rw [deactivate_text_input_trace]
    simp only [text_input_commit_store, text_input_disable, set_ti_ti, if_true, hs,
      set_ti_trace, set_ti_tim]
    split_ifs <;> simp [Event.to_text_input]

theorem text_input_commit_same_flag (s : State) (t : Ptr)
    (h : (s.ti t).pending_enabled = (s.ti t).current_enabled) :
    text_input_commit s t =
      text_input_commit_forward (text_input_commit_store s t) t (s.ti t).input_method := by
  rw [text_input_commit_unfold]
  congr 1
  rw [h]
  cases (s.ti t).current_enabled <;> simp

/-- Claim C4 (scenario B, generalised). Let `t` be a disabled session on a seat
whose input method `m` does not serve `t` and has recorded the focused surface
`surface`. After `n` rounds of `enable, commit, disable, commit` the events of
the text input protocol in the trace are the previous ones followed by
`enter(surface), leave(surface)` repeated `n` times: `n` enters and `n` leaves,
alternating, starting with `enter`. Moreover a commit that finds
`pending_enabled = current_enabled` runs neither Activation nor Deactivation: it
adds no activate, deactivate, enter, leave, show or hide to the trace and changes
no cross reference, no bound surface and no panel flag. -/
theorem enable_disable_rounds_events (s : State) (t weston_seat m surface : Ptr) (n : Nat)
    (hdis : (s.ti t).current_enabled = false)
    (h1 : (s.ti t).seat = some weston_seat)
    (h2 : (s.seat weston_seat).input_method = some m)
    (h3 : (s.im m).input ≠ some t)
    (h4 : (s.im m).pending_focused_surface = some surface) :
    (enable_disable_rounds s t n).trace.filter Event.to_text_input =
      s.trace.filter Event.to_text_input ++ enter_leave_rounds (s.ti t).resource surface n ∧
    (∀ (s' : State) (t' : Ptr), (s'.ti t').pending_enabled = (s'.ti t').current_enabled →
      (text_input_commit s' t').trace.filter Event.of_activation =
        s'.trace.filter Event.of_activation ∧
      (text_input_commit s' t').im = s'.im ∧
      (text_input_commit s' t').text_input_manager = s'.text_input_manager ∧
      (∀ x, ((text_input_commit s' t').ti x).input_method = (s'.ti x).input_method ∧
        ((text_input_commit s' t').ti x).surface = (s'.ti x).surface ∧
        ((text_input_commit s' t').ti x).input_panel_visible =
          (s'.ti x).input_panel_visible)) := by
  constructor
  · have key : ∀ n,
        ((enable_disable_rounds s t n).ti t).current_enabled = false ∧
        ((enable_disable_rounds s t n).ti t).seat = some weston_seat ∧
        ((enable_disable_rounds s t n).seat weston_seat).input_method = some m ∧
        ((enable_disable_rounds s t n).im m).input ≠ some t ∧
        ((enable_disable_rounds s t n).im m).pending_focused_surface = some surface ∧
        ((enable_disable_rounds s t n).ti t).resource = (s.ti t).resource ∧
        (enable_disable_rounds s t n).trace.filter Event.to_text_input =
          s.trace.filter Event.to_text_input ++
            enter_leave_rounds (s.ti t).resource surface n := by
      intro n
      induction n with
      | zero => simp [enable_disable_rounds, enter_leave_rounds, hdis, h1, h2, h3, h4]
      | succ k ih =>
        obtain ⟨i1, i2, i3, i4, i5, i6, i7⟩ := ih
        obtain ⟨a1, a2, a3, a4, a5, a6, a7, a8⟩ :=
          enable_commit_facts (enable_disable_rounds s t k) t weston_seat m surface
            i1 i2 i3 i4 i5
        obtain ⟨b1, b2, b3, b4, b5, b6, b7⟩ :=
          disable_commit_facts _ t m surface a1 a2 a3
        simp only [enable_disable_rounds, enter_leave_rounds]
        refine ⟨b1, by rw [b2, a4], by rw [b4, a6]; exact i3, by rw [b5]; simp,
          by rw [b6, a7], by rw [b3, a5, i6], ?_⟩
        rw [b7, a8, i7, a5, i6]
        simp
    exact (key n).2.2.2.2.2.2
  · intro s' t' h
    rw [text_input_commit_same_flag s' t' h]
    have f := text_input_commit_forward_frame (text_input_commit_store s' t') t'
      (s'.ti t').input_method
    refine ⟨?_, by rw [f.2.1]; rfl, by rw [f.2.2.2.2.1]; rfl, ?_⟩
    · rcases option_cases (s'.ti t').input_method with hm | ⟨m', hm⟩
      · rw [hm]; rfl
      · rw [hm, text_input_commit_forward_trace]
        rcases option_cases (s'.ti t').pending.surrounding.text with hx | ⟨text, hx⟩ <;>
          simp [hx, Event.of_activation, text_input_commit_store]
    · intro x
      rw [f.1]
      by_cases hx : x = t' <;> simp [text_input_commit_store, hx]

/-! ## Sequences of `set_*` requests -/

theorem text_input_stage_all_snoc (s : State) (t : Ptr) (rs : List text_input_staging)
    (r : text_input_staging) :
    text_input_stage_all s t (rs ++ [r]) = text_input_stage (text_input_stage_all s t rs) t r := by
  simp [text_input_stage_all]

theorem last_values_nil (p : text_input_state) : last_values p [] = p := rfl

theorem text_input_stage_all_sets (s : State) (t : Ptr) (rs : List text_input_staging)
    (hset : ∀ r ∈ rs, r.is_set = true) :
    (text_input_stage_all s t rs).im = s.im ∧
    (text_input_stage_all s t rs).text_input_manager = s.text_input_manager ∧
    (text_input_stage_all s t rs).trace = s.trace ∧
    (text_input_stage_all s t rs).ti t =
      { s.ti t with pending := last_values (s.ti t).pending rs } := by
  induction rs using List.reverseRecOn with
  | nil => simp [text_input_stage_all, last_values_nil]
  | append_singleton rs r ih =>
    have ih' := ih (fun x hx => hset x (by simp [hx]))
    have hr : r.is_set = true := hset r (by simp)
    obtain ⟨i1, i2, i3, i4⟩ := ih'
    rw [text_input_stage_all_snoc]
    have f := text_input_stage_frame (text_input_stage_all s t rs) t r
    refine ⟨by rw [f.1, i1], by rw [f.2.2.2.1, i2], by rw [f.2.2.2.2.2.1, i3], ?_⟩
    cases r <;>
      simp [text_input_stage, text_input_set_surrounding_text,
        text_input_set_text_change_cause, text_input_set_content_type,
        text_input_set_cursor_rectangle, text_input_staging.is_set, i4, last_values,
        last_surrounding_text, last_text_change_cause, last_content_type,
        last_cursor_rectangle, List.findSome?_cons] at hr ⊢

/-- Claim C1 (atomic commit). Let the text input session `t` be attached to the
input method `m`, enabled, and with `pending_enabled` set. Any sequence `rs` of
`set_surrounding_text` / `set_text_change_cause` / `set_content_type` /
`set_cursor_rectangle` requests leaves the trace as it was (nothing is sent).
The following commit appends exactly one batch: `surrounding_text` when a
surrounding text is present, `text_change_cause`, `content_type`, the
`update_input_panel` signal of the compositor, then one `done`; restricted to the
events of the input method protocol the batch is `surrounding_text`,
`text_change_cause`, `content_type`, `done`, all on the resource of `m`. Every
value is that of the last request setting it (`last_values`, where cursor and
anchor are stored as `uint32_t`). -/
theorem text_input_atomic_commit (s : State) (t m : Ptr) (rs : List text_input_staging)
    (hset : ∀ r ∈ rs, r.is_set = true)
    (hm : (s.ti t).input_method = some m)
    (hc : (s.ti t).current_enabled = true)
    (hp : (s.ti t).pending_enabled = true) :
    (text_input_stage_all s t rs).trace = s.trace ∧
    (text_input_commit (text_input_stage_all s t rs) t).trace =
      s.trace ++
        (match (last_values (s.ti t).pending rs).surrounding.text with
          | some text =>
            [Event.zwp_input_method_v2_send_surrounding_text (s.im m).resource text
              (last_values (s.ti t).pending rs).surrounding.cursor
              (last_values (s.ti t).pending rs).surrounding.anchor]
          | none => []) ++
        [Event.zwp_input_method_v2_send_text_change_cause (s.im m).resource
           (last_values (s.ti t).pending rs).text_change_cause,
         Event.zwp_input_method_v2_send_content_type (s.im m).resource
           (last_values (s.ti t).pending rs).content_type.hint
           (last_values (s.ti t).pending rs).content_type.purpose,
         Event.update_input_panel_signal (last_values (s.ti t).pending rs).cursor_rectangle,
         Event.zwp_input_method_v2_send_done (s.im m).resource] ∧
    (text_input_commit (text_input_stage_all s t rs) t).trace.filter Event.to_input_method =
      s.trace.filter Event.to_input_method ++
        (match (last_values (s.ti t).pending rs).surrounding.text with
          | some text =>
            [Event.zwp_input_method_v2_send_surrounding_text (s.im m).resource text
              (last_values (s.ti t).pending rs).surrounding.cursor
              (last_values (s.ti t).pending rs).surrounding.anchor]
          | none => []) ++
        [Event.zwp_input_method_v2_send_text_change_cause (s.im m).resource
           (last_values (s.ti t).pending rs).text_change_cause,
         Event.zwp_input_method_v2_send_content_type (s.im m).resource
           (last_values (s.ti t).pending rs).content_type.hint
           (last_values (s.ti t).pending rs).content_type.purpose,
         Event.zwp_input_method_v2_send_done (s.im m).resource] := by
  obtain ⟨i1, i2, i3, i4⟩ := text_input_stage_all_sets s t rs hset
  have e : (text_input_commit (text_input_stage_all s t rs) t).trace =
      s.trace ++
        (match (last_values (s.ti t).pending rs).surrounding.text with
          | some text =>
            [Event.zwp_input_method_v2_send_surrounding_text (s.im m).resource text
              (last_values (s.ti t).pending rs).surrounding.cursor
              (last_values (s.ti t).pending rs).surrounding.anchor]
          | none => []) ++
        [Event.zwp_input_method_v2_send_text_change_cause (s.im m).resource
           (last_values (s.ti t).pending rs).text_change_cause,
         Event.zwp_input_method_v2_send_content_type (s.im m).resource
           (last_values (s.ti t).pending rs).content_type.hint
           (last_values (s.ti t).pending rs).content_type.purpose,
         Event.update_input_panel_signal (last_values (s.ti t).pending rs).cursor_rectangle,
         Event.zwp_input_method_v2_send_done (s.im m).resource] := by
    rw [text_input_commit_same_flag _ t (by rw [i4]; simp [hc, hp])]
    rw [i4]
    simp only [hm]
    rw [text_input_commit_forward_trace]
    simp [text_input_commit_store, i1, i3, i4]
  refine ⟨i3, e, ?_⟩
  rw [e]
  rcases option_cases (last_values (s.ti t).pending rs).surrounding.text with h | ⟨text, h⟩ <;>
    simp [h, Event.to_input_method]

/-! ## Attached sessions are enabled -/

theorem activate_text_input_ti_other (s : State) (t t' : Ptr) (h : t' ≠ t) :
    (activate_text_input s t).ti t' = s.ti t' := by
  rcases activate_text_input_cases s t with e | ⟨weston_seat, m, surface, h1, h2, h3, h4⟩
  · rw [e]
  · rw [activate_text_input_ok s t weston_seat m surface h1 h2 h3 h4]
    simp [Function.update_apply, h]

theorem text_input_commit_attached_enabled (s : State) (t t' : Ptr)
    (inv : (s.ti t').input_method ≠ none → (s.ti t').current_enabled = true)
    (h : ((text_input_commit s t).ti t').input_method ≠ none) :
    ((text_input_commit s t).ti t').current_enabled = true := by
  rw [text_input_commit_unfold, (text_input_commit_forward_frame _ t _).1] at h ⊢
  by_cases ht : t' = t
  · subst ht
    split_ifs at h ⊢ with c1 c2
    · rw [(activate_text_input_ti_frame _ t' t').2.2.2.2.1]
      simp [text_input_commit_store, c1.2]
    · simp [deactivate_text_input_ti] at h
    · have hi : (s.ti t').input_method ≠ none := by
        simpa [text_input_commit_store] using h
      have hc := inv hi
      have hp : (s.ti t').pending_enabled = true := by
        by_contra hn
        exact c2 ⟨hc, by simpa using hn⟩
      simp [text_input_commit_store, hp]
  · split_ifs at h ⊢
    · rw [activate_text_input_ti_other _ t t' ht] at h ⊢
      simp only [text_input_commit_store, set_ti_ti, ht, if_false] at h ⊢
      exact inv h
    · simp only [deactivate_text_input_ti, text_input_commit_store, set_ti_ti, ht,
        if_false] at h ⊢
      exact inv h
    · simp only [text_input_commit_store, set_ti_ti, ht, if_false] at h ⊢
      exact inv h

/-- Every request keeps the property that a session attached to an input
method is enabled; it holds of zero-initialised memory, so a disabled session
is never attached. -/
theorem step_attached_enabled (s : State) (r : Request)
    (inv : ∀ t, (s.ti t).input_method ≠ none → (s.ti t).current_enabled = true) :
    ∀ t, ((step s r).ti t).input_method ≠ none → ((step s r).ti t).current_enabled = true := by
  intro t h
  cases r with
  | text_input_stage t' r =>
    simp only [step] at h ⊢
    by_cases ht : t = t'
    · subst ht
      rw [(text_input_stage_frame s t r).2.2.2.2.2.2.2.1] at h ⊢
      exact inv t h
    · rw [(text_input_stage_frame s t' r).2.2.2.2.2.2.1 t ht] at h ⊢
      exact inv t h
  | text_input_commit t' => exact text_input_commit_attached_enabled s t' t (inv t) h
  | input_method_stage m r =>
    simp only [step] at h ⊢
    rw [(input_method_stage_frame s m r).1] at h ⊢
    exact inv t h
  | input_method_commit m serial =>
    simp only [step] at h ⊢
    rw [(input_method_commit_frame s m serial).1] at h ⊢
    exact inv t h
  | keyboard_focus m keyboard =>
    simp only [step, handle_keyboard_focus] at h ⊢
    rcases option_cases (s.im m).input with hi | ⟨t', hi⟩
    · simp only [hi, set_im_ti] at h ⊢
      exact inv t h
    · simp only [hi, set_im_ti] at h ⊢
      split_ifs at h ⊢
      · by_cases ht : t = t'
        · simp [deactivate_text_input_ti, ht] at h
        · simp only [deactivate_text_input_ti, ht, if_false] at h ⊢
          exact inv t h
      · exact inv t h

/-! ## The claims on the concrete states -/

theorem text_input_atomic_commit_witness :
    (∀ r ∈ scenario_requests, r.is_set = true) ∧
    (scenario_active.ti 3).input_method = some 1 ∧
    (scenario_active.ti 3).current_enabled = true ∧
    (scenario_active.ti 3).pending_enabled = true ∧
    (text_input_commit (text_input_stage_all scenario_active 3 scenario_requests) 3).trace.filter
        Event.to_input_method =
      [Event.zwp_input_method_v2_send_activate (some 20),
       Event.zwp_input_method_v2_send_surrounding_text (some 20) "ab" 2 2,
       Event.zwp_input_method_v2_send_text_change_cause (some 20) 0,
       Event.zwp_input_method_v2_send_content_type (some 20) 1 2,
       Event.zwp_input_method_v2_send_done (some 20)] :=
  ⟨by decide, by decide, by decide, by decide,
    (text_input_atomic_commit scenario_active 3 1 scenario_requests
      (by decide) (by decide) (by decide) (by decide)).2.2.trans (by decide)⟩

theorem staging_is_invisible_witness :
    Request.keyboard_focus 1 1 ≠ Request.text_input_commit 3 ∧
    ((step scenario_active (Request.keyboard_focus 1 1)).ti 3).current =
      (scenario_active.ti 3).current :=
  ⟨by decide,
    (staging_is_invisible scenario_active).2.2.1 (Request.keyboard_focus 1 1) 3 (by decide)⟩

theorem enable_disable_rounds_events_witness :
    (scenario_idle.ti 3).current_enabled = false ∧
    (scenario_idle.ti 3).seat = some 0 ∧
    (scenario_idle.seat 0).input_method = some 1 ∧
    (scenario_idle.im 1).input ≠ some 3 ∧
    (scenario_idle.im 1).pending_focused_surface = some 7 ∧
    (enable_disable_rounds scenario_idle 3 2).trace.filter Event.to_text_input =
      [Event.zwp_text_input_v3_send_enter (some 10) 7,
       Event.zwp_text_input_v3_send_leave (some 10) 7,
       Event.zwp_text_input_v3_send_enter (some 10) 7,
       Event.zwp_text_input_v3_send_leave (some 10) 7] :=
  ⟨by decide, by decide, by decide, by decide, by decide,
    (enable_disable_rounds_events scenario_idle 3 0 1 7 2
      (by decide) (by decide) (by decide) (by decide) (by decide)).1.trans (by decide)⟩

theorem enable_commit_activates_witness :
    (scenario_idle.ti 3).current_enabled = false ∧
    (scenario_idle.ti 3).input_method = none ∧
    (scenario_idle.ti 3).seat = some 0 ∧
    (scenario_idle.seat 0).input_method = some 1 ∧
    (scenario_idle.im 1).input ≠ some 3 ∧
    (scenario_idle.im 1).pending_focused_surface = some 7 ∧
    (text_input_commit (text_input_enable scenario_idle 3) 3).trace =
      [Event.zwp_input_method_v2_send_activate (some 20),
       Event.show_input_panel_signal (some 7),
       Event.update_input_panel_signal { x1 := 0, y1 := 0, x2 := 0, y2 := 0 },
       Event.zwp_text_input_v3_send_enter (some 10) 7] :=
  ⟨by decide, by decide, by decide, by decide, by decide, by decide,
    (enable_commit_activates scenario_idle 3 0 1 7
      (by decide) (by decide) (by decide) (by decide) (by decide)
      (by decide)).2.2.2.2.2.trans (by decide)⟩

theorem handle_keyboard_focus_effect_witness :
    (scenario_active.im 1).input = some 3 ∧
    (scenario_active.ti 3).surface = some 7 ∧
    (scenario_active.kbd 1).focus ≠ some 7 ∧
    (handle_keyboard_focus scenario_active 1 1).trace =
      scenario_active.trace ++
        [Event.hide_input_panel_signal, Event.zwp_text_input_v3_send_leave (some 10) 7] :=
  ⟨by decide, by decide, by decide,
    ((handle_keyboard_focus_effect scenario_active 1 1).2.1 3 7
      (by decide) (by decide) (by decide)).2.2.2.2.2.trans (by decide)⟩

theorem deactivate_text_input_postcondition_witness :
    (scenario_active.ti 3).input_method = some 1 ∧
    ((deactivate_text_input scenario_active 3).im 1).input = none :=
  ⟨by decide, (deactivate_text_input_postcondition scenario_active 3).2.1 1 (by decide)⟩

theorem input_method_commit_relays_witness :
    (scenario_staged.im 1).input = some 3 ∧
    (input_method_commit scenario_staged 1 7).trace =
      scenario_staged.trace ++
        [Event.zwp_text_input_v3_send_preedit_string (some 10) "héllo" 0 5,
         Event.zwp_text_input_v3_send_commit_string (some 10) "done",
         Event.zwp_text_input_v3_send_done (some 10) 1] :=
  ⟨by decide,
    (input_method_commit_relays scenario_staged 1 3 7 (by decide)).2.2.1.trans (by decide)⟩

theorem input_method_commit_without_text_input_witness :
    ((input_method_commit_string scenario_idle 1 "done").im 1).input = none ∧
    input_method_commit (input_method_commit_string scenario_idle 1 "done") 1 7 =
      input_method_commit_string scenario_idle 1 "done" :=
  ⟨by decide,
    input_method_commit_without_text_input
      (input_method_commit_string scenario_idle 1 "done") 1 7 (by decide)⟩

/-! ## Process supervisor: the respawn policy -/

theorem timespec_sub_to_msec_eq (a b : timespec) :
    timespec_sub_to_msec a b = (timespec_to_nsec a - timespec_to_nsec b).tdiv 1000000 := by
  unfold timespec_sub_to_msec timespec_to_nsec
  congr 1
  ring

theorem timespec_sub_to_msec_le (a b : timespec)
    (h0 : timespec_to_nsec b ≤ timespec_to_nsec a)
    (h : timespec_to_nsec a - timespec_to_nsec b ≤ 8000000000) :
    ¬ (timespec_sub_to_msec a b > 10000) := by
  rw [timespec_sub_to_msec_eq, Int.tdiv_eq_ediv (by omega) (by norm_num)]
  omega

theorem timespec_sub_to_msec_origin (a : timespec)
    (h : 10001000000 ≤ timespec_to_nsec a) :
    timespec_sub_to_msec a { tv_sec := 0, tv_nsec := 0 } > 10000 := by
  have hz : timespec_to_nsec { tv_sec := 0, tv_nsec := 0 } = 0 := rfl
  rw [timespec_sub_to_msec_eq, hz, Int.tdiv_eq_ediv (by omega) (by norm_num)]
  omega

/-- Scenario D away from the origin of the clock. A freshly started supervisor
(`text_backend_init` with a non-empty helper path, so `deathcount = 0` and
`deathstamp = 0`) sees the helper exit six times, at `t1` and then five times
within eight seconds after `t1`, each launch having succeeded. If the clock of
`weston_compositor_get_time` reads more than 10.001 s at the first exit, each
of the first five exits requests a launch of the helper and the sixth requests
none. -/
theorem respawn_gives_up_at_sixth_exit (path : String) (c : Ptr)
    (t1 t2 t3 t4 t5 t6 : timespec)
    (hpath : path ≠ "")
    (hclock : 10001000000 ≤ timespec_to_nsec t1)
    (h2 : timespec_to_nsec t1 ≤ timespec_to_nsec t2 ∧
      timespec_to_nsec t2 - timespec_to_nsec t1 ≤ 8000000000)
    (h3 : timespec_to_nsec t1 ≤ timespec_to_nsec t3 ∧
      timespec_to_nsec t3 - timespec_to_nsec t1 ≤ 8000000000)
    (h4 : timespec_to_nsec t1 ≤ timespec_to_nsec t4 ∧
      timespec_to_nsec t4 - timespec_to_nsec t1 ≤ 8000000000)
    (h5 : timespec_to_nsec t1 ≤ timespec_to_nsec t5 ∧
      timespec_to_nsec t5 - timespec_to_nsec t1 ≤ 8000000000)
    (h6 : timespec_to_nsec t1 ≤ timespec_to_nsec t6 ∧
      timespec_to_nsec t6 - timespec_to_nsec t1 ≤ 8000000000) :
    respawn_decisions (text_backend_init (some path) (some c)) c [t1, t2, t3, t4, t5, t6] =
      [true, true, true, true, true, false] := by
  have e1 := timespec_sub_to_msec_origin t1 hclock
  have e2 := timespec_sub_to_msec_le t2 t1 h2.1 h2.2
  have e3 := timespec_sub_to_msec_le t3 t1 h3.1 h3.2
  have e4 := timespec_sub_to_msec_le t4 t1 h4.1 h4.2
  have e5 := timespec_sub_to_msec_le t5 t1 h5.1 h5.2
  have e6 := timespec_sub_to_msec_le t6 t1 h6.1 h6.2
  simp [respawn_decisions, exit_relaunches, input_method_client_notifier,
    respawn_input_method_process, launch_input_method, launches, text_backend_init,
    hpath, e1, e2, e3, e4, e5, e6, List.countP_append]


/-! ## Keyboard and seat memory -/

@[simp] theorem set_kbd_kbd (s : State) (k : Ptr) (v : weston_keyboard) (k' : Ptr) :
    (s.set_kbd k v).kbd k' = if k' = k then v else s.kbd k' := by
  simp [State.set_kbd, Function.update_apply]

@[simp] theorem set_kbd_ti (s : State) (k : Ptr) (v : weston_keyboard) :
    (s.set_kbd k v).ti = s.ti := rfl

@[simp] theorem set_kbd_im (s : State) (k : Ptr) (v : weston_keyboard) :
    (s.set_kbd k v).im = s.im := rfl

@[simp] theorem set_kbd_seat (s : State) (k : Ptr) (v : weston_keyboard) :
    (s.set_kbd k v).seat = s.seat := rfl

@[simp] theorem set_kbd_tim (s : State) (k : Ptr) (v : weston_keyboard) :
    (s.set_kbd k v).text_input_manager = s.text_input_manager := rfl

@[simp] theorem set_kbd_imm (s : State) (k : Ptr) (v : weston_keyboard) :
    (s.set_kbd k v).input_method_manager = s.input_method_manager := rfl

@[simp] theorem set_kbd_trace (s : State) (k : Ptr) (v : weston_keyboard) :
    (s.set_kbd k v).trace = s.trace := rfl

@[simp] theorem set_seat_seat (s : State) (p : Ptr) (v : weston_seat) (p' : Ptr) :
    (s.set_seat p v).seat p' = if p' = p then v else s.seat p' := by
  simp [State.set_seat, Function.update_apply]

@[simp] theorem set_seat_ti (s : State) (p : Ptr) (v : weston_seat) :
    (s.set_seat p v).ti = s.ti := rfl

@[simp] theorem set_seat_im (s : State) (p : Ptr) (v : weston_seat) :
    (s.set_seat p v).im = s.im := rfl

@[simp] theorem set_seat_kbd (s : State) (p : Ptr) (v : weston_seat) :
    (s.set_seat p v).kbd = s.kbd := rfl

@[simp] theorem set_seat_tim (s : State) (p : Ptr) (v : weston_seat) :
    (s.set_seat p v).text_input_manager = s.text_input_manager := rfl

@[simp] theorem set_seat_imm (s : State) (p : Ptr) (v : weston_seat) :
    (s.set_seat p v).input_method_manager = s.input_method_manager := rfl

@[simp] theorem set_seat_trace (s : State) (p : Ptr) (v : weston_seat) :
    (s.set_seat p v).trace = s.trace := rfl

/-! ## Keyboard grab -/

theorem input_method_grab_keyboard_facts (s : State) (m weston_seat k id : Ptr)
    (hseat : (s.im m).seat = some weston_seat)
    (hkbd : (s.seat weston_seat).keyboard = some k) :
    ((input_method_grab_keyboard s m id).kbd k).grab = keyboard_grab.input_method_grab ∧
    ((input_method_grab_keyboard s m id).kbd k).input_method_grab_keyboard = some k ∧
    ((input_method_grab_keyboard s m id).kbd k).input_method_resource = some id ∧
    ((input_method_grab_keyboard s m id).im m).keyboard = some id ∧
    ((input_method_grab_keyboard s m id).im m).seat = some weston_seat ∧
    ((input_method_grab_keyboard s m id).im m).input = (s.im m).input ∧
    ((input_method_grab_keyboard s m id).im m).resource = (s.im m).resource ∧
    (input_method_grab_keyboard s m id).seat = s.seat := by
  unfold input_method_grab_keyboard
  simp only [weston_seat_get_keyboard, hseat, hkbd]
  by_cases hg : (s.kbd k).grab = keyboard_grab.default_grab <;>
    simp [hg, weston_keyboard_start_grab, weston_keyboard_end_grab, hseat]

theorem input_method_end_keyboard_grab_frame (s : State) (m : Ptr) :
    (input_method_end_keyboard_grab s m).ti = s.ti ∧
    (input_method_end_keyboard_grab s m).im = s.im ∧
    (input_method_end_keyboard_grab s m).seat = s.seat ∧
    (input_method_end_keyboard_grab s m).text_input_manager = s.text_input_manager ∧
    (input_method_end_keyboard_grab s m).input_method_manager = s.input_method_manager ∧
    (input_method_end_keyboard_grab s m).trace = s.trace := by
  unfold input_method_end_keyboard_grab
  rcases option_cases (weston_seat_get_keyboard s (s.im m).seat) with h | ⟨k0, h⟩
  · simp [h]
  · rcases option_cases (s.kbd k0).input_method_grab_keyboard with h1 | ⟨k, h1⟩
    · simp [h, h1]
    · simp only [h, h1]
      split_ifs <;> simp [weston_keyboard_end_grab]

/-- After the grab of the seat's keyboard was ended for `m`, the keyboard routes
through its default grab and holds no input-method channel, provided the
input-method grab was the installed one or the default one already. -/
theorem input_method_end_keyboard_grab_kbd (s : State) (m weston_seat k : Ptr)
    (hseat : (s.im m).seat = some weston_seat)
    (hkbd : (s.seat weston_seat).keyboard = some k)
    (hback : (s.kbd k).input_method_grab_keyboard = some k)
    (hgrab : (s.kbd k).grab = keyboard_grab.input_method_grab ∨
      (s.kbd k).grab = keyboard_grab.default_grab) :
    ((input_method_end_keyboard_grab s m).kbd k).grab = keyboard_grab.default_grab ∧
    ((input_method_end_keyboard_grab s m).kbd k).input_method_resource = none ∧
    ((input_method_end_keyboard_grab s m).kbd k).input_method_grab_keyboard = some k := by
  unfold input_method_end_keyboard_grab
  simp only [weston_seat_get_keyboard, hseat, hkbd, hback]
  rcases hgrab with hg | hg <;> simp [hg, weston_keyboard_end_grab, hback]

theorem unbind_keyboard_kbd (s : State) (m weston_seat k : Ptr)
    (hseat : (s.im m).seat = some weston_seat)
    (hkbd : (s.seat weston_seat).keyboard = some k)
    (hback : (s.kbd k).input_method_grab_keyboard = some k)
    (hgrab : (s.kbd k).grab = keyboard_grab.input_method_grab ∨
      (s.kbd k).grab = keyboard_grab.default_grab) :
    ((unbind_keyboard s m).kbd k).grab = keyboard_grab.default_grab ∧
    ((unbind_keyboard s m).kbd k).input_method_resource = none ∧
    ((unbind_keyboard s m).kbd k).input_method_grab_keyboard = some k ∧
    ((unbind_keyboard s m).im m).seat = some weston_seat ∧
    ((unbind_keyboard s m).im m).input = (s.im m).input ∧
    ((unbind_keyboard s m).im m).resource = (s.im m).resource ∧
    (unbind_keyboard s m).seat = s.seat := by
  have f := input_method_end_keyboard_grab_frame s m
  have g := input_method_end_keyboard_grab_kbd s m weston_seat k hseat hkbd hback hgrab
  unfold unbind_keyboard
  simp [f, g, hseat]

theorem deactivate_input_method_kbd (s : State) (m weston_seat k : Ptr)
    (hseat : (s.im m).seat = some weston_seat)
    (hkbd : (s.seat weston_seat).keyboard = some k)
    (hback : (s.kbd k).input_method_grab_keyboard = some k)
    (hgrab : (s.kbd k).grab = keyboard_grab.default_grab)
    (hres : (s.kbd k).input_method_resource = none) :
    ((deactivate_input_method s m).kbd k).grab = keyboard_grab.default_grab ∧
    ((deactivate_input_method s m).kbd k).input_method_resource = none := by
  have f := input_method_end_keyboard_grab_frame s m
  have g := input_method_end_keyboard_grab_kbd s m weston_seat k hseat hkbd hback (Or.inr hgrab)
  unfold deactivate_input_method
  rcases option_cases (s.im m).resource with h | ⟨r, h⟩
  · simp only [h]
    rcases option_cases (s.im m).input with h1 | ⟨t, h1⟩ <;> simp [h1, hgrab, hres]
  · simp only [h, emit_im, f]
    rcases option_cases (s.im m).input with h1 | ⟨t, h1⟩ <;> simp [h1, g]

theorem default_grab_forwards_nothing (s : State) (k : Ptr)
    (hgrab : (s.kbd k).grab = keyboard_grab.default_grab)
    (hres : (s.kbd k).input_method_resource = none) :
    (∀ serial msecs key state_w, notify_key s k serial msecs key state_w = s) ∧
    (∀ serial d l lo g, notify_modifiers s k serial d l lo g = s) ∧
    (∀ serial msecs key state_w,
      input_method_context_grab_key s k serial msecs key state_w = s) ∧
    (∀ serial d l lo g, input_method_context_grab_modifier s k serial d l lo g = s) := by
  refine ⟨?_, ?_, ?_, ?_⟩ <;> intros <;>
    simp [notify_key, notify_modifiers, input_method_context_grab_key,
      input_method_context_grab_modifier, hgrab, hres]

/-- Claim C15 (grab restoration, P5). Let `m` be an input method session of a
seat whose keyboard is `k`. After `grab_keyboard` on `m` followed by the
destruction of `m`, the installed grab of `k` is the default grab and `k` holds
no input-method keyboard channel, so a key or modifier event delivered
afterwards leaves the state as it is: nothing is forwarded. The same holds when
only the keyboard channel returned by `grab_keyboard` is released
(`unbind_keyboard`). -/
theorem grab_restored (s : State) (m weston_seat k id : Ptr)
    (hseat : (s.im m).seat = some weston_seat)
    (hkbd : (s.seat weston_seat).keyboard = some k) :
    (((destroy_input_method (input_method_grab_keyboard s m id) m).kbd k).grab =
        keyboard_grab.default_grab ∧
      ((destroy_input_method (input_method_grab_keyboard s m id) m).kbd k).input_method_resource =
        none ∧
      (∀ serial msecs key state_w,
        notify_key (destroy_input_method (input_method_grab_keyboard s m id) m) k
          serial msecs key state_w =
        destroy_input_method (input_method_grab_keyboard s m id) m) ∧
      (∀ serial d l lo g,
        notify_modifiers (destroy_input_method (input_method_grab_keyboard s m id) m) k
          serial d l lo g =
        destroy_input_method (input_method_grab_keyboard s m id) m)) ∧
    (((unbind_keyboard (input_method_grab_keyboard s m id) m).kbd k).grab =
        keyboard_grab.default_grab ∧
      ((unbind_keyboard (input_method_grab_keyboard s m id) m).kbd k).input_method_resource =
        none ∧
      (∀ serial msecs key state_w,
        notify_key (unbind_keyboard (input_method_grab_keyboard s m id) m) k
          serial msecs key state_w =
        unbind_keyboard (input_method_grab_keyboard s m id) m) ∧
      (∀ serial d l lo g,
        notify_modifiers (unbind_keyboard (input_method_grab_keyboard s m id) m) k
          serial d l lo g =
        unbind_keyboard (input_method_grab_keyboard s m id) m)) := by
  obtain ⟨g1, g2, g3, g4, g5, g6, g7, g8⟩ :=
    input_method_grab_keyboard_facts s m weston_seat k id hseat hkbd
  obtain ⟨u1, u2, u3, u4, u5, u6, u7⟩ :=
    unbind_keyboard_kbd (input_method_grab_keyboard s m id) m weston_seat k g5
      (by rw [g8]; exact hkbd) g2 (Or.inl g1)
  have hU := default_grab_forwards_nothing _ k u1 u2
  have hD : ((destroy_input_method (input_method_grab_keyboard s m id) m).kbd k).grab =
        keyboard_grab.default_grab ∧
      ((destroy_input_method (input_method_grab_keyboard s m id) m).kbd k).input_method_resource =
        none := by
    unfold destroy_input_method
    simp only [g4]
    rcases option_cases ((unbind_keyboard (input_method_grab_keyboard s m id) m).im m).input
      with h | ⟨t, h⟩
    · simp only [h]
      exact ⟨u1, u2⟩
    · simp only [h]
      exact deactivate_input_method_kbd _ m weston_seat k u4
        (by rw [u7, g8]; exact hkbd) u3 u1 u2
  have hD' := default_grab_forwards_nothing _ k hD.1 hD.2
  exact ⟨⟨hD.1, hD.2, hD'.1, hD'.2.1⟩, ⟨u1, u2, hU.1, hU.2.1⟩⟩


/-! ## Creation of input method sessions -/

theorem input_method_manager_get_input_method_facts (s : State) (p id weston_seat : Ptr) :
    ((input_method_manager_get_input_method s p id weston_seat).seat weston_seat).input_method =
      some p ∧
    (input_method_manager_get_input_method s p id weston_seat).input_method_manager.input_methods =
      p :: s.input_method_manager.input_methods ∧
    ((input_method_manager_get_input_method s p id weston_seat).im p).seat = some weston_seat ∧
    (∀ m, m ≠ p → (input_method_manager_get_input_method s p id weston_seat).im m = s.im m) := by
  unfold input_method_manager_get_input_method input_method_init_seat
  simp +contextual [input_method_zero]

/-- Claim C11, as amended. `get_input_method` creates and registers a session
unconditionally: afterwards the seat points to the new session `p` (a seat
designates one session, the one created last), the registry is the old one
with `p` in front, `p` refers to the seat, every other session is untouched,
and the number of registry sessions that refer to the seat has grown by one. -/
theorem get_input_method_registers (s : State) (p id weston_seat : Ptr)
    (hfresh : p ∉ s.input_method_manager.input_methods) :
    ((input_method_manager_get_input_method s p id weston_seat).seat weston_seat).input_method =
      some p ∧
    (input_method_manager_get_input_method s p id weston_seat).input_method_manager.input_methods =
      p :: s.input_method_manager.input_methods ∧
    ((input_method_manager_get_input_method s p id weston_seat).im p).seat = some weston_seat ∧
    (∀ m, m ≠ p → (input_method_manager_get_input_method s p id weston_seat).im m = s.im m) ∧
    (input_methods_of_seat (input_method_manager_get_input_method s p id weston_seat)
        weston_seat).length =
      (input_methods_of_seat s weston_seat).length + 1 := by
  obtain ⟨f1, f2, f3, f4⟩ := input_method_manager_get_input_method_facts s p id weston_seat
  refine ⟨f1, f2, f3, f4, ?_⟩
  unfold input_methods_of_seat
  rw [f2, List.filter_cons]
  simp only [f3, decide_True, if_true, List.length_cons]
  congr 1
  congr 1
  apply List.filter_congr
  intro m hm
  have hne : m ≠ p := fun h => hfresh (h ▸ hm)
  rw [f4 m hne]

/-- Claim C11, counterexample. After `get_input_method` was requested twice for
seat `0`, starting from empty memory, more than one session of the registry
refers to seat `0`. -/
theorem two_input_methods_on_one_seat :
    ¬ ((input_methods_of_seat scenario_two_input_methods 0).length ≤ 1) := by
  decide

/-! ## Commit and the input panel -/

theorem text_input_commit_current (s : State) (t : Ptr) :
    ((text_input_commit s t).ti t).current = (s.ti t).pending := by
  rw [text_input_commit_unfold, (text_input_commit_forward_frame _ t _).1]
  split_ifs
  · rw [(activate_text_input_ti_frame (text_input_commit_store s t) t t).2.2.2.2.2.2]
    simp [text_input_commit_store]
  · simp [deactivate_text_input_ti, text_input_commit_store]
  · simp [text_input_commit_store]

/-- The state in which `text_input_commit` starts to forward: its trace extends
the old one, the session holds the committed values, and every input method
keeps its resource. -/
theorem text_input_commit_step (s : State) (t : Ptr) :
    (∃ pre,
      (if (s.ti t).current_enabled = false ∧ (s.ti t).pending_enabled = true then
          activate_text_input (text_input_commit_store s t) t
        else if (s.ti t).current_enabled = true ∧ (s.ti t).pending_enabled = false then
          deactivate_text_input (text_input_commit_store s t) t
        else text_input_commit_store s t).trace = s.trace ++ pre) ∧
    ((if (s.ti t).current_enabled = false ∧ (s.ti t).pending_enabled = true then
          activate_text_input (text_input_commit_store s t) t
        else if (s.ti t).current_enabled = true ∧ (s.ti t).pending_enabled = false then
          deactivate_text_input (text_input_commit_store s t) t
        else text_input_commit_store s t).ti t).current = (s.ti t).pending ∧
    (∀ m,
      ((if (s.ti t).current_enabled = false ∧ (s.ti t).pending_enabled = true then
          activate_text_input (text_input_commit_store s t) t
        else if (s.ti t).current_enabled = true ∧ (s.ti t).pending_enabled = false then
          deactivate_text_input (text_input_commit_store s t) t
        else text_input_commit_store s t).im m).resource = (s.im m).resource) := by
  split_ifs with h1 h2
  · refine ⟨?_, ?_, ?_⟩
    · rcases activate_text_input_cases (text_input_commit_store s t) t with
        h | ⟨weston_seat, m, surface, a1, a2, a3, a4⟩
      · exact ⟨[], by rw [h]; simp [text_input_commit_store]⟩
      · rw [activate_text_input_ok _ t weston_seat m surface a1 a2 a3 a4]
        exact ⟨_, rfl⟩
    · rw [(activate_text_input_ti_frame (text_input_commit_store s t) t t).2.2.2.2.2.2]
      simp [text_input_commit_store]
    · intro m
      rw [(activate_text_input_im_frame (text_input_commit_store s t) t m).1]
      simp [text_input_commit_store]
  · refine ⟨?_, ?_, ?_⟩
    · rw [deactivate_text_input_trace]
      rw [List.append_assoc]
      exact ⟨_, rfl⟩
    · simp [deactivate_text_input_ti, text_input_commit_store]
    · intro m
      rw [deactivate_text_input_im]
      split_ifs <;> simp [text_input_commit_store]
  · exact ⟨⟨[], by simp [text_input_commit_store]⟩, by simp [text_input_commit_store],
      fun m => by simp [text_input_commit_store]⟩

/-- Claim C17, as amended. Every commit makes the staged cursor rectangle the
current one. A commit on a session that is attached to an input method `m` when
the commit arrives emits the `update_input_panel` signal with that rectangle,
right before the `done` sent to `m`, whether or not the commit changes the
enabled flag. A commit that activates an unattached session emits exactly
`activate`, the show signal, the `update_input_panel` signal with that
rectangle and `enter`. Every other commit on an unattached session (the flag
does not go from disabled to enabled, or the seat has no input method, or the
input method of the seat serves the session already or has no focus recorded)
emits no `update_input_panel` signal. -/
theorem commit_updates_input_panel (s : State) (t : Ptr) :
    ((text_input_commit s t).ti t).current.cursor_rectangle =
      (s.ti t).pending.cursor_rectangle ∧
    (∀ m, (s.ti t).input_method = some m →
      ∃ batch, (text_input_commit s t).trace =
        s.trace ++ batch ++
          [Event.update_input_panel_signal (s.ti t).pending.cursor_rectangle,
           Event.zwp_input_method_v2_send_done (s.im m).resource]) ∧
    (∀ weston_seat m surface, (s.ti t).input_method = none →
      (s.ti t).current_enabled = false → (s.ti t).pending_enabled = true →
      (s.ti t).seat = some weston_seat → (s.seat weston_seat).input_method = some m →
      (s.im m).input ≠ some t → (s.im m).pending_focused_surface = some surface →
      (text_input_commit s t).trace =
        s.trace ++
          [Event.zwp_input_method_v2_send_activate (s.im m).resource,
           Event.show_input_panel_signal (some surface),
           Event.update_input_panel_signal (s.ti t).pending.cursor_rectangle,
           Event.zwp_text_input_v3_send_enter (s.ti t).resource surface]) ∧
    ((s.ti t).input_method = none →
      ((s.ti t).current_enabled = true ∨ (s.ti t).pending_enabled = false ∨
        ∀ weston_seat m, (s.ti t).seat = some weston_seat →
          (s.seat weston_seat).input_method = some m →
          (s.im m).input = some t ∨ (s.im m).pending_focused_surface = none) →
      (text_input_commit s t).trace.filter Event.is_update_input_panel =
        s.trace.filter Event.is_update_input_panel) := by
  refine ⟨by rw [text_input_commit_current], ?_, ?_, ?_⟩
  · intro m hm
    obtain ⟨⟨pre, hpre⟩, hcur, hres⟩ := text_input_commit_step s t
    rw [text_input_commit_unfold, hm, text_input_commit_forward_trace, hpre, hcur, hres m]
    refine ⟨pre ++ ((match (s.ti t).pending.surrounding.text with
          | some text =>
            [Event.zwp_input_method_v2_send_surrounding_text (s.im m).resource text
              (s.ti t).pending.surrounding.cursor (s.ti t).pending.surrounding.anchor]
          | none => []) ++
        [Event.zwp_input_method_v2_send_text_change_cause (s.im m).resource
           (s.ti t).pending.text_change_cause,
         Event.zwp_input_method_v2_send_content_type (s.im m).resource
           (s.ti t).pending.content_type.hint (s.ti t).pending.content_type.purpose]), ?_⟩
    simp
  · intro weston_seat m surface hm hcur hpend hseat him hin hfocus
    rw [text_input_commit_unfold, hm, text_input_commit_forward_none]
    simp only [hcur, hpend, and_self, if_true]
    rw [activate_text_input_ok (text_input_commit_store s t) t weston_seat m surface
      (by simpa [text_input_commit_store] using hseat)
      (by simpa [text_input_commit_store] using him)
      (by simpa [text_input_commit_store] using hin)
      (by simpa [text_input_commit_store] using hfocus)]
    simp [text_input_commit_store]
  · intro hm hno
    rw [text_input_commit_unfold, hm, text_input_commit_forward_none]
    split_ifs with h1 h2
    · have hact : activate_text_input (text_input_commit_store s t) t =
          text_input_commit_store s t := by
        rcases activate_text_input_cases (text_input_commit_store s t) t with
          h | ⟨weston_seat, m, surface, a1, a2, a3, a4⟩
        · exact h
        · exfalso
          rcases hno with h | h | h
          · rw [h1.1] at h; exact Bool.noConfusion h
          · rw [h1.2] at h; exact Bool.noConfusion h
          · have a1' : (s.ti t).seat = some weston_seat := by
              simpa [text_input_commit_store] using a1
            have a2' : (s.seat weston_seat).input_method = some m := by
              simpa [text_input_commit_store] using a2
            have a3' : (s.im m).input ≠ some t := by
              simpa [text_input_commit_store] using a3
            have a4' : (s.im m).pending_focused_surface = some surface := by
              simpa [text_input_commit_store] using a4
            rcases h weston_seat m a1' a2' with q | q
            · exact a3' q
            · rw [q] at a4'; exact Option.noConfusion a4'
      rw [hact]; rfl
    · rw [deactivate_text_input_trace]
      rcases option_cases (s.ti t).surface with h | ⟨x, h⟩ <;>
        simp [hm, h, Event.is_update_input_panel, text_input_commit_store]
    · rfl


/-! ## Enable discards what was staged -/

/-- Claim C18. For every state, `text_input_enable` sets `pending` to the default
record (no surrounding text, cursor and anchor `0`, change cause `0`, hint and
purpose `0`, zero cursor rectangle) and `pending_enabled` to true. Hence after
any sequence of staging requests followed by `enable` and `commit`, `current`
is the default record. -/
theorem text_input_enable_resets_pending (s : State) (t : Ptr) :
    ((text_input_enable s t).ti t).pending =
      { surrounding := { text := none, cursor := 0, anchor := 0 },
        text_change_cause := 0,
        content_type := { hint := 0, purpose := 0 },
        cursor_rectangle := { x1 := 0, y1 := 0, x2 := 0, y2 := 0 } } ∧
    ((text_input_enable s t).ti t).pending_enabled = true ∧
    (∀ rs : List text_input_staging,
      ((text_input_commit (text_input_enable (text_input_stage_all s t rs) t) t).ti t).current =
        { surrounding := { text := none, cursor := 0, anchor := 0 },
          text_change_cause := 0,
          content_type := { hint := 0, purpose := 0 },
          cursor_rectangle := { x1 := 0, y1 := 0, x2 := 0, y2 := 0 } }) := by
  refine ⟨?_, ?_, ?_⟩
  · simp [text_input_enable, text_input_state_zero]
  · simp [text_input_enable]
  · intro rs
    rw [text_input_commit_current]
    simp [text_input_enable, text_input_state_zero]

/-! ## Defects shown on the concrete states -/

/-- Claim C12, evaluation of the code where it breaks the claim. Session `3` is
active on input method `1`; session `4` of the same seat does `enable` and
`commit`. Then `3` and `4` both refer to `1` while `1` serves `4` only. After
`3` does `disable` and `commit`, `1` serves nobody while `4` still refers
to `1`. -/
theorem second_activation_leaves_stale_reference :
    (scenario_two_sessions.ti 3).input_method = some 1 ∧
    (scenario_two_sessions.ti 4).input_method = some 1 ∧
    (scenario_two_sessions.im 1).input = some 4 ∧
    (scenario_first_disabled.ti 4).input_method = some 1 ∧
    (scenario_first_disabled.im 1).input = none := by
  decide

/-- Claim C13, evaluation of the code where it breaks the claim. After the input
method session serving session `3` was destroyed, `3` is still the current
session of the manager although it refers to no input method and the registry
of input methods is empty. Likewise in `scenario_first_disabled` session `4` is
the current session while input method `1` serves nobody. -/
theorem current_session_survives_input_method :
    scenario_input_method_destroyed.text_input_manager.current_text_input = some 3 ∧
    (scenario_input_method_destroyed.ti 3).input_method = none ∧
    scenario_input_method_destroyed.input_method_manager.input_methods = [] ∧
    scenario_first_disabled.text_input_manager.current_text_input = some 4 ∧
    (scenario_first_disabled.im 1).input = none := by
  decide

/-- Claim C14, evaluation of the code where it breaks the claim. Input method `1`
serves session `3`, bound to surface `7`. After `destroy_input_method` session
`3` refers to no input method, but it is still bound to surface `7` and still
the current session of the manager, and the only event added to the trace is
`deactivate` to the input method: no `leave` is sent. -/
theorem destroy_input_method_tells_nobody :
    (scenario_active.im 1).input = some 3 ∧
    (scenario_active.ti 3).surface = some 7 ∧
    (scenario_input_method_destroyed.ti 3).input_method = none ∧
    (scenario_input_method_destroyed.ti 3).surface = some 7 ∧
    scenario_input_method_destroyed.text_input_manager.current_text_input = some 3 ∧
    scenario_input_method_destroyed.trace =
      scenario_active.trace ++ [Event.zwp_input_method_v2_send_deactivate (some 20)] := by
  decide

/-- Claim C16, evaluation of the code where it breaks the claim. The commit that
activates session `3` (with a surrounding text and a content type committed)
leaves it attached to input method `1` but sends the input method `activate`
only: no committed field and no `done`. The commit that deactivates session `3`
leaves it attached to no input method but still sends `text_change_cause`,
`content_type` and `done` to input method `1`, after the `leave`. -/
theorem commit_forwards_by_previous_attachment :
    (scenario_activating_commit.ti 3).input_method = some 1 ∧
    (scenario_activating_commit.ti 3).current.surrounding.text = some "abc" ∧
    scenario_activating_commit.trace =
      [Event.zwp_input_method_v2_send_activate (some 20),
       Event.show_input_panel_signal (some 7),
       Event.update_input_panel_signal { x1 := 0, y1 := 0, x2 := 0, y2 := 0 },
       Event.zwp_text_input_v3_send_enter (some 10) 7] ∧
    (scenario_deactivating_commit.ti 3).input_method = none ∧
    scenario_deactivating_commit.trace =
      scenario_active.trace ++
        [Event.hide_input_panel_signal,
         Event.zwp_text_input_v3_send_leave (some 10) 7,
         Event.zwp_input_method_v2_send_text_change_cause (some 20) 0,
         Event.zwp_input_method_v2_send_content_type (some 20) 0 0,
         Event.update_input_panel_signal { x1 := 0, y1 := 0, x2 := 0, y2 := 0 },
         Event.zwp_input_method_v2_send_done (some 20)] := by
  decide

/-- Claim C17, counterexample. Session `5` lives on a seat without input method
and has staged the cursor rectangle `(1, 2)-(4, 6)`; its commit makes that
rectangle current and emits nothing, so no `update_input_panel` signal. -/
theorem commit_without_input_method_is_silent :
    (scenario_no_input_method.ti 5).pending.cursor_rectangle =
      { x1 := 1, y1 := 2, x2 := 4, y2 := 6 } ∧
    ((text_input_commit scenario_no_input_method 5).ti 5).current.cursor_rectangle =
      { x1 := 1, y1 := 2, x2 := 4, y2 := 6 } ∧
    (text_input_commit scenario_no_input_method 5).trace = [] := by
  decide

/-- Claim C20, evaluation of the code where it breaks the claim. For the exits at
100 s, 109.0 s, 109.1 s, 109.2 s, 109.3 s, 110.5 s and 110.6 s every exit
triggers a relaunch, although six exits fall within the ten seconds ending at
the last one. -/
theorem respawn_window_is_not_sliding :
    respawn_decisions scenario_supervisor 1 scenario_exits =
      [true, true, true, true, true, true, true] ∧
    exits_within_window scenario_exits (timespec_of_msec 110600) = 6 := by
  decide

/-- Claim C19, evaluation of the code where it breaks the claim. A freshly
started supervisor has `deathstamp = 0`. When the clock reads 3.0 s at the first
exit of the helper and 10.5 s, 10.6 s, 10.7 s, 10.8 s and 10.9 s at the next
five, the six exits lie within eight seconds, the exit at 10.5 s resets the
count, and every exit triggers a relaunch, the sixth included. -/
theorem respawn_relaunches_at_sixth_exit :
    scenario_supervisor.input_method.deathcount = 0 ∧
    timespec_to_nsec scenario_supervisor.input_method.deathstamp = 0 ∧
    scenario_early_exits.length = 6 ∧
    timespec_to_nsec (timespec_of_msec 10900) - timespec_to_nsec (timespec_of_msec 3000) ≤
      8000000000 ∧
    exits_within_window scenario_early_exits (timespec_of_msec 10900) = 6 ∧
    respawn_decisions scenario_supervisor 1 scenario_early_exits =
      [true, true, true, true, true, true] := by
  decide

/-! ## Further claims on the concrete states -/

theorem get_input_method_registers_witness :
    2 ∉ (input_method_manager_get_input_method state_zero 1 20 0).input_method_manager.input_methods ∧
    (input_methods_of_seat scenario_two_input_methods 0).length = 2 ∧
    (scenario_two_input_methods.seat 0).input_method = some 2 :=
  ⟨by decide,
    (get_input_method_registers (input_method_manager_get_input_method state_zero 1 20 0)
      2 21 0 (by decide)).2.2.2.2.trans (by decide),
    (get_input_method_registers (input_method_manager_get_input_method state_zero 1 20 0)
      2 21 0 (by decide)).1⟩

theorem grab_restored_witness :
    (scenario_idle.im 1).seat = some 0 ∧
    (scenario_idle.seat 0).keyboard = some 0 ∧
    ((input_method_grab_keyboard scenario_idle 1 30).kbd 0).grab =
      keyboard_grab.input_method_grab ∧
    ((destroy_input_method (input_method_grab_keyboard scenario_idle 1 30) 1).kbd 0).grab =
      keyboard_grab.default_grab ∧
    ((destroy_input_method (input_method_grab_keyboard scenario_idle 1 30)
      1).kbd 0).input_method_resource = none :=
  ⟨by decide, by decide, by decide,
    (grab_restored scenario_idle 1 0 0 30 (by decide) (by decide)).1.1,
    (grab_restored scenario_idle 1 0 0 30 (by decide) (by decide)).1.2.1⟩

theorem commit_updates_input_panel_witness :
    (∃ batch, (text_input_commit scenario_active 3).trace =
      scenario_active.trace ++ batch ++
        [Event.update_input_panel_signal (scenario_active.ti 3).pending.cursor_rectangle,
         Event.zwp_input_method_v2_send_done (scenario_active.im 1).resource]) ∧
    (scenario_disabling.ti 3).pending.cursor_rectangle =
      { x1 := 1, y1 := 2, x2 := 4, y2 := 6 } ∧
    (∃ batch, (text_input_commit scenario_disabling 3).trace =
      scenario_disabling.trace ++ batch ++
        [Event.update_input_panel_signal (scenario_disabling.ti 3).pending.cursor_rectangle,
         Event.zwp_input_method_v2_send_done (scenario_disabling.im 1).resource]) ∧
    (text_input_commit scenario_enabling 3).trace =
      [Event.zwp_input_method_v2_send_activate (some 20),
       Event.show_input_panel_signal (some 7),
       Event.update_input_panel_signal { x1 := 1, y1 := 2, x2 := 4, y2 := 6 },
       Event.zwp_text_input_v3_send_enter (some 10) 7] ∧
    (text_input_commit scenario_no_input_method 5).trace.filter Event.is_update_input_panel =
      [] :=
  ⟨(commit_updates_input_panel scenario_active 3).2.1 1 (by decide),
   by decide,
   (commit_updates_input_panel scenario_disabling 3).2.1 1 (by decide),
   ((commit_updates_input_panel scenario_enabling 3).2.2.1 0 1 7 (by decide) (by decide)
      (by decide) (by decide) (by decide) (by decide) (by decide)).trans (by decide),
   ((commit_updates_input_panel scenario_no_input_method 5).2.2.2 (by decide)
      (Or.inr (Or.inl (by decide)))).trans (by decide)⟩

theorem respawn_gives_up_at_sixth_exit_witness :
    respawn_decisions scenario_supervisor 1 scenario_six_exits =
      [true, true, true, true, true, false] :=
  respawn_gives_up_at_sixth_exit "/usr/libexec/weston-keyboard" 1
    (timespec_of_msec 100000) (timespec_of_msec 101000) (timespec_of_msec 102000)
    (timespec_of_msec 103000) (timespec_of_msec 104000) (timespec_of_msec 108000)
    (by decide) (by decide) (by decide) (by decide) (by decide) (by decide) (by decide)

/-! ## Activation that does nothing -/

theorem text_input_commit_current_enabled (s : State) (t : Ptr) :
    ((text_input_commit s t).ti t).current_enabled = (s.ti t).pending_enabled := by
  rw [text_input_commit_unfold, (text_input_commit_forward_frame _ t _).1]
  split_ifs
  · rw [(activate_text_input_ti_frame (text_input_commit_store s t) t t).2.2.2.2.1]
    simp [text_input_commit_store]
  · simp [deactivate_text_input_ti, text_input_commit_store]
  · simp [text_input_commit_store]

/-- C22: Activation returns the state it was given, trace included, in each of
three cases: the seat of the text input session has no input method session;
the input method session of the seat already serves this text input session;
the input method session of the seat has no `pending_focused_surface`. In
every state an `enable` followed by `commit` leaves `current_enabled` true. -/
theorem activate_text_input_noop (s : State) (t : Ptr) :
    (∀ weston_seat, (s.ti t).seat = some weston_seat →
      (s.seat weston_seat).input_method = none → activate_text_input s t = s) ∧
    (∀ weston_seat m, (s.ti t).seat = some weston_seat →
      (s.seat weston_seat).input_method = some m → (s.im m).input = some t →
      activate_text_input s t = s) ∧
    (∀ weston_seat m, (s.ti t).seat = some weston_seat →
      (s.seat weston_seat).input_method = some m →
      (s.im m).pending_focused_surface = none → activate_text_input s t = s) ∧
    ((text_input_commit (text_input_enable s t) t).ti t).current_enabled = true := by
  refine ⟨?_, ?_, ?_, ?_⟩
  · intro weston_seat h1 h2
    unfold activate_text_input
    simp [h1, h2]
  · intro weston_seat m h1 h2 h3
    unfold activate_text_input
    simp [h1, h2, h3]
  · intro weston_seat m h1 h2 h3
    unfold activate_text_input
    simp only [h1, h2, h3]
    split_ifs <;> rfl
  · rw [text_input_commit_current_enabled]
    simp [text_input_enable]

/-! ## Cancel of the keyboard grab -/

/-- C23, as amended: the cancel callback of the grab installs the default grab
on the keyboard and changes nothing else; the reference to the keyboard channel
stays as it was and no input method session is touched. Afterwards key and
modifier events on that keyboard are forwarded to nobody. -/
theorem grab_cancel_restores_default_only (s : State) (keyboard : Ptr) :
    input_method_context_grab_cancel s keyboard =
      s.set_kbd keyboard { s.kbd keyboard with grab := keyboard_grab.default_grab } ∧
    ((input_method_context_grab_cancel s keyboard).kbd keyboard).grab =
      keyboard_grab.default_grab ∧
    ((input_method_context_grab_cancel s keyboard).kbd keyboard).input_method_resource =
      (s.kbd keyboard).input_method_resource ∧
    (input_method_context_grab_cancel s keyboard).im = s.im ∧
    (∀ serial msecs key state_w,
      notify_key (input_method_context_grab_cancel s keyboard) keyboard serial msecs key
        state_w = input_method_context_grab_cancel s keyboard) ∧
    (∀ serial d l lo g,
      notify_modifiers (input_method_context_grab_cancel s keyboard) keyboard serial d l lo g =
        input_method_context_grab_cancel s keyboard) := by
  refine ⟨rfl, ?_, ?_, rfl, ?_, ?_⟩ <;>
    simp [input_method_context_grab_cancel, weston_keyboard_end_grab, notify_key,
      notify_modifiers]

/-! ## Destruction of a text input session -/

/-- C21: destroying the text input session `t` is Deactivation of `t` followed
by the removal of `t` from the registry of the manager. When every input method
session that serves `t` is the one `t` is attached to (`reachable_consistent`
shows this of every reachable state), afterwards no input method session
serves `t`, the current session of the manager is not `t`, the trace grew by the
hide signal where due and by `leave(S)` exactly if `t` was bound to `S`, the
registry is the old one without `t`, and every other session is registered as
before and unchanged. -/
theorem destroy_text_input_effect (s : State) (t : Ptr)
    (hserved : ∀ m, (s.im m).input = some t → (s.ti t).input_method = some m) :
    destroy_text_input s t =
      { deactivate_text_input s t with
        text_input_manager :=
          { (deactivate_text_input s t).text_input_manager with
            text_inputs := (deactivate_text_input s t).text_input_manager.text_inputs.erase t } } ∧
    (∀ m, ((destroy_text_input s t).im m).input ≠ some t) ∧
    (destroy_text_input s t).text_input_manager.current_text_input ≠ some t ∧
    (destroy_text_input s t).trace =
      s.trace ++
        (if (s.ti t).input_method ≠ none ∧ (s.ti t).input_panel_visible = true ∧
            s.text_input_manager.current_text_input = some t
          then [Event.hide_input_panel_signal] else []) ++
        (match (s.ti t).surface with
          | some surface => [Event.zwp_text_input_v3_send_leave (s.ti t).resource surface]
          | none => []) ∧
    (destroy_text_input s t).text_input_manager.text_inputs =
      s.text_input_manager.text_inputs.erase t ∧
    (∀ t', t' ≠ t →
      (t' ∈ (destroy_text_input s t).text_input_manager.text_inputs ↔
        t' ∈ s.text_input_manager.text_inputs) ∧
      (destroy_text_input s t).ti t' = s.ti t') := by
  refine ⟨rfl, ?_, ?_, ?_, ?_, ?_⟩
  · intro m
    show ((deactivate_text_input s t).im m).input ≠ some t
    rw [deactivate_text_input_im]
    split_ifs with h
    · simp
    · intro hm
      exact h (hserved m hm)
  · show (deactivate_text_input s t).text_input_manager.current_text_input ≠ some t
    rw [deactivate_text_input_tim]
    by_cases h : s.text_input_manager.current_text_input = some t <;> simp [h]
  · show (deactivate_text_input s t).trace = _
    rw [deactivate_text_input_trace]
    simp [Option.isSome_iff_ne_none]
  · show (deactivate_text_input s t).text_input_manager.text_inputs.erase t = _
    rw [deactivate_text_input_tim]
  · intro t' ht'
    constructor
    · show t' ∈ (deactivate_text_input s t).text_input_manager.text_inputs.erase t ↔ _
      rw [deactivate_text_input_tim]
      simp [List.mem_erase_of_ne ht']
    · show (deactivate_text_input s t).ti t' = s.ti t'
      rw [deactivate_text_input_ti]
      simp [ht']


/-! ## Focus lost and regained -/

theorem keyboard_focus_changed_lost (s : State) (m t surface keyboard : Ptr)
    (focus : Option Ptr)
    (hin : (s.im m).input = some t)
    (hsurf : (s.ti t).surface = some surface)
    (hfocus : focus ≠ some surface) :
    keyboard_focus_changed s m keyboard focus =
      (deactivate_text_input (s.set_kbd keyboard { s.kbd keyboard with focus := focus })
        t).set_im m
        { (deactivate_text_input (s.set_kbd keyboard { s.kbd keyboard with focus := focus })
            t).im m with pending_focused_surface := focus } := by
  unfold keyboard_focus_changed handle_keyboard_focus
  have hf : ¬ (some surface = focus) := fun h => hfocus h.symm
  simp [hin, hsurf, hf]

theorem keyboard_focus_changed_idle (s : State) (m keyboard : Ptr) (focus : Option Ptr)
    (hin : (s.im m).input = none) :
    keyboard_focus_changed s m keyboard focus =
      (s.set_kbd keyboard { s.kbd keyboard with focus := focus }).set_im m
        { s.im m with pending_focused_surface := focus } := by
  unfold keyboard_focus_changed handle_keyboard_focus
  simp [hin]

/-- A session that is enabled, with `pending_enabled` set or not, unattached and
unbound, on a seat whose input method serves nobody and has a focus recorded. -/
theorem enable_commit_inactive (s : State) (t : Ptr)
    (hen : (s.ti t).current_enabled = true)
    (hun : (s.ti t).input_method = none) :
    text_input_commit (text_input_enable s t) t =
      s.set_ti t { s.ti t with
        current_serial := ((s.ti t).current_serial + 1) % 4294967296,
        pending := text_input_state_zero, current := text_input_state_zero,
        pending_enabled := true } := by
  rw [text_input_commit_same_flag _ t (by simp [text_input_enable, hen])]
  have h : ((text_input_enable s t).ti t).input_method = none := by
    simp [text_input_enable, hun]
  rw [h, text_input_commit_forward_none]
  apply state_eq <;> intros <;> simp [text_input_commit_store, text_input_enable] <;>
    (split_ifs <;> simp_all)

theorem enable_commit_rounds_inactive (s : State) (t : Ptr) (n : Nat)
    (hen : (s.ti t).current_enabled = true)
    (hun : (s.ti t).input_method = none) :
    (enable_commit_rounds s t n).trace = s.trace ∧
    (enable_commit_rounds s t n).im = s.im ∧
    (enable_commit_rounds s t n).seat = s.seat ∧
    (enable_commit_rounds s t n).text_input_manager = s.text_input_manager ∧
    ((enable_commit_rounds s t n).ti t).current_enabled = true ∧
    ((enable_commit_rounds s t n).ti t).input_method = none ∧
    ((enable_commit_rounds s t n).ti t).surface = (s.ti t).surface ∧
    ((enable_commit_rounds s t n).ti t).seat = (s.ti t).seat ∧
    ((enable_commit_rounds s t n).ti t).resource = (s.ti t).resource := by
  induction n with
  | zero => simp [enable_commit_rounds, hen, hun]
  | succ k ih =>
    obtain ⟨i1, i2, i3, i4, i5, i6, i7, i8, i9⟩ := ih
    simp only [enable_commit_rounds]
    rw [enable_commit_inactive _ t i5 i6]
    simp [i1, i2, i3, i4, i5, i6, i7, i8, i9]

theorem disable_commit_inactive (s : State) (t : Ptr)
    (hen : (s.ti t).current_enabled = true)
    (hun : (s.ti t).input_method = none)
    (hsurf : (s.ti t).surface = none) :
    (text_input_commit (text_input_disable s t) t).trace = s.trace ∧
    (text_input_commit (text_input_disable s t) t).im = s.im ∧
    (text_input_commit (text_input_disable s t) t).seat = s.seat ∧
    ((text_input_commit (text_input_disable s t) t).ti t).current_enabled = false ∧
    ((text_input_commit (text_input_disable s t) t).ti t).input_method = none ∧
    ((text_input_commit (text_input_disable s t) t).ti t).seat = (s.ti t).seat ∧
    ((text_input_commit (text_input_disable s t) t).ti t).resource = (s.ti t).resource := by
  rw [text_input_commit_unfold]
  have e1 : ((text_input_disable s t).ti t).current_enabled = true := by
    simp [text_input_disable, hen]
  have e2 : ((text_input_disable s t).ti t).pending_enabled = false := by
    simp [text_input_disable]
  have e3 : ((text_input_disable s t).ti t).input_method = none := by
    simp [text_input_disable, hun]
  rw [e3, text_input_commit_forward_none]
  simp only [e1, e2]
  simp only [and_self, if_true, Bool.true_eq_false, Bool.false_eq_true, and_false, if_false]
  refine ⟨?_, ?_, ?_, ?_, ?_, ?_, ?_⟩
  · rw [deactivate_text_input_trace]
    simp [text_input_commit_store, text_input_disable, hun, hsurf]
  · funext m
    rw [deactivate_text_input_im]
    simp [text_input_commit_store, text_input_disable, hun]
  · rw [(deactivate_text_input_rest _ t).1]; rfl
  · simp [deactivate_text_input_ti, text_input_commit_store, text_input_disable]
  · simp [deactivate_text_input_ti]
  · simp [deactivate_text_input_ti, text_input_commit_store, text_input_disable]
  · simp [deactivate_text_input_ti, text_input_commit_store, text_input_disable]

/-- C26: when the keyboard focus leaves the surface of the active session `t`,
`t` is deactivated but `current_enabled` stays true. After the focus is back on
a surface, `n` rounds of `enable`, `commit` add nothing to the trace and leave
`t` unattached and the input method serving nobody; a `disable`, `commit` adds
nothing to the trace either; the following `enable`, `commit` attaches `t` to
the input method and sends `activate`, the panel signals and `enter`. -/
theorem focus_loss_keeps_enabled (s : State) (t m weston_seat surface surface' keyboard : Ptr)
    (focus : Option Ptr) (n : Nat)
    (hin : (s.im m).input = some t)
    (hat : (s.ti t).input_method = some m)
    (hsurf : (s.ti t).surface = some surface)
    (hen : (s.ti t).current_enabled = true)
    (hseat : (s.ti t).seat = some weston_seat)
    (him : (s.seat weston_seat).input_method = some m)
    (hfocus : focus ≠ some surface) :
    ((keyboard_focus_changed s m keyboard focus).ti t).current_enabled = true ∧
    ((keyboard_focus_changed s m keyboard focus).ti t).input_method = none ∧
    (enable_commit_rounds
        (keyboard_focus_changed (keyboard_focus_changed s m keyboard focus) m keyboard
          (some surface')) t n).trace =
      (keyboard_focus_changed s m keyboard focus).trace ∧
    ((enable_commit_rounds
        (keyboard_focus_changed (keyboard_focus_changed s m keyboard focus) m keyboard
          (some surface')) t n).ti t).input_method = none ∧
    ((enable_commit_rounds
        (keyboard_focus_changed (keyboard_focus_changed s m keyboard focus) m keyboard
          (some surface')) t n).im m).input = none ∧
    (text_input_commit (text_input_disable
        (enable_commit_rounds
          (keyboard_focus_changed (keyboard_focus_changed s m keyboard focus) m keyboard
            (some surface')) t n) t) t).trace =
      (keyboard_focus_changed s m keyboard focus).trace ∧
    ((text_input_commit (text_input_enable (text_input_commit (text_input_disable
        (enable_commit_rounds
          (keyboard_focus_changed (keyboard_focus_changed s m keyboard focus) m keyboard
            (some surface')) t n) t) t) t) t).im m).input = some t ∧
    ((text_input_commit (text_input_enable (text_input_commit (text_input_disable
        (enable_commit_rounds
          (keyboard_focus_changed (keyboard_focus_changed s m keyboard focus) m keyboard
            (some surface')) t n) t) t) t) t).ti t).input_method = some m ∧
    (text_input_commit (text_input_enable (text_input_commit (text_input_disable
        (enable_commit_rounds
          (keyboard_focus_changed (keyboard_focus_changed s m keyboard focus) m keyboard
            (some surface')) t n) t) t) t) t).trace =
      (keyboard_focus_changed s m keyboard focus).trace ++
        [Event.zwp_input_method_v2_send_activate (s.im m).resource,
         Event.show_input_panel_signal (some surface'),
         Event.update_input_panel_signal
           { x1 := 0, y1 := 0, x2 := 0, y2 := 0 },
         Event.zwp_text_input_v3_send_enter (s.ti t).resource surface'] := by
  -- the state after the focus was lost
  have e1 := keyboard_focus_changed_lost s m t surface keyboard focus hin hsurf hfocus
  have a1 : ((keyboard_focus_changed s m keyboard focus).ti t).current_enabled = true := by
    rw [e1]; simp [deactivate_text_input_ti, hen]
  have a2 : ((keyboard_focus_changed s m keyboard focus).ti t).input_method = none := by
    rw [e1]; simp [deactivate_text_input_ti]
  have a3 : ((keyboard_focus_changed s m keyboard focus).ti t).surface = none := by
    rw [e1]; simp [deactivate_text_input_ti]
  have a4 : ((keyboard_focus_changed s m keyboard focus).im m).input = none := by
    rw [e1]; simp [deactivate_text_input_im, hat]
  have a5 : ((keyboard_focus_changed s m keyboard focus).ti t).seat = some weston_seat := by
    rw [e1]; simp [deactivate_text_input_ti, hseat]
  have a6 : (keyboard_focus_changed s m keyboard focus).seat = s.seat := by
    rw [e1]; simp [(deactivate_text_input_rest _ t).1]
  have a7 : ((keyboard_focus_changed s m keyboard focus).ti t).resource = (s.ti t).resource := by
    rw [e1]; simp [deactivate_text_input_ti]
  have a8 : ((keyboard_focus_changed s m keyboard focus).im m).resource = (s.im m).resource := by
    rw [e1]; simp [deactivate_text_input_im, hat]
  -- the state after the focus came back
  have e2 := keyboard_focus_changed_idle (keyboard_focus_changed s m keyboard focus) m keyboard
    (some surface') a4
  generalize keyboard_focus_changed s m keyboard focus = s1 at *
  have b1 : ((keyboard_focus_changed s1 m keyboard (some surface')).ti t).current_enabled =
      true := by rw [e2]; simp [a1]
  have b2 : ((keyboard_focus_changed s1 m keyboard (some surface')).ti t).input_method =
      none := by rw [e2]; simp [a2]
  have b3 : ((keyboard_focus_changed s1 m keyboard (some surface')).ti t).surface = none := by
    rw [e2]; simp [a3]
  have b4 : ((keyboard_focus_changed s1 m keyboard (some surface')).im m).input = none := by
    rw [e2]; simp [a4]
  have b5 : ((keyboard_focus_changed s1 m keyboard (some surface')).ti t).seat =
      some weston_seat := by rw [e2]; simp [a5]
  have b6 : (keyboard_focus_changed s1 m keyboard (some surface')).seat = s.seat := by
    rw [e2]; simp [a6]
  have b7 : ((keyboard_focus_changed s1 m keyboard (some surface')).ti t).resource =
      (s.ti t).resource := by rw [e2]; simp [a7]
  have b8 : ((keyboard_focus_changed s1 m keyboard (some surface')).im m).resource =
      (s.im m).resource := by rw [e2]; simp [a8]
  have b9 : ((keyboard_focus_changed s1 m keyboard (some surface')).im
      m).pending_focused_surface = some surface' := by rw [e2]; simp
  have b10 : (keyboard_focus_changed s1 m keyboard (some surface')).trace = s1.trace := by
    rw [e2]; simp
  generalize keyboard_focus_changed s1 m keyboard (some surface') = s2 at *
  -- the rounds of enable and commit
  obtain ⟨c1, c2, c3, _, c5, c6, c7, c8, c9⟩ := enable_commit_rounds_inactive s2 t n b1 b2
  -- disable and commit
  obtain ⟨d1, d2, d3, d4, d5, d6, d7⟩ :=
    disable_commit_inactive (enable_commit_rounds s2 t n) t c5 c6 (by rw [c7, b3])
  -- enable and commit
  generalize enable_commit_rounds s2 t n = s3 at *
  have g1 : ((text_input_commit (text_input_disable s3 t) t).ti t).seat = some weston_seat := by
    rw [d6, c8, b5]
  have g2 : ((text_input_commit (text_input_disable s3 t) t).seat weston_seat).input_method =
      some m := by rw [d3, c3, b6, him]
  have g3 : ((text_input_commit (text_input_disable s3 t) t).im m).input ≠ some t := by
    rw [d2, c2, b4]; simp
  have g4 : ((text_input_commit (text_input_disable s3 t) t).im m).pending_focused_surface =
      some surface' := by rw [d2, c2, b9]
  have g5 : ((text_input_commit (text_input_disable s3 t) t).im m).resource =
      (s.im m).resource := by rw [d2, c2, b8]
  have g6 : ((text_input_commit (text_input_disable s3 t) t).ti t).resource =
      (s.ti t).resource := by rw [d7, c9, b7]
  have e5 := enable_commit_unfold (text_input_commit (text_input_disable s3 t) t) t
    weston_seat m surface' d4 g1 g2 g3 g4
  rw [d5, text_input_commit_forward_none] at e5
  refine ⟨a1, a2, by rw [c1, b10], c6, by rw [c2, b4], by rw [d1, c1, b10], ?_, ?_, ?_⟩
  · rw [e5]; simp
  · rw [e5]; simp
  · rw [e5]
    simp [g5, g6, d1, c1, b10, text_input_state_zero]


/-! ## Reachable states are consistent -/

theorem consistent_of_same (s s' : State)
    (hti : ∀ t, (s'.ti t).input_method = (s.ti t).input_method ∧
      (s'.ti t).current_enabled = (s.ti t).current_enabled)
    (him : ∀ m, (s'.im m).input = (s.im m).input)
    (hreg : s'.text_input_manager.text_inputs = s.text_input_manager.text_inputs)
    (h : consistent s) : consistent s' := by
  obtain ⟨h1, h2⟩ := h
  constructor
  · intro t ht
    rw [(hti t).1] at ht
    rw [(hti t).2]
    exact h1 t ht
  · intro m t hm
    rw [him m] at hm
    rw [(hti t).1, hreg]
    exact h2 m t hm

theorem served_deactivate_text_input (s : State) (t0 : Ptr)
    (h2 : ∀ m t, (s.im m).input = some t →
      (s.ti t).input_method = some m ∧ t ∈ s.text_input_manager.text_inputs) :
    ∀ m t, ((deactivate_text_input s t0).im m).input = some t →
      ((deactivate_text_input s t0).ti t).input_method = some m ∧
      t ∈ (deactivate_text_input s t0).text_input_manager.text_inputs := by
  intro m t hm
  rw [deactivate_text_input_im] at hm
  rw [deactivate_text_input_tim]
  by_cases e : (s.ti t0).input_method = some m
  · simp [e] at hm
  · simp only [e, if_false] at hm
    obtain ⟨p1, p2⟩ := h2 m t hm
    have hne : t ≠ t0 := by
      intro ht
      rw [ht] at p1
      exact e p1
    rw [deactivate_text_input_ti]
    simp only [hne, if_false]
    exact ⟨p1, p2⟩

theorem consistent_deactivate_text_input (s : State) (t0 : Ptr) (h : consistent s) :
    consistent (deactivate_text_input s t0) := by
  obtain ⟨h1, h2⟩ := h
  constructor
  · intro t ht
    rw [deactivate_text_input_ti] at ht ⊢
    by_cases e : t = t0
    · simp [e] at ht
    · simp only [e, if_false] at ht ⊢
      exact h1 t ht
  · exact served_deactivate_text_input s t0 h2

theorem consistent_text_input_commit (s : State) (t0 : Ptr) (h : consistent s)
    (hreg : t0 ∈ s.text_input_manager.text_inputs) :
    consistent (text_input_commit s t0) := by
  constructor
  · intro t ht
    exact text_input_commit_attached_enabled s t0 t (h.1 t) ht
  · obtain ⟨h1, h2⟩ := h
    have hS : ∀ m t, ((text_input_commit_store s t0).im m).input = some t →
        ((text_input_commit_store s t0).ti t).input_method = some m ∧
        t ∈ (text_input_commit_store s t0).text_input_manager.text_inputs := by
      intro m t hm
      have hm' : (s.im m).input = some t := by simpa [text_input_commit_store] using hm
      obtain ⟨p1, p2⟩ := h2 m t hm'
      have q : ((text_input_commit_store s t0).ti t).input_method = (s.ti t).input_method := by
        by_cases e : t = t0 <;> simp [text_input_commit_store, e]
      rw [q]
      exact ⟨p1, by simpa [text_input_commit_store] using p2⟩
    intro m t hm
    rw [text_input_commit_unfold] at hm ⊢
    have f := text_input_commit_forward_frame
    simp only [f] at hm ⊢
    split_ifs at hm ⊢ with c1 c2
    · rcases activate_text_input_cases (text_input_commit_store s t0) t0 with
        e | ⟨weston_seat, m0, surface, a1, a2, a3, a4⟩
      · rw [e] at hm ⊢
        exact hS m t hm
      · rw [activate_text_input_ok _ t0 weston_seat m0 surface a1 a2 a3 a4] at hm ⊢
        simp only [Function.update_apply] at hm ⊢
        by_cases em : m = m0
        · simp only [em, if_true] at hm
          have ht : t = t0 := (Option.some.inj hm).symm
          simp only [ht, em, if_true, true_and]
          simpa [text_input_commit_store] using hreg
        · simp only [em, if_false] at hm
          obtain ⟨p1, p2⟩ := hS m t hm
          by_cases et : t = t0
          · exfalso
            rw [et] at p1
            have q : (s.ti t0).input_method = some m := by
              simpa [text_input_commit_store] using p1
            have := h1 t0 (by rw [q]; simp)
            rw [c1.1] at this
            exact Bool.noConfusion this
          · simp only [et, if_false]
            exact ⟨p1, p2⟩
    · exact served_deactivate_text_input _ t0 hS m t hm
    · exact hS m t hm


theorem consistent_handle_keyboard_focus (s : State) (m keyboard : Ptr) (h : consistent s) :
    consistent (handle_keyboard_focus s m keyboard) := by
  unfold handle_keyboard_focus
  rcases option_cases (s.im m).input with hi | ⟨t, hi⟩
  · simp only [hi]
    apply consistent_of_same s _ _ _ _ h
    · intro t; simp
    · intro m'
      by_cases e : m' = m <;> simp [e, hi]
    · simp
  · simp only [hi]
    split_ifs
    · apply consistent_of_same (deactivate_text_input s t) _ _ _ _
        (consistent_deactivate_text_input s t h)
      · intro t'; simp
      · intro m'
        by_cases e : m' = m <;> simp [e]
      · simp
    · apply consistent_of_same s _ _ _ _ h
      · intro t'; simp
      · intro m'
        by_cases e : m' = m <;> simp [e]
      · simp

theorem input_method_commit_input (s : State) (m : Ptr) (serial : Nat) (m' : Ptr) :
    ((input_method_commit s m serial).im m').input = (s.im m').input := by
  by_cases e : m' = m
  · subst e
    rcases option_cases (s.im m').input with h | ⟨t, h⟩
    · have e : input_method_commit s m' serial = s := by
        unfold input_method_commit
        simp [h]
      rw [e]
    · unfold input_method_commit
      rcases option_cases (s.im m').pending.preedit.text with h1 | ⟨a, h1⟩ <;>
      rcases option_cases (s.im m').pending.commit_text with h2 | ⟨b, h2⟩ <;>
      by_cases h3 : (s.im m').pending.delete.before_length ≠ 0 ∨
        (s.im m').pending.delete.after_length ≠ 0 <;>
      simp [h, h1, h2, h3]
  · rw [(input_method_commit_frame s m serial).2.2.2.2.2 m' e]

theorem consistent_step (s : State) (r : Request) (h : consistent s)
    (ha : (Action.request r).allowed s) : consistent (step s r) := by
  cases r with
  | text_input_stage t r =>
    have f := text_input_stage_frame s t r
    apply consistent_of_same s _ _ _ _ h
    · intro t'
      by_cases e : t' = t
      · subst e
        simp only [step]
        rw [f.2.2.2.2.2.2.2.1]
        exact ⟨rfl, rfl⟩
      · simp only [step]
        rw [f.2.2.2.2.2.2.1 t' e]
        exact ⟨rfl, rfl⟩
    · intro m
      simp only [step]
      rw [f.1]
    · simp only [step]
      rw [f.2.2.2.1]
  | text_input_commit t => exact consistent_text_input_commit s t h ha
  | input_method_stage m r =>
    have f := input_method_stage_frame s m r
    apply consistent_of_same s _ _ _ _ h
    · intro t
      simp only [step]
      rw [f.1]
      exact ⟨rfl, rfl⟩
    · intro m'
      simp only [step]
      by_cases e : m' = m
      · subst e
        rw [f.2.2.2.2.2.2.2]
      · rw [f.2.2.2.2.2.2.1 m' e]
    · simp only [step]
      rw [f.2.2.2.1]
  | input_method_commit m serial =>
    have f := input_method_commit_frame s m serial
    apply consistent_of_same s _ _ _ _ h
    · intro t
      simp only [step]
      rw [f.1]
      exact ⟨rfl, rfl⟩
    · intro m'
      exact input_method_commit_input s m serial m'
    · simp only [step]
      rw [f.2.2.2.1]
  | keyboard_focus m keyboard => exact consistent_handle_keyboard_focus s m keyboard h

theorem unbind_keyboard_frame (s : State) (m : Ptr) :
    (unbind_keyboard s m).ti = s.ti ∧
    (∀ m', ((unbind_keyboard s m).im m').input = (s.im m').input) ∧
    (unbind_keyboard s m).text_input_manager = s.text_input_manager := by
  have f := input_method_end_keyboard_grab_frame s m
  unfold unbind_keyboard
  refine ⟨by simp [f], ?_, by simp [f]⟩
  intro m'
  by_cases e : m' = m <;> simp [e, f]

theorem input_method_grab_keyboard_frame (s : State) (m id : Ptr) :
    (input_method_grab_keyboard s m id).ti = s.ti ∧
    (∀ m', ((input_method_grab_keyboard s m id).im m').input = (s.im m').input) ∧
    (input_method_grab_keyboard s m id).text_input_manager = s.text_input_manager := by
  unfold input_method_grab_keyboard
  rcases option_cases (weston_seat_get_keyboard s (s.im m).seat) with h | ⟨k, h⟩
  · simp [h]
  · simp only [h]
    refine ⟨?_, ?_, ?_⟩
    · split_ifs <;> simp [weston_keyboard_start_grab, weston_keyboard_end_grab]
    · intro m'
      by_cases e : m' = m <;>
        split_ifs <;> simp [weston_keyboard_start_grab, weston_keyboard_end_grab, e]
    · split_ifs <;> simp [weston_keyboard_start_grab, weston_keyboard_end_grab]

theorem consistent_deactivate_input_method (s : State) (m0 : Ptr) (h : consistent s) :
    consistent (deactivate_input_method s m0) := by
  have f := input_method_end_keyboard_grab_frame s m0
  obtain ⟨h1, h2⟩ := h
  have hs1 : ∀ s1 : State, s1.ti = s.ti → s1.im = s.im →
      s1.text_input_manager = s.text_input_manager →
      consistent
        (match (s1.im m0).input with
          | some t =>
            (s1.set_ti t { s1.ti t with input_method := none }).set_im m0
              { (s1.set_ti t { s1.ti t with input_method := none }).im m0 with input := none }
          | none => s1) := by
    intro s1 e1 e2 e3
    rcases option_cases (s.im m0).input with hi | ⟨t0, hi⟩
    · simp only [e2, hi]
      exact consistent_of_same s s1 (by intro t; rw [e1]; exact ⟨rfl, rfl⟩)
        (by intro m; rw [e2]) (by rw [e3]) ⟨h1, h2⟩
    · simp only [e2, hi]
      constructor
      · intro t ht
        by_cases e : t = t0
        · simp [e] at ht
        · simp only [set_im_ti, set_ti_ti, e, if_false, e1] at ht ⊢
          exact h1 t ht
      · intro m t hm
        by_cases em : m = m0
        · simp [em] at hm
        · simp only [set_im_im, em, if_false, set_ti_im, e2] at hm
          obtain ⟨p1, p2⟩ := h2 m t hm
          have hne : t ≠ t0 := by
            intro ht
            rw [ht] at p1
            have q := (h2 m0 t0 hi).1
            rw [q] at p1
            exact em (Option.some.inj p1).symm
          simp only [set_im_ti, set_ti_ti, hne, if_false, e1, set_im_tim, set_ti_tim, e3]
          exact ⟨p1, p2⟩
  unfold deactivate_input_method
  rcases option_cases (s.im m0).resource with hr | ⟨r, hr⟩
  · simp only [hr]
    exact hs1 s rfl rfl rfl
  · simp only [hr]
    exact hs1 _ (by simp [f]) (by simp [f]) (by simp [f])

theorem consistent_destroy_input_method (s : State) (m0 : Ptr) (h : consistent s) :
    consistent (destroy_input_method s m0) := by
  have u := unbind_keyboard_frame s m0
  have key : ∀ (s2 : State) (l : List Ptr), consistent s2 →
      consistent { s2 with input_method_manager :=
        { s2.input_method_manager with input_methods := l } } := by
    intro s2 l h2
    exact consistent_of_same s2 _ (by intro t; exact ⟨rfl, rfl⟩) (by intro m; rfl) rfl h2
  have k1 : ∀ s1 : State, consistent s1 →
      consistent
        (match (s1.im m0).input with
          | some _ => deactivate_input_method s1 m0
          | none => s1) := by
    intro s1 h1
    rcases option_cases (s1.im m0).input with hi | ⟨t, hi⟩
    · simp only [hi]; exact h1
    · simp only [hi]; exact consistent_deactivate_input_method s1 m0 h1
  have h1 : consistent
      (match (s.im m0).keyboard with
        | some _ => unbind_keyboard s m0
        | none => s) := by
    rcases option_cases (s.im m0).keyboard with hk | ⟨k, hk⟩
    · simp only [hk]; exact h
    · simp only [hk]
      exact consistent_of_same s _ (by intro t; rw [u.1]; exact ⟨rfl, rfl⟩) u.2.1
        (by rw [u.2.2]) h
  exact key _ _ (k1 _ h1)

theorem consistent_act (s : State) (a : Action) (h : consistent s) (ha : a.allowed s) :
    consistent (act s a) := by
  cases a with
  | request r => exact consistent_step s r h ha
  | get_text_input p id weston_seat =>
    obtain ⟨h1, h2⟩ := h
    have hp : p ∉ s.text_input_manager.text_inputs := ha
    constructor
    · intro t ht
      by_cases e : t = p
      · simp [act, text_input_manager_get_text_input, e, text_input_zero] at ht
      · simp only [act, text_input_manager_get_text_input, set_ti_ti, e, if_false] at ht ⊢
        exact h1 t ht
    · intro m t hm
      have hm' : (s.im m).input = some t := by
        simpa [act, text_input_manager_get_text_input] using hm
      obtain ⟨p1, p2⟩ := h2 m t hm'
      have e : t ≠ p := fun e => hp (e ▸ p2)
      simp only [act, text_input_manager_get_text_input, set_ti_ti, e, if_false,
        set_ti_tim, List.mem_cons]
      exact ⟨p1, Or.inr p2⟩
  | get_input_method p id weston_seat =>
    obtain ⟨f1, f2, f3, f4⟩ := input_method_manager_get_input_method_facts s p id weston_seat
    have g : (input_method_manager_get_input_method s p id weston_seat).ti = s.ti ∧
        (input_method_manager_get_input_method s p id weston_seat).text_input_manager =
          s.text_input_manager ∧
        ((input_method_manager_get_input_method s p id weston_seat).im p).input = none := by
      unfold input_method_manager_get_input_method input_method_init_seat
      simp [input_method_zero]
    obtain ⟨h1, h2⟩ := h
    constructor
    · intro t ht
      simp only [act, g.1] at ht ⊢
      exact h1 t ht
    · intro m t hm
      simp only [act] at hm ⊢
      by_cases e : m = p
      · rw [e, g.2.2] at hm
        exact Option.noConfusion hm
      · rw [f4 m e] at hm
        rw [g.1, g.2.1]
        exact h2 m t hm
  | destroy_text_input t0 =>
    have d := consistent_deactivate_text_input s t0 h
    obtain ⟨d1, d2⟩ := d
    constructor
    · intro t ht
      exact d1 t ht
    · intro m t hm
      obtain ⟨p1, p2⟩ := d2 m t hm
      refine ⟨p1, ?_⟩
      have hne : t ≠ t0 := by
        intro e
        rw [e] at p1
        have : ((deactivate_text_input s t0).ti t0).input_method = none := by
          simp [deactivate_text_input_ti]
        rw [this] at p1
        exact Option.noConfusion p1
      show t ∈ (deactivate_text_input s t0).text_input_manager.text_inputs.erase t0
      exact (List.mem_erase_of_ne hne).2 p2
  | destroy_input_method m0 => exact consistent_destroy_input_method s m0 h
  | grab_keyboard m id =>
    have f := input_method_grab_keyboard_frame s m id
    exact consistent_of_same s _ (by intro t; simp only [act]; rw [f.1]; exact ⟨rfl, rfl⟩)
      f.2.1 (by simp only [act]; rw [f.2.2]) h
  | release_keyboard m =>
    have f := unbind_keyboard_frame s m
    exact consistent_of_same s _ (by intro t; simp only [act]; rw [f.1]; exact ⟨rfl, rfl⟩)
      f.2.1 (by simp only [act]; rw [f.2.2]) h
  | focus_changed m keyboard focus =>
    exact consistent_handle_keyboard_focus _ m keyboard
      (consistent_of_same s _ (by intro t; exact ⟨rfl, rfl⟩) (by intro m; rfl) rfl h)
  | key keyboard serial msecs key state_w =>
    apply consistent_of_same s _ _ _ _ h
    · intro t
      simp only [act, notify_key, input_method_context_grab_key]
      split <;> (try split) <;> (try split) <;> exact ⟨rfl, rfl⟩
    · intro m
      simp only [act, notify_key, input_method_context_grab_key]
      split <;> (try split) <;> (try split) <;> rfl
    · simp only [act, notify_key, input_method_context_grab_key]
      split <;> (try split) <;> (try split) <;> rfl
  | modifiers keyboard serial d l lo g =>
    apply consistent_of_same s _ _ _ _ h
    · intro t
      simp only [act, notify_modifiers, input_method_context_grab_modifier]
      split <;> (try split) <;> (try split) <;> exact ⟨rfl, rfl⟩
    · intro m
      simp only [act, notify_modifiers, input_method_context_grab_modifier]
      split <;> (try split) <;> (try split) <;> rfl
    · simp only [act, notify_modifiers, input_method_context_grab_modifier]
      split <;> (try split) <;> (try split) <;> rfl
  | grab_cancel keyboard =>
    exact consistent_of_same s _ (by intro t; exact ⟨rfl, rfl⟩) (by intro m; rfl) rfl h

/-- In every reachable state a text input session attached to an input method
is enabled, and a text input session served by an input method refers to that
input method and is in the registry. -/
theorem reachable_consistent (s : State) (h : Reachable s) : consistent s := by
  induction h with
  | start s hti him htim himm htrace =>
    constructor
    · intro t ht
      rw [hti t] at ht
      exact absurd rfl ht
    · intro m t hm
      rw [him m] at hm
      exact Option.noConfusion hm
  | next s a _ ha ih => exact consistent_act s a ih ha

/-! ## Closed evaluations of the life cycle -/

theorem scenario_active_served (m : Ptr) (h : (scenario_active.im m).input = some 3) :
    (scenario_active.ti 3).input_method = some m := by
  by_cases e : m = 1
  · subst e; decide
  · exfalso
    have u := enable_commit_unfold scenario_idle 3 0 1 7 (by decide) (by decide) (by decide)
      (by decide) (by decide)
    have hi : (scenario_active.im m).input = (scenario_idle.im m).input := by
      show ((text_input_commit (text_input_enable scenario_idle 3) 3).im m).input = _
      rw [u, (text_input_commit_forward_frame _ _ _).2.1]
      simp [e]
    rw [hi] at h
    simp [scenario_idle, e, input_method_zero] at h

theorem destroy_text_input_effect_witness :
    (∀ m, ((destroy_text_input scenario_active 3).im m).input ≠ some 3) ∧
    (destroy_text_input scenario_active 3).text_input_manager.current_text_input ≠ some 3 ∧
    (destroy_text_input scenario_active 3).trace =
      scenario_active.trace ++
        [Event.hide_input_panel_signal, Event.zwp_text_input_v3_send_leave (some 10) 7] ∧
    (destroy_text_input scenario_active 3).text_input_manager.text_inputs = [] :=
  ⟨(destroy_text_input_effect scenario_active 3 scenario_active_served).2.1,
   (destroy_text_input_effect scenario_active 3 scenario_active_served).2.2.1,
   (destroy_text_input_effect scenario_active 3 scenario_active_served).2.2.2.1.trans
     (by decide),
   (destroy_text_input_effect scenario_active 3 scenario_active_served).2.2.2.2.1.trans
     (by decide)⟩

theorem activate_text_input_noop_witness :
    activate_text_input scenario_no_input_method 5 = scenario_no_input_method ∧
    activate_text_input scenario_active 3 = scenario_active ∧
    activate_text_input scenario_unfocused 3 = scenario_unfocused ∧
    ((text_input_commit (text_input_enable scenario_unfocused 3) 3).ti 3).current_enabled =
      true :=
  ⟨(activate_text_input_noop scenario_no_input_method 5).1 9 (by decide) (by decide),
   (activate_text_input_noop scenario_active 3).2.1 0 1 (by decide) (by decide) (by decide),
   (activate_text_input_noop scenario_unfocused 3).2.2.1 0 1 (by decide) (by decide)
     (by decide),
   (activate_text_input_noop scenario_unfocused 3).2.2.2⟩

/-- C23, counterexample: with the input-method grab installed on keyboard `0`
and channel `30`, the cancel callback installs the default grab but leaves the
channel reference `30` in place, while the release of the channel installs the
default grab and clears the reference. -/
theorem grab_cancel_keeps_channel_reference :
    (scenario_grabbed.kbd 0).grab = keyboard_grab.input_method_grab ∧
    (scenario_grabbed.kbd 0).input_method_resource = some 30 ∧
    ((input_method_context_grab_cancel scenario_grabbed 0).kbd 0).grab =
      keyboard_grab.default_grab ∧
    ((input_method_context_grab_cancel scenario_grabbed 0).kbd 0).input_method_resource =
      some 30 ∧
    ((unbind_keyboard scenario_grabbed 1).kbd 0).grab = keyboard_grab.default_grab ∧
    ((unbind_keyboard scenario_grabbed 1).kbd 0).input_method_resource = none := by
  decide

/-- C24: after the input method session `1` was destroyed, seat `0` still
refers to it although it left the registry, and Activation of session `3` on
that seat attaches `3` to the destroyed session. When sessions `3` and `4` were
activated on it in turn, its destruction detaches only `4`, the session it
serves: `3` still has it as its input method. -/
theorem destroyed_input_method_stays_referenced :
    1 ∉ scenario_input_method_destroyed.input_method_manager.input_methods ∧
    (scenario_input_method_destroyed.seat 0).input_method = some 1 ∧
    ((activate_text_input scenario_input_method_destroyed 3).ti 3).input_method = some 1 ∧
    ((activate_text_input scenario_input_method_destroyed 3).im 1).input = some 3 ∧
    (scenario_two_sessions.im 1).input = some 4 ∧
    (scenario_two_sessions.ti 3).input_method = some 1 ∧
    1 ∉ (destroy_input_method scenario_two_sessions 1).input_method_manager.input_methods ∧
    ((destroy_input_method scenario_two_sessions 1).ti 3).input_method = some 1 ∧
    ((destroy_input_method scenario_two_sessions 1).ti 4).input_method = none := by
  decide

/-- C25: `deactivate_text_input` adds no `activate` or `deactivate` event to
the trace. Two rounds of `enable, commit, disable, commit`, a focus loss
followed by a new activation, and the destruction of the session followed by
the activation of a new one each give the input method two `activate` events
with no `deactivate` between them; `deactivate_input_method` does send
`deactivate`. -/
theorem deactivation_sends_no_deactivate :
    (∀ s t, (deactivate_text_input s t).trace.filter Event.is_activate_or_deactivate =
      s.trace.filter Event.is_activate_or_deactivate) ∧
    (enable_disable_rounds scenario_idle 3 2).trace.filter Event.is_activate_or_deactivate =
      [Event.zwp_input_method_v2_send_activate (some 20),
       Event.zwp_input_method_v2_send_activate (some 20)] ∧
    scenario_refocused.trace.filter Event.is_activate_or_deactivate =
      [Event.zwp_input_method_v2_send_activate (some 20),
       Event.zwp_input_method_v2_send_activate (some 20)] ∧
    scenario_recreated.trace.filter Event.is_activate_or_deactivate =
      [Event.zwp_input_method_v2_send_activate (some 20),
       Event.zwp_input_method_v2_send_activate (some 20)] ∧
    (deactivate_input_method scenario_active 1).trace.filter
        Event.is_activate_or_deactivate =
      [Event.zwp_input_method_v2_send_activate (some 20),
       Event.zwp_input_method_v2_send_deactivate (some 20)] := by
  refine ⟨?_, by decide, by decide, by decide, by decide⟩
  intro s t
  rw [deactivate_text_input_trace]
  simp only [List.filter_append]
  have h1 : (if (s.ti t).input_method.isSome = true ∧ (s.ti t).input_panel_visible = true ∧
      s.text_input_manager.current_text_input = some t
      then [Event.hide_input_panel_signal] else []).filter Event.is_activate_or_deactivate
      = [] := by
    split_ifs <;> rfl
  have h2 : (match (s.ti t).surface with
      | some surface => [Event.zwp_text_input_v3_send_leave (s.ti t).resource surface]
      | none => []).filter Event.is_activate_or_deactivate = [] := by
    rcases option_cases (s.ti t).surface with h | ⟨sf, h⟩ <;> simp [h] <;> rfl
  rw [h1, h2]
  simp

theorem focus_loss_keeps_enabled_witness :
    ((keyboard_focus_changed scenario_active 1 0 none).ti 3).current_enabled = true ∧
    ((keyboard_focus_changed scenario_active 1 0 none).ti 3).input_method = none ∧
    (enable_commit_rounds
        (keyboard_focus_changed (keyboard_focus_changed scenario_active 1 0 none) 1 0
          (some 8)) 3 2).trace = (keyboard_focus_changed scenario_active 1 0 none).trace :=
  ⟨(focus_loss_keeps_enabled scenario_active 3 1 0 7 8 0 none 2 (by decide) (by decide)
      (by decide) (by decide) (by decide) (by decide) (by decide)).1,
   (focus_loss_keeps_enabled scenario_active 3 1 0 7 8 0 none 2 (by decide) (by decide)
      (by decide) (by decide) (by decide) (by decide) (by decide)).2.1,
   (focus_loss_keeps_enabled scenario_active 3 1 0 7 8 0 none 2 (by decide) (by decide)
      (by decide) (by decide) (by decide) (by decide) (by decide)).2.2.1⟩

end TextBackend

namespace KeyboardClient

/-! ## Deleting before the cursor -/

/-- Without surrounding text, or without a character before the cursor,
`delete_before_cursor` requests nothing and changes nothing. -/
theorem delete_before_cursor_nothing (k : virtual_keyboard)
    (h : k.current.surrounding_text = none ∨
      ∃ text, k.current.surrounding_text = some text ∧
        prev_utf8_char text k.current.surrounding_cursor = none) :
    delete_before_cursor k = k := by
  unfold delete_before_cursor
  rcases h with h | ⟨text, h1, h2⟩
  · simp [h]
  · simp [h1, h2]

/-- With a character before the cursor, `delete_before_cursor` sends the two
requests, moves the cursor to `start` and writes one NUL byte at the old cursor:
the `memmove` is never reached, because the byte tested by `if (*end)` is the
one just set to NUL. -/
theorem delete_before_cursor_buffer (k : virtual_keyboard) (text : List Nat) (start : Nat)
    (ht : k.current.surrounding_text = some text)
    (hc : k.current.surrounding_cursor < text.length)
    (hs : prev_utf8_char text k.current.surrounding_cursor = some start) :
    (delete_before_cursor k).requests =
      k.requests ++
        [Request.zwp_input_method_v2_delete_surrounding_text
          (k.current.surrounding_cursor - start) 0,
         Request.zwp_input_method_v2_commit k.serial] ∧
    (delete_before_cursor k).current.surrounding_cursor = start ∧
    (delete_before_cursor k).current.surrounding_text =
      some (text.set k.current.surrounding_cursor 0) := by
  have hz : (text.set k.current.surrounding_cursor 0)[k.current.surrounding_cursor]?.getD 0
      = 0 := by
    simp [List.getElem?_set, hc]
  unfold delete_before_cursor
  simp [ht, hs, hz]

/-- C27: on the surrounding text `abcd` with the cursor behind `b`,
`delete_before_cursor` requests `delete_surrounding_text(1, 0)` and `commit`
and moves the cursor to 1, but its local copy becomes `ab`, not `acd`: it still
holds the deleted byte and has lost the text behind the cursor. On `ab` with
the cursor at the end the local copy stays `ab`, not `a`. -/
theorem delete_before_cursor_keeps_deleted_byte :
    prev_utf8_char [97, 98, 99, 100, 0] 2 = some 1 ∧
    (delete_before_cursor scenario_abcd).requests =
      [Request.zwp_input_method_v2_delete_surrounding_text 1 0,
       Request.zwp_input_method_v2_commit 5] ∧
    (delete_before_cursor scenario_abcd).current.surrounding_cursor = 1 ∧
    (delete_before_cursor scenario_abcd).current.surrounding_text =
      some [97, 98, 0, 100, 0] ∧
    (delete_before_cursor scenario_abcd).current.surrounding_text.map c_string =
      some [97, 98] ∧
    (delete_before_cursor scenario_abcd).current.surrounding_text.map c_string ≠
      some ([97, 98, 99, 100].take 1 ++ [97, 98, 99, 100].drop 2) ∧
    (delete_before_cursor scenario_ab).current.surrounding_cursor = 1 ∧
    (delete_before_cursor scenario_ab).current.surrounding_text.map c_string =
      some [97, 98] := by
  decide

/-! ## The done event -/

theorem keyboard_set_visibility_frame (k : virtual_keyboard) (visible : Bool) :
    (keyboard_set_visibility k visible).current = k.current ∧
    (keyboard_set_visibility k visible).pending = k.pending ∧
    (keyboard_set_visibility k visible).serial = k.serial := by
  unfold keyboard_set_visibility
  split_ifs <;> exact ⟨rfl, rfl, rfl⟩

/-- C28: `handle_commit_state` increments the serial, copies cursor, change
cause, content hint, content purpose and active flag from pending to current
and resets pending to the defaults with the active flag carried over, but the
surrounding text of current is always `NULL`: the text that
`handle_surrounding_text` stored in pending is freed and cleared before the
copy. After the events activate, surrounding_text `abc`, text_change_cause,
content_type, done the client has no surrounding text. -/
theorem done_drops_surrounding_text :
    (∀ k : virtual_keyboard,
      (handle_commit_state k).current.surrounding_text = none ∧
      (handle_commit_state k).current.surrounding_cursor = k.pending.surrounding_cursor ∧
      (handle_commit_state k).current.change_cause = k.pending.change_cause ∧
      (handle_commit_state k).current.content_hint = k.pending.content_hint ∧
      (handle_commit_state k).current.content_purpose = k.pending.content_purpose ∧
      (handle_commit_state k).current.active = k.pending.active ∧
      (handle_commit_state k).serial = (k.serial + 1) % 4294967296 ∧
      (handle_commit_state k).pending = { defaults with active := k.pending.active }) ∧
    (∀ (k : virtual_keyboard) (text : List Nat) (cursor anchor : Nat),
      (handle_surrounding_text k text cursor anchor).pending.surrounding_text =
        some (strdup text) ∧
      (handle_commit_state
        (handle_surrounding_text k text cursor anchor)).current.surrounding_text = none) ∧
    ((scenario_round.take 4).foldl dispatch scenario_started).pending.surrounding_text =
      some [97, 98, 99, 0] ∧
    (scenario_round.foldl dispatch scenario_started).current =
      { defaults with
        content_hint := 4, content_purpose := 5, change_cause := 1,
        surrounding_text := none, surrounding_cursor := 1, active := true } ∧
    delete_before_cursor (scenario_round.foldl dispatch scenario_started) =
      scenario_round.foldl dispatch scenario_started := by
  refine ⟨?_, ?_, by decide, by decide, by decide⟩
  · intro k
    have f := keyboard_set_visibility_frame
    refine ⟨?_, ?_, ?_, ?_, ?_, ?_, ?_, ?_⟩ <;> simp only [handle_commit_state, f]
  · intro k text cursor anchor
    have f := keyboard_set_visibility_frame
    refine ⟨rfl, ?_⟩
    simp only [handle_commit_state, f]

/-! ## Hit-testing and drawing -/

theorem to_int_of_nonneg (q : ℚ) (h : 0 ≤ q) : to_int q = ⌊q⌋ := by
  unfold to_int
  rw [if_pos h]
  rfl

theorem floor_div_sixty (x : Int) : ⌊(x : ℚ) / 60⌋ = x / 60 := by
  have h := Rat.floor_intCast_div_natCast x 60
  simpa using h

theorem floor_div_fifty (y : Int) : ⌊(y : ℚ) / 50⌋ = y / 50 := by
  have h := Rat.floor_intCast_div_natCast y 50
  simpa using h

theorem floor_floor_div (x : ℚ) (d : ℚ) (n : Nat) (hd : d = n) (hn : 0 < n) :
    ⌊((⌊x⌋ : Int) : ℚ) / d⌋ = ⌊x / d⌋ := by
  subst hd
  have hpos : (0 : ℚ) < n := by exact_mod_cast hn
  apply eq_of_forall_le_iff
  intro z
  rw [Int.le_floor, Int.le_floor, le_div_iff₀ hpos, le_div_iff₀ hpos]
  have e : (z : ℚ) * n = ((z * n : Int) : ℚ) := by push_cast; rfl
  rw [e, Int.cast_le, Int.le_floor]

/-- For a position with non-negative coordinates the handler selects by the
cell: column `x / 60` of row `y / 50`. -/
theorem button_handler_cell (l : layout) (x y : Int) (hx : 0 ≤ x) (hy : 0 ≤ y)
    (hr : y / 50 * l.columns < 4294967296) :
    button_handler l x y =
      select_loop (l.keys.take l.count) 0 (x / 60 + y / 50 * l.columns) := by
  have hy' : (0 : ℚ) ≤ (y : ℚ) / key_height := by
    apply div_nonneg
    · exact_mod_cast hy
    · norm_num [key_height]
  have hrow : to_int ((y : ℚ) / key_height) = y / 50 := by
    rw [to_int_of_nonneg _ hy']
    exact floor_div_fifty y
  have hrow0 : 0 ≤ y / 50 := Int.ediv_nonneg hy (by norm_num)
  have hprod : 0 ≤ y / 50 * (l.columns : Int) := mul_nonneg hrow0 (Int.natCast_nonneg _)
  have hu : ((to_uint32 (y / 50 * l.columns) : Nat) : Int) = y / 50 * l.columns := by
    unfold to_uint32
    rw [Int.emod_eq_of_lt hprod hr]
    exact Int.toNat_of_nonneg hprod
  have hx' : (0 : ℚ) ≤ (x : ℚ) / key_width + (to_uint32 (y / 50 * l.columns) : ℚ) := by
    apply add_nonneg
    · apply div_nonneg
      · exact_mod_cast hx
      · norm_num [key_width]
    · exact Nat.cast_nonneg _
  unfold button_handler
  simp only [hrow]
  rw [to_int_of_nonneg _ hx', Int.floor_add_nat]
  have e : ⌊(x : ℚ) / key_width⌋ = x / 60 := floor_div_sixty x
  rw [e, hu]

theorem touch_handler_eq (l : layout) (x y : ℚ) :
    touch_handler l x y = button_handler l (to_int x) (to_int y) := rfl

/-- The rectangle of a key contains a position with non-negative coordinates
exactly if the key covers the cell of the position. -/
theorem draw_key_cell (c : draw_key_call) (x y : ℚ) :
    draw_key c x y =
      decide ((c.col : Int) ≤ ⌊x / 60⌋ ∧ ⌊x / 60⌋ < (c.col : Int) + c.key.width ∧
        (c.row : Int) = ⌊y / 50⌋) := by
  unfold draw_key
  congr 1
  apply propext
  have h60 : (0 : ℚ) < 60 := by norm_num
  have h50 : (0 : ℚ) < 50 := by norm_num
  have e1 : ((c.col : ℚ) * key_width ≤ x) ↔ ((c.col : Int) ≤ ⌊x / 60⌋) := by
    rw [Int.le_floor, le_div_iff₀ h60]
    simp [key_width]
  have e2 : (x < (c.col : ℚ) * key_width + (c.key.width : ℚ) * key_width) ↔
      (⌊x / 60⌋ < (c.col : Int) + c.key.width) := by
    rw [Int.floor_lt, div_lt_iff₀ h60]
    simp [key_width, add_mul]
  have e3 : ((c.row : ℚ) * key_height ≤ y ∧ y < (c.row : ℚ) * key_height + key_height) ↔
      ((c.row : Int) = ⌊y / 50⌋) := by
    rw [eq_comm, Int.floor_eq_iff, le_div_iff₀ h50, div_lt_iff₀ h50]
    simp [key_height, add_mul]
  rw [e1, e2, e3]

theorem cells_agree_normal : cells_agree normal_layout := by decide

theorem cells_agree_numeric : cells_agree numeric_layout := by decide

theorem cells_agree_arabic : cells_agree arabic_layout := by decide


theorem drawn_at_cell (l : layout) (x y : ℚ) :
    drawn_at l x y =
      ((redraw_handler l).filter (fun c =>
        decide ((c.col : Int) ≤ ⌊x / 60⌋ ∧ ⌊x / 60⌋ < (c.col : Int) + c.key.width ∧
          (c.row : Int) = ⌊y / 50⌋))).map (fun c => c.i) := by
  unfold drawn_at
  congr 2
  funext c
  exact draw_key_cell c x y

theorem button_handler_drawn (l : layout) (h : cells_agree l) (x y : Int)
    (hx0 : 0 ≤ x) (hx1 : x < l.columns * 60) (hy0 : 0 ≤ y) (hy1 : y < l.rows * 50)
    (hsize : l.rows * l.columns < 4294967296) :
    (button_handler l x y).toList = drawn_at l x y := by
  have cx0 : 0 ≤ x / 60 := Int.ediv_nonneg hx0 (by norm_num)
  have cy0 : 0 ≤ y / 50 := Int.ediv_nonneg hy0 (by norm_num)
  have cx1 : x / 60 < l.columns := by
    apply Int.ediv_lt_of_lt_mul (by norm_num) hx1
  have cy1 : y / 50 < l.rows := by
    apply Int.ediv_lt_of_lt_mul (by norm_num) hy1
  obtain ⟨cx, hcx⟩ := Int.eq_ofNat_of_zero_le cx0
  obtain ⟨cy, hcy⟩ := Int.eq_ofNat_of_zero_le cy0
  have hr : y / 50 * l.columns < 4294967296 := by
    have h1 : y / 50 * (l.columns : Int) ≤ (l.rows : Int) * l.columns :=
      mul_le_mul_of_nonneg_right (le_of_lt cy1) (Int.natCast_nonneg _)
    have h2 : ((l.rows : Int) * l.columns) < 4294967296 := by exact_mod_cast hsize
    omega
  rw [button_handler_cell l x y hx0 hy0 hr, drawn_at_cell, floor_div_sixty, floor_div_fifty,
    hcx, hcy]
  rw [hcx] at cx1
  rw [hcy] at cy1
  exact h cx (by exact_mod_cast cx1) cy (by exact_mod_cast cy1)

theorem touch_handler_drawn (l : layout) (h : cells_agree l) (x y : ℚ)
    (hx0 : 0 ≤ x) (hx1 : x < l.columns * 60) (hy0 : 0 ≤ y) (hy1 : y < l.rows * 50)
    (hsize : l.rows * l.columns < 4294967296) :
    (touch_handler l x y).toList = drawn_at l x y := by
  rw [touch_handler_eq, to_int_of_nonneg x hx0, to_int_of_nonneg y hy0]
  have fx0 : 0 ≤ ⌊x⌋ := Int.floor_nonneg.2 hx0
  have fy0 : 0 ≤ ⌊y⌋ := Int.floor_nonneg.2 hy0
  have fx1 : ⌊x⌋ < l.columns * 60 := by
    rw [Int.floor_lt]
    push_cast
    exact hx1
  have fy1 : ⌊y⌋ < l.rows * 50 := by
    rw [Int.floor_lt]
    push_cast
    exact hy1
  rw [button_handler_drawn l h ⌊x⌋ ⌊y⌋ fx0 fx1 fy0 fy1 hsize, drawn_at_cell, drawn_at_cell,
    floor_floor_div x 60 60 (by norm_num) (by norm_num),
    floor_floor_div y 50 50 (by norm_num) (by norm_num)]

/-- C29: for each of the three built-in layouts and every position inside the
keyboard area, the key that `button_handler` selects for an integer pointer
position, and the key that `touch_handler` selects for a touch position, is
the one key whose rectangle `redraw_handler` draws over the position, and
nothing is selected where nothing is drawn; every row but the last is filled
by its keys to exactly `columns` cells, the last row to at most that. -/
theorem hit_test_agrees_with_drawing (l : layout)
    (hl : l = normal_layout ∨ l = numeric_layout ∨ l = arabic_layout) :
    (∀ x y : Int, 0 ≤ x → x < l.columns * 60 → 0 ≤ y → y < l.rows * 50 →
      (button_handler l x y).toList = drawn_at l x y) ∧
    (∀ x y : ℚ, 0 ≤ x → x < l.columns * 60 → 0 ≤ y → y < l.rows * 50 →
      (touch_handler l x y).toList = drawn_at l x y) ∧
    (∀ r < l.rows - 1, row_cells l r = l.columns) ∧
    row_cells l (l.rows - 1) ≤ l.columns := by
  have hc : cells_agree l := by
    rcases hl with h | h | h <;> subst h
    · exact cells_agree_normal
    · exact cells_agree_numeric
    · exact cells_agree_arabic
  have hsize : l.rows * l.columns < 4294967296 := by
    rcases hl with h | h | h <;> subst h <;> decide
  refine ⟨?_, ?_, ?_, ?_⟩
  · intro x y hx0 hx1 hy0 hy1
    exact button_handler_drawn l hc x y hx0 hx1 hy0 hy1 hsize
  · intro x y hx0 hx1 hy0 hy1
    exact touch_handler_drawn l hc x y hx0 hx1 hy0 hy1 hsize
  · rcases hl with h | h | h <;> subst h <;> decide
  · rcases hl with h | h | h <;> subst h <;> decide

theorem hit_test_agrees_with_drawing_witness :
    (button_handler normal_layout 130 70).toList = drawn_at normal_layout 130 70 ∧
    (touch_handler arabic_layout (1441 / 2) (1 / 3)).toList =
      drawn_at arabic_layout (1441 / 2) (1 / 3) ∧
    row_cells numeric_layout 0 = 12 :=
  ⟨(hit_test_agrees_with_drawing normal_layout (Or.inl rfl)).1 130 70 (by decide) (by decide)
      (by decide) (by decide),
   (hit_test_agrees_with_drawing arabic_layout (Or.inr (Or.inr rfl))).2.1 (1441 / 2) (1 / 3)
      (by norm_num) (by norm_num [arabic_layout]) (by norm_num) (by norm_num [arabic_layout]),
   (hit_test_agrees_with_drawing numeric_layout (Or.inr (Or.inl rfl))).2.2.1 0 (by decide)⟩

end KeyboardClient

namespace VncBackend

/-- C30: a keysym without entry in `key_translation`, here `XKB_KEY_Delete`,
pressed or released, makes `vnc_handle_key_event` inject a key event with key
code `0`; the handler injects nothing only for the keysyms `Shift_L` and
`Shift_R`. A keysym with an entry injects the code of the entry, between a
press and a release of the left shift key if the entry is marked shifted. -/
theorem unknown_keysym_injects_key_zero :
    (∀ e ∈ key_translation, e.keysym ≠ XKB_KEY_Delete) ∧
    vnc_handle_key_event XKB_KEY_Delete true =
      [{ key := 0, state := wl_keyboard_key_state.WL_KEYBOARD_KEY_STATE_PRESSED,
         update_state := weston_key_state_update.STATE_UPDATE_NONE }] ∧
    vnc_handle_key_event XKB_KEY_Delete false =
      [{ key := 0, state := wl_keyboard_key_state.WL_KEYBOARD_KEY_STATE_RELEASED,
         update_state := weston_key_state_update.STATE_UPDATE_NONE }] ∧
    (∀ keysym is_pressed,
      vnc_handle_key_event keysym is_pressed = [] ↔
        keysym = XKB_KEY_Shift_L ∨ keysym = XKB_KEY_Shift_R) ∧
    vnc_handle_key_event XKB_KEY_Shift_L true = [] ∧
    vnc_handle_key_event XKB_KEY_a true =
      [{ key := 0x1e, state := wl_keyboard_key_state.WL_KEYBOARD_KEY_STATE_PRESSED,
         update_state := weston_key_state_update.STATE_UPDATE_NONE }] ∧
    vnc_handle_key_event XKB_KEY_A false =
      [{ key := 0x2a, state := wl_keyboard_key_state.WL_KEYBOARD_KEY_STATE_PRESSED,
         update_state := weston_key_state_update.STATE_UPDATE_AUTOMATIC },
       { key := 0x1e, state := wl_keyboard_key_state.WL_KEYBOARD_KEY_STATE_RELEASED,
         update_state := weston_key_state_update.STATE_UPDATE_NONE },
       { key := 0x2a, state := wl_keyboard_key_state.WL_KEYBOARD_KEY_STATE_RELEASED,
         update_state := weston_key_state_update.STATE_UPDATE_AUTOMATIC }] := by
  refine ⟨by decide, by decide, by decide, ?_, by decide, by decide, by decide⟩
  intro keysym is_pressed
  unfold vnc_handle_key_event
  by_cases h : keysym = XKB_KEY_Shift_L ∨ keysym = XKB_KEY_Shift_R
  · simp [h]
  · simp only [h, if_false, iff_false]
    simp

end VncBackend
